import Mathlib

/-!
# mettle: suite building and fixture chaining

A shallow embedding of `include/mettle/suite.hpp`, `include/mettle/error.hpp` and
`include/mettle/glue.hpp`, with the `run_counter` helper of `test/test_suite.cpp`.

Conventions of the embedding.

* A C++ callable `std::function<void(T&...)>` is a function from the fixture tuple and the
  ambient state to the fixture tuple and ambient state it leaves, together with the value it
  threw, if any (`function_type`).  Fixtures are passed by reference in the source, so a callable
  that throws still leaves its mutations behind; the embedding keeps them.
* The fixture pack `T...` of a builder is one type `T`; the empty pack is `Unit`.  A nested
  level with parent pack `P` and own fixture `U` works on `P × U`.
* The ambient state is a `World`: the log of `run_counter` calls and whatever else the user
  code can reach (`globals`).
* `std::atomic<size_t>` is a natural number below `2 ^ 64`; `id_++` wraps.
* A test body is a callable that can be called; an empty `std::function` as body behaves like a
  body that throws `std::bad_function_call`, a `std::exception`.
* A construction callback is called as `f(builder)`.  The callback of `subsuite(name, f)` is
  written inside the callback of the enclosing builder and can hold a reference to it; the
  enclosing builder is therefore part of what the call can change (`capturing_action`).
-/

namespace mettle

/-! ## Thrown values (error.hpp) -/

/-- Values user code can throw, by the catch ladder of `suite_builder::wrap_test`:
`mettle::expectation_error` (derived from `std::runtime_error`), any other class derived from
`std::exception`, and anything else (`throw 42`). -/
inductive Thrown where
  | expectation_error (what : String)
  | std_exception (what : String)
  | other (tag : Nat)
  deriving DecidableEq

/-- The dynamic type is `mettle::expectation_error`. -/
def Thrown.is_expectation_error : Thrown → Bool
  | .expectation_error _ => true
  | _ => false

/-- The dynamic type derives from `std::exception`; `expectation_error` does, through
`std::runtime_error`. -/
def Thrown.is_std_exception : Thrown → Bool
  | .expectation_error _ => true
  | .std_exception _ => true
  | .other _ => false

/-- The text `e.what()` returns. -/
def Thrown.what : Thrown → String
  | .expectation_error m => m
  | .std_exception m => m
  | .other _ => ""

/-! ## Ambient state and callables -/

/-- State outside the fixtures: the log of calls written by `run_counter` and the rest of what
user callables can read and write. -/
structure World (G : Type) where
  trace : List String
  globals : G

/-- What a call of a `void(T&...)` callable leaves: the thrown value if it did not return
normally, the fixtures and the world. -/
structure Ran (G T : Type) where
  thrown : Option Thrown
  fixtures : T
  world : World G

/-- The type `std::function<void(T&...)>` of a callable over the fixture pack `T`. -/
abbrev function_type (G T : Type) := T → World G → Ran G T

/-- User code inside a `run_counter`: it sees the fixtures and the globals, not the log. -/
abbrev behaviour (G T : Type) := T → G → Option Thrown × T × G

/-- The helper `run_counter` of test_suite.cpp: `operator()` first records the run, then calls the
wrapped function.  The record is an entry `tag` in the log. -/
def run_counter {G T : Type} (tag : String) (f : behaviour G T) : function_type G T :=
  fun t w =>
    let r := f t w.globals
    { thrown := r.1, fixtures := r.2.1, world := { trace := w.trace ++ [tag], globals := r.2.2 } }

/-- A default constructor `U()`: it yields the fresh fixture or throws. -/
abbrev default_constructor (G U : Type) := G → Except Thrown U × G

/-! ## detail::run_test -/

/-- The function `detail::run_test(setup, teardown, test, fixtures)`. -/
def run_test {G T : Type} (setup teardown : Option (function_type G T))
    (test : function_type G T) (fixtures : T) (w : World G) : Ran G T :=
  -- if(setup) detail::apply(setup, fixtures);
  let r0 : Ran G T :=
    match setup with
    | some s => s fixtures w
    | none => { thrown := none, fixtures := fixtures, world := w }
  match r0.thrown with
  | some _ => r0
  | none =>
    -- try { detail::apply(test, fixtures); }
    let r1 := test r0.fixtures r0.world
    match r1.thrown with
    | some e =>
      -- catch(...) { if(teardown) detail::apply(teardown, fixtures); throw; }
      match teardown with
      | some d =>
        let r2 := d r1.fixtures r1.world
        match r2.thrown with
        | some _ => r2
        | none => { thrown := some e, fixtures := r2.fixtures, world := r2.world }
      | none => r1
    | none =>
      -- if(teardown) detail::apply(teardown, fixtures);
      match teardown with
      | some d => d r1.fixtures r1.world
      | none => r1

/-! ## detail::id_generator -/

/-- Number of values of `size_t`. -/
def size_t_modulus : Nat := 2 ^ 64

/-- The call `id_generator<size_t>::generate()`, `return id_++;`: the value returned and the
counter left behind. -/
def id_generator.generate (id_ : Nat) : Nat × Nat :=
  (id_, (id_ + 1) % size_t_modulus)

/-! ## test_result and compiled_suite -/

/-- The struct `test_result`. -/
structure test_result where
  passed : Bool
  message : String
  deriving DecidableEq

/-- The struct `compiled_suite<Ret, T...>::test_info`; `F` is its `function_type`. -/
structure compiled_suite.test_info (F : Type) where
  name : String
  function : F
  skip : Bool
  id : Nat

/-- The constructor of `compiled_suite::test_info`: the id comes from the generator. -/
def compiled_suite.test_info.create {F : Type} (name : String) (function : F) (skip : Bool)
    (id_ : Nat) : compiled_suite.test_info F × Nat :=
  let g := id_generator.generate id_
  ({ name := name, function := function, skip := skip, id := g.1 }, g.2)

/-- The class `compiled_suite<Ret, T...>`: name, tests, subsuites. -/
inductive compiled_suite (F : Type) where
  | mk (name_ : String) (tests_ : List (compiled_suite.test_info F))
      (subsuites_ : List (compiled_suite F))

/-- The accessor `name()`. -/
def compiled_suite.name {F : Type} : compiled_suite F → String
  | .mk n _ _ => n

/-- The tests iterated by `begin()`..`end()`. -/
def compiled_suite.tests {F : Type} : compiled_suite F → List (compiled_suite.test_info F)
  | .mk _ ts _ => ts

/-- The accessor `size()`. -/
def compiled_suite.size {F : Type} (s : compiled_suite F) : Nat :=
  s.tests.length

/-- The accessor `subsuites()`. -/
def compiled_suite.subsuites {F : Type} : compiled_suite F → List (compiled_suite F)
  | .mk _ _ ss => ss

/-- The loop `for(const auto &test : tests) tests_.push_back(f(test));`, with the id counter
threaded through. -/
def compile_tests {A F : Type} (f : A → Nat → compiled_suite.test_info F × Nat) :
    List A → Nat → List (compiled_suite.test_info F) × Nat
  | [], id_ => ([], id_)
  | t :: ts, id_ =>
    let r := f t id_
    let rest := compile_tests f ts r.2
    (r.1 :: rest.1, rest.2)

mutual
/-- The converting constructor `compiled_suite(const compiled_suite<Ret2, T2...> &suite, f)`,
which delegates to `compiled_suite(suite.name(), suite, suite.subsuites(), f)`. -/
def compiled_suite.convert {F F2 : Type}
    (f : compiled_suite.test_info F → Nat → compiled_suite.test_info F2 × Nat) :
    compiled_suite F → Nat → compiled_suite F2 × Nat
  | .mk name tests subs, id_ =>
    let ts := compile_tests f tests id_
    let ss := compiled_suite.convert_all f subs ts.2
    (.mk name ts.1 ss.1, ss.2)
/-- The loop `for(const auto &ss : subsuites) subsuites_.push_back(compiled_suite(ss, f));`. -/
def compiled_suite.convert_all {F F2 : Type}
    (f : compiled_suite.test_info F → Nat → compiled_suite.test_info F2 × Nat) :
    List (compiled_suite F) → Nat → List (compiled_suite F2) × Nat
  | [], id_ => ([], id_)
  | s :: ss, id_ =>
    let r := compiled_suite.convert f s id_
    let rest := compiled_suite.convert_all f ss r.2
    (r.1 :: rest.1, rest.2)
end

/-- The constructor `compiled_suite(name, tests, subsuites, f)`.  The generic lambda `f` is used
at two types, the builder's declarations (`fa`) and the tests of attached subsuites (`fs`). -/
def compiled_suite.construct {A F F2 : Type} (name : String) (tests : List A)
    (subsuites : List (compiled_suite F))
    (fa : A → Nat → compiled_suite.test_info F2 × Nat)
    (fs : compiled_suite.test_info F → Nat → compiled_suite.test_info F2 × Nat)
    (id_ : Nat) : compiled_suite F2 × Nat :=
  let ts := compile_tests fa tests id_
  let ss := compiled_suite.convert_all fs subsuites ts.2
  (.mk name ts.1 ss.1, ss.2)

/-! ## suite_builder_base -/

/-- The struct `suite_builder_base<T...>::test_info`: a declared test, not yet wrapped. -/
structure suite_builder_base.test_info (G T : Type) where
  name : String
  function : function_type G T
  skip : Bool

/-- The class `suite_builder_base<T...>`.  An empty `std::function` hook is `none`. -/
structure suite_builder_base (G T : Type) where
  name_ : String
  setup_ : Option (function_type G T)
  teardown_ : Option (function_type G T)
  tests_ : List (suite_builder_base.test_info G T)
  subsuites_ : List (compiled_suite (function_type G T))

namespace suite_builder_base

/-- The constructor `suite_builder_base(const std::string &name)`. -/
def create {G T : Type} (name : String) : suite_builder_base G T :=
  { name_ := name, setup_ := none, teardown_ := none, tests_ := [], subsuites_ := [] }

/-- The member `void setup(const function_type &f)`. -/
def setup {G T : Type} (b : suite_builder_base G T) (f : Option (function_type G T)) :
    suite_builder_base G T :=
  { b with setup_ := f }

/-- The member `void teardown(const function_type &f)`. -/
def teardown {G T : Type} (b : suite_builder_base G T) (f : Option (function_type G T)) :
    suite_builder_base G T :=
  { b with teardown_ := f }

/-- The member `void skip_test(name, f)`. -/
def skip_test {G T : Type} (b : suite_builder_base G T) (name : String)
    (f : function_type G T) : suite_builder_base G T :=
  { b with tests_ := b.tests_ ++ [{ name := name, function := f, skip := true }] }

/-- The member `void test(name, f)`. -/
def test {G T : Type} (b : suite_builder_base G T) (name : String)
    (f : function_type G T) : suite_builder_base G T :=
  { b with tests_ := b.tests_ ++ [{ name := name, function := f, skip := false }] }

/-- The member `void subsuite(const compiled_suite<void, T...> &subsuite)`. -/
def subsuite {G T : Type} (b : suite_builder_base G T)
    (s : compiled_suite (function_type G T)) : suite_builder_base G T :=
  { b with subsuites_ := b.subsuites_ ++ [s] }

/-- The member `void subsuite(const U &subsuites)` for a collection of suites. -/
def subsuite_all {G T : Type} (b : suite_builder_base G T)
    (ss : List (compiled_suite (function_type G T))) : suite_builder_base G T :=
  ss.foldl subsuite b

end suite_builder_base

/-! ## subsuite_builder -/

/-- The class `subsuite_builder<std::tuple<T...>, U...>`: a builder over the parent pack `P`
extended by the level's own fixture `U` (`Unit` when the level declares none), and the default
constructor `U()` used for each call. -/
structure subsuite_builder (G P U : Type) where
  base : suite_builder_base G (P × U)
  construct : default_constructor G U

namespace subsuite_builder

/-- The lambda `test_function` of `subsuite_builder::wrap_test`, capturing `setup_`, `teardown_`
and the test's function: it builds `std::tuple<T&..., U...> fixtures(args..., U()...)` and calls
`detail::run_test`.  The parent's fixtures are references: what the run leaves in them is what
the caller sees. -/
def test_function {G P U : Type} (b : subsuite_builder G P U)
    (f : function_type G (P × U)) : function_type G P :=
  fun args w =>
    let c := b.construct w.globals
    match c.1 with
    | .error e => { thrown := some e, fixtures := args, world := { w with globals := c.2 } }
    | .ok u =>
      let r := run_test b.base.setup_ b.base.teardown_ f (args, u) { w with globals := c.2 }
      { thrown := r.thrown, fixtures := r.fixtures.1, world := r.world }

/-- The member `subsuite_builder::wrap_test(test)`: `return { test.name, test_function,
test.skip };`.  It reads only `name`, `function` and `skip` of its argument. -/
def wrap_test {G P U : Type} (b : subsuite_builder G P U) (name : String)
    (function : function_type G (P × U)) (skip : Bool) (id_ : Nat) :
    compiled_suite.test_info (function_type G P) × Nat :=
  compiled_suite.test_info.create name (b.test_function function) skip id_

/-- The member `subsuite_builder::finalize()`. -/
def finalize {G P U : Type} (b : subsuite_builder G P U) (id_ : Nat) :
    compiled_suite (function_type G P) × Nat :=
  compiled_suite.construct b.base.name_ b.base.tests_ b.base.subsuites_
    (fun a => b.wrap_test a.name a.function a.skip)
    (fun a => b.wrap_test a.name a.function a.skip) id_

end subsuite_builder

/-! ## suite_builder -/

/-- What a call of a `std::function<test_result()>` leaves: the result it returned, or the value
that escaped it, and the world. -/
structure Invoked (G : Type) where
  result : Except Thrown test_result
  world : World G

/-- The function type of `runnable_suite::test_info`, `std::function<test_result()>`. -/
abbrev runnable_function (G : Type) := World G → Invoked G

/-- The suite type `runnable_suite = compiled_suite<test_result>`. -/
abbrev runnable_suite (G : Type) := compiled_suite (runnable_function G)

/-- A catch clause: whether it takes the thrown value and the message its body then assigns. -/
abbrev handler := Thrown → Option String

/-- The clause `catch(const exception_type &e) { message = e.what(); }`, with `exception_type`
being `expectation_error` as glue.hpp instantiates it. -/
def catch_exception_type : handler :=
  fun e => if e.is_expectation_error then some e.what else none

/-- The clause `catch(const std::exception &e)`: the message is
`std::string("Uncaught exception: ") + e.what()`. -/
def catch_std_exception : handler :=
  fun e => if e.is_std_exception then some ("Uncaught exception: " ++ e.what) else none

/-- The clause `catch(...) { message = "Unknown exception"; }`. -/
def catch_all : handler :=
  fun _ => some "Unknown exception"

/-- A ladder of catch clauses: the first clause that takes the value handles it; when none
does, the value keeps propagating. -/
def first_match : List handler → Thrown → Option String
  | [], _ => none
  | h :: hs, e =>
    match h e with
    | some m => some m
    | none => first_match hs e

/-- The class `suite_builder<expectation_error, T...>`: a builder over the root pack `T` and
the default constructor of `std::tuple<T...>`. -/
structure suite_builder (G T : Type) where
  base : suite_builder_base G T
  construct : default_constructor G T

namespace suite_builder

/-- The try block of the root lambda: `std::tuple<T...> fixtures;` then `detail::run_test`.
It yields what escapes the block and the world left. -/
def try_block {G T : Type} (b : suite_builder G T) (f : function_type G T) (w : World G) :
    Option Thrown × World G :=
  let c := b.construct w.globals
  match c.1 with
  | .error e => (some e, { w with globals := c.2 })
  | .ok fixtures =>
    let r := run_test b.base.setup_ b.base.teardown_ f fixtures { w with globals := c.2 }
    (r.thrown, r.world)

/-- The lambda `test_function` of `suite_builder::wrap_test`: `passed` becomes true when the try
block completes; otherwise the catch ladder sets the message; `return { passed, message };`. -/
def test_function {G T : Type} (b : suite_builder G T) (f : function_type G T) :
    runnable_function G :=
  fun w =>
    let r := b.try_block f w
    match r.1 with
    | none => { result := .ok { passed := true, message := "" }, world := r.2 }
    | some e =>
      match first_match [catch_exception_type, catch_std_exception, catch_all] e with
      | some message => { result := .ok { passed := false, message := message }, world := r.2 }
      | none => { result := .error e, world := r.2 }

/-- The member `suite_builder::wrap_test(test)`: `return { test.name, test_function, test.skip };`. -/
def wrap_test {G T : Type} (b : suite_builder G T) (name : String)
    (function : function_type G T) (skip : Bool) (id_ : Nat) :
    compiled_suite.test_info (runnable_function G) × Nat :=
  compiled_suite.test_info.create name (b.test_function function) skip id_

/-- The member `suite_builder::finalize()`. -/
def finalize {G T : Type} (b : suite_builder G T) (id_ : Nat) : runnable_suite G × Nat :=
  compiled_suite.construct b.base.name_ b.base.tests_ b.base.subsuites_
    (fun a => b.wrap_test a.name a.function a.skip)
    (fun a => b.wrap_test a.name a.function a.skip) id_

end suite_builder

/-- The message the catch ladder of the root lambda produces for an escaping value. -/
def root_message (e : Thrown) : String :=
  (first_match [catch_exception_type, catch_std_exception, catch_all] e).getD ""

/-! ## Examples -/

/-- User code that returns normally and touches nothing. -/
def returns {G T : Type} : behaviour G T :=
  fun t g => (none, t, g)

/-- User code that throws `e` and touches nothing. -/
def throws {G T : Type} (e : Thrown) : behaviour G T :=
  fun t g => (some e, t, g)

/-- The default constructor of the empty fixture pack. -/
def no_fixture {G : Type} : default_constructor G Unit :=
  fun g => (.ok (), g)

/-- The builder of the tests under "test calling": `make_suite<>("inner", ...)` with counted
setup and teardown. -/
def counted_builder (s d : behaviour Unit Unit) : suite_builder Unit Unit :=
  { base := ((suite_builder_base.create "inner").setup (some (run_counter "setup" s))).teardown
      (some (run_counter "teardown" d)),
    construct := no_fixture }

/-- The world before anything ran. -/
def fresh_world : World Unit :=
  { trace := [], globals := () }

/-! ## Whole trees and call sequences -/

mutual
/-- Every test of a suite tree, the suite's own tests first, then those of its subsuites in
order. -/
def compiled_suite.all_tests {F : Type} : compiled_suite F → List (compiled_suite.test_info F)
  | .mk _ ts ss => ts ++ compiled_suite.all_tests_of ss
/-- Every test of a list of suite trees. -/
def compiled_suite.all_tests_of {F : Type} :
    List (compiled_suite F) → List (compiled_suite.test_info F)
  | [] => []
  | s :: ss => s.all_tests ++ compiled_suite.all_tests_of ss
end

/-- The number of tests a builder holds, its own and those of the subsuites attached to it:
the number of `test_info` objects one `finalize` constructs. -/
def suite_builder_base.count {G T : Type} (b : suite_builder_base G T) : Nat :=
  b.tests_.length + (compiled_suite.all_tests_of b.subsuites_).length

/-- One call of a member function on a builder. -/
inductive builder_call (G T : Type) where
  | setup (f : Option (function_type G T))
  | teardown (f : Option (function_type G T))
  | test (name : String) (f : function_type G T)
  | skip_test (name : String) (f : function_type G T)
  | subsuite (s : compiled_suite (function_type G T))

/-- The builder after one call. -/
def suite_builder_base.call {G T : Type} (b : suite_builder_base G T) :
    builder_call G T → suite_builder_base G T
  | .setup f => b.setup f
  | .teardown f => b.teardown f
  | .test name f => b.test name f
  | .skip_test name f => b.skip_test name f
  | .subsuite s => b.subsuite s

/-- The builder after a sequence of calls, made in order. -/
def suite_builder_base.calls {G T : Type} (b : suite_builder_base G T)
    (cs : List (builder_call G T)) : suite_builder_base G T :=
  cs.foldl suite_builder_base.call b

/-- The name and skip flag a call declares, for the calls that declare a test: `test` declares
a test that is not skipped, `skip_test` one that is. -/
def builder_call.declared {G T : Type} : builder_call G T → Option (String × Bool)
  | .test name _ => some (name, false)
  | .skip_test name _ => some (name, true)
  | _ => none

/-- A root builder with one test whose body throws an expectation failure with empty text. -/
def empty_message_builder : suite_builder Unit Unit :=
  { base := (suite_builder_base.create "inner").test "inner test"
      (run_counter "test" (throws (.expectation_error ""))),
    construct := no_fixture }

/-- The default constructor of an `int` fixture, value-initialised. -/
def int_fixture {G : Type} : default_constructor G Int :=
  fun g => (.ok 0, g)

/-- The nested builder of the test "create subsuites": `subsuite<int>("subsuite", ...)` with a
test and a skipped test. -/
def example_subsuite_builder : subsuite_builder Unit Unit Int :=
  { base := ((suite_builder_base.create "subsuite").test "subtest"
        (run_counter "subtest" returns)).skip_test "skipped subtest"
        (run_counter "skipped subtest" returns),
    construct := int_fixture }

/-- A root builder with one test of its own and the finalized nested builder attached. -/
def example_builder : suite_builder Unit Unit :=
  { base := ((suite_builder_base.create "inner test suite").test "inner test"
        (run_counter "inner test" returns)).subsuite (example_subsuite_builder.finalize 0).1,
    construct := no_fixture }

/-! ## Successive calls of the id generator -/

/-- The initial counter state, `std::atomic<T> id_generator<T>::id_(0);`. -/
def id_generator.initial : Nat := 0

/-- The values returned by `n` successive calls of `generate`, in call order, and the counter
left behind. -/
def id_generator.generate_many : Nat → Nat → List Nat × Nat
  | 0, id_ => ([], id_)
  | n + 1, id_ =>
    let g := id_generator.generate id_
    let rest := id_generator.generate_many n g.2
    (g.1 :: rest.1, rest.2)

/-! ## Nesting -/

/-- The nested builders between a level with fixture pack `P` and the level whose builder
declares the test, with pack `Q`, outermost first.  `here` is the declaring level itself. -/
inductive nesting (G : Type) : Type → Type → Type 1 where
  | here {P : Type} : nesting G P P
  | level {P U Q : Type} (b : subsuite_builder G P U) (inner : nesting G (P × U) Q) :
      nesting G P Q

/-- The callable a test function becomes once every builder of the nesting has finalized,
innermost first: each `finalize` puts its own `test_function` lambda around it. -/
def nesting.wrap {G : Type} : {P Q : Type} → nesting G P Q → function_type G Q → function_type G P
  | _, _, .here, f => f
  | _, _, .level b inner, f => b.test_function (inner.wrap f)

/-- Every builder of the nesting registers a counted setup and a counted teardown that never
throw, and its fixture constructs; `setups` and `teardowns` list the tags, outermost first. -/
def nesting.counted {G : Type} :
    {P Q : Type} → nesting G P Q → List String → List String → Prop
  | _, _, .here, setups, teardowns => setups = [] ∧ teardowns = []
  | _, _, .level b inner, setups, teardowns =>
    ∃ S D rest_setups rest_teardowns s d,
      setups = S :: rest_setups ∧ teardowns = D :: rest_teardowns ∧
      b.base.setup_ = some (run_counter S s) ∧ b.base.teardown_ = some (run_counter D d) ∧
      (∀ t g, (s t g).1 = none) ∧ (∀ t g, (d t g).1 = none) ∧
      (∀ g, ∃ u, (b.construct g).1 = .ok u) ∧
      inner.counted rest_setups rest_teardowns

/-- A nested builder with counted setup and teardown and no fixture of its own. -/
def counted_subsuite_builder (P : Type) (S D : String) : subsuite_builder Unit P Unit :=
  { base := ((suite_builder_base.create "subsuite").setup
        (some (run_counter S returns))).teardown (some (run_counter D returns)),
    construct := no_fixture }

/-! ## Fixtures handed on between levels -/

/-- A hook as `run_test` treats it: an empty `std::function` is not called. -/
def call_hook {G T : Type} (h : Option (function_type G T)) : function_type G T :=
  fun t w =>
    match h with
    | some f => f t w
    | none => { thrown := none, fixtures := t, world := w }

/-- What each hook of a two-level call leaves behind, in the order the claim names them. -/
structure hand_over (G P U : Type) where
  after_outer_setup : Ran G P
  after_inner_setup : Ran G (P × U)
  after_body : Ran G (P × U)
  after_inner_teardown : Ran G (P × U)
  after_outer_teardown : Ran G P

/-- Following the claim's words, the shared outer fixture handed on through one call: the
outer setup works on the fresh value; the inner setup receives what the outer setup left,
next to the inner level's own fresh fixture `u`; the body receives what the inner setup left;
the inner teardown receives what the body left; the outer teardown receives what the inner
teardown left of the outer fixture. -/
def handed_on {G P U : Type} (outer_setup outer_teardown : Option (function_type G P)) (u : U)
    (inner_setup inner_teardown : Option (function_type G (P × U)))
    (body : function_type G (P × U)) (t0 : P) (w : World G) : hand_over G P U :=
  let a := call_hook outer_setup t0 w
  let b := call_hook inner_setup (a.fixtures, u) a.world
  let m := body b.fixtures b.world
  let n := call_hook inner_teardown m.fixtures m.world
  { after_outer_setup := a, after_inner_setup := b, after_body := m,
    after_inner_teardown := n,
    after_outer_teardown := call_hook outer_teardown n.fixtures.1 n.world }

/-- A plain lambda as a callable: user code that is not counted. -/
def plain {G T : Type} (f : behaviour G T) : function_type G T :=
  fun t w =>
    let r := f t w.globals
    { thrown := r.1, fixtures := r.2.1, world := { w with globals := r.2.2 } }

/-- The struct `basic_fixture` of test_suite.cpp. -/
structure basic_fixture where
  data : Int
  deriving DecidableEq

/-- The default constructor of `basic_fixture`, value-initialised inside the tuple. -/
def basic_fixture.construct {G : Type} : default_constructor G basic_fixture :=
  fun g => (.ok { data := 0 }, g)

/-- The statement `expect(data, equal_to(n))`: it throws an expectation failure unless the
value is `n`.  The text comes from the matcher library, which the suite engine does not
inspect. -/
def expect_equal_to (data n : Int) : Option Thrown :=
  if data = n then none else some (.expectation_error "expected: equal")

/-- The innermost builder of the suite "suite fixtures": `subsuite<int>("sub-subsuite", ...)`,
whose setup increments `data` and whose test expects 3. -/
def suite_fixtures_sub_subsuite : subsuite_builder Unit (basic_fixture × Unit) Int :=
  { base := ((suite_builder_base.create "sub-subsuite").setup
        (some (plain (fun t g => (none, (({ data := t.1.1.data + 1 }, t.1.2), t.2), g))))).test
        "fixture was passed by reference"
        (plain (fun t g => (expect_equal_to t.1.1.data 3, t, g))),
    construct := int_fixture }

/-- The middle builder of the suite "suite fixtures": `subsuite<>("subsuite", ...)`, whose setup
increments `data` and whose test expects 2, with the innermost suite attached after the test. -/
def suite_fixtures_subsuite : subsuite_builder Unit basic_fixture Unit :=
  { base := (((suite_builder_base.create "subsuite").setup
        (some (plain (fun t g => (none, ({ data := t.1.data + 1 }, t.2), g))))).test
        "fixture was passed by reference"
        (plain (fun t g => (expect_equal_to t.1.data 2, t, g)))).subsuite
        (suite_fixtures_sub_subsuite.finalize 0).1,
    construct := no_fixture }

/-- The root builder of the suite "suite fixtures": `suite<basic_fixture>`, with the subsuite
attached first and the setup, which stores 1 in `data`, registered after it. -/
def suite_fixtures : suite_builder Unit basic_fixture :=
  { base := ((suite_builder_base.create "suite fixtures").subsuite
        (suite_fixtures_subsuite.finalize 1).1).setup
        (some (plain (fun _ g => (none, { data := 1 }, g)))),
    construct := basic_fixture.construct }

/-- A nested builder whose counted setup throws `e`, with a counted teardown and no fixture of
its own. -/
def failing_setup_builder (P : Type) (S D : String) (e : Thrown) : subsuite_builder Unit P Unit :=
  { base := ((suite_builder_base.create "subsuite").setup
        (some (run_counter S (throws e)))).teardown (some (run_counter D returns)),
    construct := no_fixture }

/-! ## Suite construction (make_basic_suite, make_subsuite and their plural forms) -/

/-- A fixture type as the construction templates use it: the type, its default constructor and
the text `type_name<T>()` gives for it (type_name.hpp is not part of the sources, so the text
is carried along). -/
structure fixture_type (G : Type) where
  U : Type
  construct : default_constructor G U
  type_name : String

/-- The empty fixture pack, for the instantiations `make_suite<>` and `subsuite<>`. -/
def no_fixture_type {G : Type} : fixture_type G :=
  { U := Unit, construct := no_fixture, type_name := "" }

/-- The function `detail::annotate_type<T>(s)`: `s + " (" + type_name<T>() + ")"`. -/
def annotate_type (s : String) (type_name : String) : String :=
  s ++ " (" ++ type_name ++ ")"

/-- What the call `f(builder)` of a construction callback does when `f` acts on the builder it
is handed and on nothing else: it leaves the builder populated, or throws; it may advance the
id counter by finalizing nested builders.  The callback of `make_basic_suite` is used at this
type: no builder encloses the one it is handed. -/
abbrev builder_action (G T : Type) :=
  suite_builder_base G T → Nat → Except Thrown (suite_builder_base G T) × Nat

/-- What the call `f(builder)` does for the callback of `subsuite(name, f)`.  The callback is
an arbitrary callable written inside the enclosing callback, so besides populating the builder
it is handed (fixture pack `T`) it can hold a reference to the enclosing builder (pack `P`) and
call members on it.  The enclosing builder is state the call can change and is threaded
through, like the id counter. -/
abbrev capturing_action (G P T : Type) :=
  suite_builder_base G T → suite_builder_base G P → Nat →
    Except Thrown (suite_builder_base G T × suite_builder_base G P) × Nat

/-- A callback that populates the builder it is handed as `f` does and, through a captured
reference, makes the calls `outer` on the enclosing builder; `outer = []` is a callback that
does not touch the enclosing builder. -/
def builder_action.capturing {G P T : Type} (f : builder_action G T)
    (outer : List (builder_call G P)) : capturing_action G P T :=
  fun builder enclosing id_ =>
    let r := f builder id_
    match r.1 with
    | .error e => (.error e, r.2)
    | .ok b => (.ok (b, enclosing.calls outer), r.2)

/-- The function `make_subsuite<Parent, Fixture...>(name, f)`: `builder(name); f(builder);
return builder.finalize();`, with the enclosing builder as the call of `f` leaves it. -/
def make_subsuite {G P U : Type} (construct : default_constructor G U) (name : String)
    (f : capturing_action G P (P × U)) (enclosing : suite_builder_base G P) (id_ : Nat) :
    Except Thrown (compiled_suite (function_type G P) × suite_builder_base G P) × Nat :=
  let r := f (suite_builder_base.create name) enclosing id_
  match r.1 with
  | .error e => (.error e, r.2)
  | .ok p =>
    let s := subsuite_builder.finalize { base := p.1, construct := construct } r.2
    (.ok (s.1, p.2), s.2)

/-- The braced list of `make_subsuites` for two or more fixture types, evaluated left to
right: one `make_subsuite` per type under the annotated name. -/
def make_subsuites_annotated {G P : Type} (name : String)
    (f : (ft : fixture_type G) → capturing_action G P (P × ft.U)) :
    List (fixture_type G) → suite_builder_base G P → Nat →
      Except Thrown (List (compiled_suite (function_type G P)) × suite_builder_base G P) × Nat
  | [], enclosing, id_ => (.ok ([], enclosing), id_)
  | ft :: rest, enclosing, id_ =>
    let r := make_subsuite ft.construct (annotate_type name ft.type_name) (f ft) enclosing id_
    match r.1 with
    | .error e => (.error e, r.2)
    | .ok p =>
      let rs := make_subsuites_annotated name f rest p.2 r.2
      match rs.1 with
      | .error e => (.error e, rs.2)
      | .ok ps => (.ok (p.1 :: ps.1, ps.2), rs.2)

/-- The three overloads of `make_subsuites<Parent, Fixture...>(name, f)`: no fixture type, one,
and two or more. -/
def make_subsuites {G P : Type} (name : String)
    (f : (ft : fixture_type G) → capturing_action G P (P × ft.U)) :
    List (fixture_type G) → suite_builder_base G P → Nat →
      Except Thrown (List (compiled_suite (function_type G P)) × suite_builder_base G P) × Nat
  | [], enclosing, id_ =>
    let r := make_subsuite no_fixture_type.construct name (f no_fixture_type) enclosing id_
    match r.1 with
    | .error e => (.error e, r.2)
    | .ok p => (.ok ([p.1], p.2), r.2)
  | [ft], enclosing, id_ =>
    let r := make_subsuite ft.construct name (f ft) enclosing id_
    match r.1 with
    | .error e => (.error e, r.2)
    | .ok p => (.ok ([p.1], p.2), r.2)
  | first :: second :: rest, enclosing, id_ =>
    make_subsuites_annotated name f (first :: second :: rest) enclosing id_

/-- The member template `subsuite<Fixture...>(name, f)` of `suite_builder_base`:
`subsuite(make_subsuites<tuple_type, Fixture...>(name, f));`.  The argument is evaluated first,
so the suites are appended to the builder as the calls of `f` left it. -/
def suite_builder_base.subsuite_named {G T : Type} (b : suite_builder_base G T) (name : String)
    (f : (ft : fixture_type G) → capturing_action G T (T × ft.U))
    (fixtures : List (fixture_type G)) (id_ : Nat) :
    Except Thrown (suite_builder_base G T) × Nat :=
  let r := make_subsuites name f fixtures b id_
  match r.1 with
  | .error e => (.error e, r.2)
  | .ok p => (.ok (p.2.subsuite_all p.1), r.2)

/-- The function `make_basic_suite<Exception, Fixture...>(name, f)`: `builder(name);
f(builder); return builder.finalize();`. -/
def make_basic_suite {G T : Type} (construct : default_constructor G T) (name : String)
    (f : builder_action G T) (id_ : Nat) : Except Thrown (runnable_suite G) × Nat :=
  let r := f (suite_builder_base.create name) id_
  match r.1 with
  | .error e => (.error e, r.2)
  | .ok base =>
    let s := suite_builder.finalize { base := base, construct := construct } r.2
    (.ok s.1, s.2)

/-- The braced list of `make_basic_suites` for two or more fixture types, evaluated left to
right: one `make_basic_suite` per type under the annotated name. -/
def make_basic_suites_annotated {G : Type} (name : String)
    (f : (ft : fixture_type G) → builder_action G ft.U) :
    List (fixture_type G) → Nat → Except Thrown (List (runnable_suite G)) × Nat
  | [], id_ => (.ok [], id_)
  | ft :: rest, id_ =>
    let r := make_basic_suite ft.construct (annotate_type name ft.type_name) (f ft) id_
    match r.1 with
    | .error e => (.error e, r.2)
    | .ok s =>
      let rs := make_basic_suites_annotated name f rest r.2
      match rs.1 with
      | .error e => (.error e, rs.2)
      | .ok ss => (.ok (s :: ss), rs.2)

/-- The three overloads of `make_basic_suites<Exception, Fixture...>(name, f)`. -/
def make_basic_suites {G : Type} (name : String)
    (f : (ft : fixture_type G) → builder_action G ft.U) :
    List (fixture_type G) → Nat → Except Thrown (List (runnable_suite G)) × Nat
  | [], id_ =>
    let r := make_basic_suite no_fixture_type.construct name (f no_fixture_type) id_
    match r.1 with
    | .error e => (.error e, r.2)
    | .ok s => (.ok [s], r.2)
  | [ft], id_ =>
    let r := make_basic_suite ft.construct name (f ft) id_
    match r.1 with
    | .error e => (.error e, r.2)
    | .ok s => (.ok [s], r.2)
  | first :: second :: rest, id_ =>
    make_basic_suites_annotated name f (first :: second :: rest) id_

/-- The function `make_suite<Fixture...>(name, f)` of glue.hpp. -/
def make_suite {G T : Type} (construct : default_constructor G T) (name : String)
    (f : builder_action G T) (id_ : Nat) : Except Thrown (runnable_suite G) × Nat :=
  make_basic_suite construct name f id_

/-- The function `make_suites<Fixture...>(name, f)` of glue.hpp. -/
def make_suites {G : Type} (name : String) (f : (ft : fixture_type G) → builder_action G ft.U)
    (fixtures : List (fixture_type G)) (id_ : Nat) :
    Except Thrown (List (runnable_suite G)) × Nat :=
  make_basic_suites name f fixtures id_

/-- The body of a construction callback that acts on the builder it is handed only, over a
builder with fixture pack `T`: the member calls it makes on the builder, in order.  It can stop
by throwing, and a `subsuite<Fixture...>(name, f)` call carries its own generic callback `f`,
used at each fixture type. -/
inductive script (G : Type) : Type → Type 1 where
  | done {T : Type} : script G T
  | throw {T : Type} (e : Thrown) : script G T
  | call {T : Type} (c : builder_call G T) (rest : script G T) : script G T
  | subsuite {T : Type} (name : String) (fixtures : List (fixture_type G))
      (f : (ft : fixture_type G) → script G (T × ft.U)) (rest : script G T) : script G T

/-- Running a callback body on a builder. -/
def script.run {G : Type} : {T : Type} → script G T → builder_action G T
  | _, .done, b, id_ => (.ok b, id_)
  | _, .throw e, _, id_ => (.error e, id_)
  | _, .call c rest, b, id_ => script.run rest (b.call c) id_
  | _, .subsuite name fixtures f rest, b, id_ =>
    let r := b.subsuite_named name (fun ft => (script.run (f ft)).capturing []) fixtures id_
    match r.1 with
    | .error e => (.error e, r.2)
    | .ok b2 => script.run rest b2 r.2

/-- The suites a construction call returned; none when it threw. -/
def produced {α : Type} : Except Thrown (List α) → List α
  | .ok l => l
  | .error _ => []

/-- The fixture type `int`. -/
def int_type : fixture_type Unit :=
  { U := Int, construct := int_fixture, type_name := "int" }

/-- The fixture type `float`; its values play no role in suite construction. -/
def float_type : fixture_type Unit :=
  { U := Float, construct := fun g => (.ok 0, g), type_name := "float" }

/-- The generic callback of the tests "create a parameterized test suite" and "create a test
suite via make_suites": a test and a skipped test. -/
def inner_callback (ft : fixture_type Unit) : script Unit ft.U :=
  .call (.test "inner test" (run_counter "inner test" returns))
    (.call (.skip_test "skipped test" (run_counter "skipped test" returns)) .done)

/-! ## Structure of suites -/

/-- The structure of a suite tree without functions and ids: the name, the (name, skip flag)
pairs of the tests in order, and the structures of the subsuites in order. -/
inductive suite_shape where
  | mk (name : String) (tests : List (String × Bool)) (subsuites : List suite_shape)

mutual
/-- The structure of a suite tree. -/
def compiled_suite.shape {F : Type} : compiled_suite F → suite_shape
  | .mk n ts ss => .mk n (ts.map (fun t => (t.name, t.skip))) (compiled_suite.shape_all ss)
/-- The structures of a list of suite trees. -/
def compiled_suite.shape_all {F : Type} : List (compiled_suite F) → List suite_shape
  | [] => []
  | s :: ss => s.shape :: compiled_suite.shape_all ss
end

/-- What a populated builder declares: the (name, skip flag) pairs of its tests and the
structures of the subsuites attached to it. -/
def suite_builder_base.declared {G T : Type} (b : suite_builder_base G T) :
    List (String × Bool) × List suite_shape :=
  (b.tests_.map (fun a => (a.name, a.skip)), compiled_suite.shape_all b.subsuites_)

/-- The structure of a suite apart from its own name. -/
def compiled_suite.content {F : Type} (s : compiled_suite F) :
    List (String × Bool) × List suite_shape :=
  (s.tests.map (fun t => (t.name, t.skip)), compiled_suite.shape_all s.subsuites)

/-- A callback whose instantiations differ, as a function object with one `operator()` per
builder type does: it declares a test for the fixture type `int` only. -/
def per_type_callback (ft : fixture_type Unit) : script Unit ft.U :=
  if ft.type_name = "int" then
    .call (.test "only for int" (run_counter "only for int" returns)) .done
  else .done

/-- The generic callback of the tests "create a parameterized subsuite": a test and a skipped
test. -/
def subsuite_callback (P : Type) (ft : fixture_type Unit) : script Unit (P × ft.U) :=
  .call (.test "subtest" (run_counter "subtest" returns))
    (.call (.skip_test "skipped subtest" (run_counter "skipped subtest" returns)) .done)

/-- The suite `make_suites<int, float>("inner test suite", ...)` builds for one fixture type of
its list, with the id counter it starts from. -/
def inner_suite_for (ft : fixture_type Unit) (id_ : Nat) : runnable_suite Unit :=
  (suite_builder.finalize
    { base := ((suite_builder_base.create (annotate_type "inner test suite" ft.type_name)).test
          "inner test" (run_counter "inner test" returns)).skip_test "skipped test"
          (run_counter "skipped test" returns),
      construct := ft.construct } id_).1

/-- The base of the builder of "test calling" with one counted test declared. -/
def counted_base : suite_builder_base Unit Unit :=
  (counted_builder returns returns).base.test "inner test" (run_counter "test" returns)

/-- The calls that declare something: `test`, `skip_test` and `subsuite`, as opposed to the
calls that register a hook. -/
def builder_call.is_declaration {G T : Type} : builder_call G T → Bool
  | .test _ _ => true
  | .skip_test _ _ => true
  | .subsuite _ => true
  | _ => false

/-- The test a call declares, if it declares one. -/
def builder_call.declared_test {G T : Type} :
    builder_call G T → Option (suite_builder_base.test_info G T)
  | .test name f => some { name := name, function := f, skip := false }
  | .skip_test name f => some { name := name, function := f, skip := true }
  | _ => none

/-- The suite a call attaches, if it attaches one. -/
def builder_call.attached {G T : Type} :
    builder_call G T → Option (compiled_suite (function_type G T))
  | .subsuite s => some s
  | _ => none

/-- The calls of the suite "suite fixtures" on its root builder, in source order: the subsuite
first, the setup after it. -/
def suite_fixtures_calls : List (builder_call Unit basic_fixture) :=
  [.subsuite (suite_fixtures_subsuite.finalize 1).1,
   .setup (some (plain (fun _ g => (none, { data := 1 }, g))))]

/-- The same calls with the setup registered first. -/
def suite_fixtures_calls_setup_first : List (builder_call Unit basic_fixture) :=
  [.setup (some (plain (fun _ g => (none, { data := 1 }, g)))),
   .subsuite (suite_fixtures_subsuite.finalize 1).1]

/-! ## Callables that depend only on the fixtures -/

/-- A callable depends only on the fixtures it is passed: whether it throws, what it throws and
the fixtures it leaves are the same in every world. -/
def fixture_only {G T : Type} (h : function_type G T) : Prop :=
  ∀ t w1 w2, (h t w1).thrown = (h t w2).thrown ∧ (h t w1).fixtures = (h t w2).fixtures

/-- A default constructor yields the same default state, or throws the same value, in every
world. -/
def default_state {G U : Type} (c : default_constructor G U) : Prop :=
  ∀ g1 g2, (c g1).1 = (c g2).1

/-- Every level of the nesting has hooks that depend only on the fixtures and a constructor
that yields a default state. -/
def nesting.fixture_only {G : Type} : {P Q : Type} → nesting G P Q → Prop
  | _, _, .here => True
  | _, _, .level b inner =>
    mettle.fixture_only (call_hook b.base.setup_) ∧
      mettle.fixture_only (call_hook b.base.teardown_) ∧
      default_state b.construct ∧ inner.fixture_only

/-- The call registers a setup. -/
def builder_call.is_setup {G T : Type} : builder_call G T → Bool
  | .setup _ => true
  | _ => false

/-- The call registers a teardown. -/
def builder_call.is_teardown {G T : Type} : builder_call G T → Bool
  | .teardown _ => true
  | _ => false

/-- The builder of the test "passing test called": one counted test and no hooks. -/
def passing_test_builder : suite_builder Unit Unit :=
  { base := (suite_builder_base.create "inner").calls
      [.test "inner test" (run_counter "test" returns)],
    construct := no_fixture }

/-- A nested builder with no setup, a counted teardown and no fixture of its own. -/
def no_setup_builder : subsuite_builder Unit Unit Unit :=
  { base := (suite_builder_base.create "subsuite").teardown
      (some (run_counter "inner teardown" returns)),
    construct := no_fixture }

/-! ## A test declared below nested builders -/

/-- The number of nested builders of a nesting. -/
def nesting.depth {G : Type} : {P Q : Type} → nesting G P Q → Nat
  | _, _, .here => 0
  | _, _, .level _ inner => inner.depth + 1

/-- The builders of a nesting populated for one test the way nested `subsuite` calls do it,
innermost first: the declaring level gets the `test` call; each level above finalizes the
builder of the level below (`make_subsuite`: `f(builder); return builder.finalize();`) and
attaches the suite to its own builder `b` with `subsuite`.  The id counter is threaded through
the finalize calls. -/
def nesting.declare {G : Type} : {P Q : Type} → nesting G P Q → String → function_type G Q →
    suite_builder_base G P → Nat → suite_builder_base G P × Nat
  | _, _, .here, name, f, b, id_ => (b.test name f, id_)
  | _, _, .level sb inner, name, f, b, id_ =>
    let r := inner.declare name f sb.base id_
    let s := subsuite_builder.finalize { base := r.1, construct := sb.construct } r.2
    (b.subsuite s.1, s.2)

/-- The test reached in a suite tree by going `d` times to the last subsuite and then taking
the last test: the place where `push_back` puts a test declared last below `d` builders
attached last. -/
def compiled_suite.last_declared {F : Type} :
    Nat → compiled_suite F → Option (compiled_suite.test_info F)
  | 0, s => s.tests.getLast?
  | d + 1, s => s.subsuites.getLast?.bind (compiled_suite.last_declared d)

/-- The same place in a builder that is not finalized yet: name and function of its last test
for depth 0, and of the test at depth `d` of the subsuite attached last for depth `d + 1`. -/
def suite_builder_base.last_declared {G T : Type} :
    Nat → suite_builder_base G T → Option (String × function_type G T)
  | 0, b => b.tests_.getLast?.map (fun a => (a.name, a.function))
  | d + 1, b =>
    (b.subsuites_.getLast?.bind (compiled_suite.last_declared d)).map
      (fun t => (t.name, t.function))

/-! ## Hooks that note what they receive -/

/-- A root builder over `basic_fixture` whose hooks note in the globals the value of `data`
they receive: the setup notes it and increments it, the teardown notes it. -/
def noting_builder : suite_builder (List Int) basic_fixture :=
  { base := ((suite_builder_base.create "noting").setup
        (some (plain (fun t g => (none, { data := t.data + 1 }, g ++ [t.data]))))).teardown
        (some (plain (fun t g => (none, t, g ++ [t.data])))),
    construct := basic_fixture.construct }

/-- A nested builder below it with no fixture of its own: the setup notes `data` and
increments it, and so does the teardown. -/
def noting_subsuite : subsuite_builder (List Int) basic_fixture Unit :=
  { base := ((suite_builder_base.create "subsuite").setup
        (some (plain (fun t g => (none, ({ data := t.1.data + 1 }, t.2), g ++ [t.1.data]))))).teardown
        (some (plain (fun t g => (none, ({ data := t.1.data + 1 }, t.2), g ++ [t.1.data])))),
    construct := no_fixture }

/-- A test body that adds 5 to `data` and then fails an expectation. -/
def failing_body : function_type (List Int) (basic_fixture × Unit) :=
  plain (fun t g => (some (.expectation_error "failed"), ({ data := t.1.data + 5 }, t.2), g))

/-- A test body that expects `data` to be 2, the value two setups starting from a fresh
fixture leave, and then adds 5 to it. -/
def expecting_body : function_type (List Int) (basic_fixture × Unit) :=
  plain (fun t g => (expect_equal_to t.1.data 2, ({ data := t.1.data + 5 }, t.2), g))

/-- The world before anything ran, with nothing noted. -/
def nothing_noted : World (List Int) :=
  { trace := [], globals := [] }

/-- The enclosing builder after the callbacks of one `subsuite<Fixture...>(name, f)` call have
returned, when the run of the callback for fixture type `ft` makes the calls `outer ft` on it:
`make_subsuites` runs the callback once per fixture type, in the order of the type list, and
once, for the empty pack, when no type is given. -/
def suite_builder_base.after_callbacks {G T : Type} (b : suite_builder_base G T)
    (outer : (ft : fixture_type G) → List (builder_call G T)) :
    List (fixture_type G) → suite_builder_base G T
  | [] => b.calls (outer no_fixture_type)
  | ft :: rest => (ft :: rest).foldl (fun enclosing t => enclosing.calls (outer t)) b

/-- The calls a callback makes on the enclosing builder it captured by reference: it declares
one more test on it. -/
def late_test : List (builder_call Unit Unit) :=
  [.test "late test" (run_counter "late test" returns)]

/-- The builder a construction call left; the builder `b` itself when it threw. -/
def built {G T : Type} (b : suite_builder_base G T) :
    Except Thrown (suite_builder_base G T) → suite_builder_base G T
  | .ok b2 => b2
  | .error _ => b

/-! ## Theorems -/

theorem run_counter_thrown {G T : Type} (tag : String) (f : behaviour G T) (t : T)
    (w : World G) : (run_counter tag f t w).thrown = (f t w.globals).1 := rfl

theorem run_counter_trace {G T : Type} (tag : String) (f : behaviour G T) (t : T)
    (w : World G) : (run_counter tag f t w).world.trace = w.trace ++ [tag] := rfl

/-- C1: on a root builder whose setup S, teardown D and test body B are counted callables that
never throw (and whose fixture constructs), one call of the TestCase's function logs exactly the
calls S, B, D in that order and returns passed = true with the empty message. -/
theorem invoke_calls_setup_body_teardown {G T : Type} (b : suite_builder G T) (S B D : String)
    (s body d : behaviour G T) (name : String) (skip : Bool) (id_ : Nat) (w : World G)
    (hsetup : b.base.setup_ = some (run_counter S s))
    (hteardown : b.base.teardown_ = some (run_counter D d))
    (hconstruct : ∀ g, ∃ t, (b.construct g).1 = .ok t)
    (hs : ∀ t g, (s t g).1 = none) (hb : ∀ t g, (body t g).1 = none)
    (hd : ∀ t g, (d t g).1 = none) :
    ((b.wrap_test name (run_counter B body) skip id_).1.function w).world.trace
        = w.trace ++ [S, B, D] ∧
      ((b.wrap_test name (run_counter B body) skip id_).1.function w).result
        = .ok { passed := true, message := "" } := by
  obtain ⟨t, ht⟩ := hconstruct w.globals
  simp [suite_builder.wrap_test, compiled_suite.test_info.create, suite_builder.test_function,
    suite_builder.try_block, ht, run_test, hsetup, hteardown, run_counter_thrown, hs, hb, hd,
    run_counter_trace]

theorem invoke_calls_setup_body_teardown_witness :
    (((counted_builder returns returns).wrap_test "inner test" (run_counter "test" returns)
        false 0).1.function fresh_world).world.trace = [] ++ ["setup", "test", "teardown"] ∧
      (((counted_builder returns returns).wrap_test "inner test" (run_counter "test" returns)
        false 0).1.function fresh_world).result = .ok { passed := true, message := "" } :=
  invoke_calls_setup_body_teardown (counted_builder returns returns) "setup" "test" "teardown"
    returns returns returns "inner test" false 0 fresh_world rfl rfl (fun _ => ⟨(), rfl⟩)
    (fun _ _ => rfl) (fun _ _ => rfl) (fun _ _ => rfl)

/-- C2: at the root the Result is a function of what escapes the setup/body/teardown run:
nothing gives passed with the empty message; an expectation failure with text m gives failed
with message m, not prefixed; another standard exception with text m gives failed with
"Uncaught exception: " followed by m; any other value gives failed with "Unknown exception". -/
theorem result_by_escaping_exception {G T : Type} (b : suite_builder G T)
    (f : function_type G T) (name : String) (skip : Bool) (id_ : Nat) (w : World G) (t0 : T)
    (hconstruct : (b.construct w.globals).1 = .ok t0) :
    ((run_test b.base.setup_ b.base.teardown_ f t0
          { w with globals := (b.construct w.globals).2 }).thrown = none →
        ((b.wrap_test name f skip id_).1.function w).result
          = .ok { passed := true, message := "" }) ∧
      (∀ m, (run_test b.base.setup_ b.base.teardown_ f t0
          { w with globals := (b.construct w.globals).2 }).thrown
            = some (.expectation_error m) →
        ((b.wrap_test name f skip id_).1.function w).result
          = .ok { passed := false, message := m }) ∧
      (∀ m, (run_test b.base.setup_ b.base.teardown_ f t0
          { w with globals := (b.construct w.globals).2 }).thrown
            = some (.std_exception m) →
        ((b.wrap_test name f skip id_).1.function w).result
          = .ok { passed := false, message := "Uncaught exception: " ++ m }) ∧
      (∀ n, (run_test b.base.setup_ b.base.teardown_ f t0
          { w with globals := (b.construct w.globals).2 }).thrown = some (.other n) →
        ((b.wrap_test name f skip id_).1.function w).result
          = .ok { passed := false, message := "Unknown exception" }) := by
  refine ⟨?_, ?_, ?_, ?_⟩
  · intro h
    simp [suite_builder.wrap_test, compiled_suite.test_info.create,
      suite_builder.test_function, suite_builder.try_block, hconstruct, h]
  · intro m h
    simp [suite_builder.wrap_test, compiled_suite.test_info.create,
      suite_builder.test_function, suite_builder.try_block, hconstruct, h, first_match,
      catch_exception_type, Thrown.is_expectation_error, Thrown.what]
  · intro m h
    simp [suite_builder.wrap_test, compiled_suite.test_info.create,
      suite_builder.test_function, suite_builder.try_block, hconstruct, h, first_match,
      catch_exception_type, catch_std_exception, Thrown.is_expectation_error,
      Thrown.is_std_exception, Thrown.what]
  · intro n h
    simp [suite_builder.wrap_test, compiled_suite.test_info.create,
      suite_builder.test_function, suite_builder.try_block, hconstruct, h, first_match,
      catch_exception_type, catch_std_exception, catch_all, Thrown.is_expectation_error,
      Thrown.is_std_exception]

theorem result_by_escaping_exception_witness :
    (((counted_builder returns returns).wrap_test "test"
        (run_counter "test" (throws (.expectation_error "expected: true"))) false 0).1.function
          fresh_world).result = .ok { passed := false, message := "expected: true" } :=
  (result_by_escaping_exception (counted_builder returns returns)
    (run_counter "test" (throws (.expectation_error "expected: true"))) "test" false 0
    fresh_world () rfl).2.1 "expected: true" rfl

/-- C3: on a root builder whose counted setup S and teardown D never throw and whose counted
body B throws an expectation failure with message m, one call of the TestCase's function logs
exactly S, B, D in that order (teardown after the body) and returns failed with message m. -/
theorem teardown_called_when_test_fails {G T : Type} (b : suite_builder G T) (S B D : String)
    (s body d : behaviour G T) (m : String) (name : String) (skip : Bool) (id_ : Nat)
    (w : World G)
    (hsetup : b.base.setup_ = some (run_counter S s))
    (hteardown : b.base.teardown_ = some (run_counter D d))
    (hconstruct : ∀ g, ∃ t, (b.construct g).1 = .ok t)
    (hs : ∀ t g, (s t g).1 = none)
    (hb : ∀ t g, (body t g).1 = some (.expectation_error m))
    (hd : ∀ t g, (d t g).1 = none) :
    ((b.wrap_test name (run_counter B body) skip id_).1.function w).world.trace
        = w.trace ++ [S, B, D] ∧
      ((b.wrap_test name (run_counter B body) skip id_).1.function w).result
        = .ok { passed := false, message := m } := by
  obtain ⟨t, ht⟩ := hconstruct w.globals
  simp [suite_builder.wrap_test, compiled_suite.test_info.create, suite_builder.test_function,
    suite_builder.try_block, ht, run_test, hsetup, hteardown, run_counter_thrown, hs, hb, hd,
    run_counter_trace, first_match, catch_exception_type, Thrown.is_expectation_error,
    Thrown.what]

theorem teardown_called_when_test_fails_witness :
    (((counted_builder returns returns).wrap_test "inner test"
        (run_counter "test" (throws (.expectation_error "expected: true"))) false
          0).1.function fresh_world).world.trace = [] ++ ["setup", "test", "teardown"] ∧
      (((counted_builder returns returns).wrap_test "inner test"
        (run_counter "test" (throws (.expectation_error "expected: true"))) false
          0).1.function fresh_world).result
        = .ok { passed := false, message := "expected: true" } :=
  teardown_called_when_test_fails (counted_builder returns returns) "setup" "test" "teardown"
    returns (throws (.expectation_error "expected: true")) returns "expected: true"
    "inner test" false 0 fresh_world rfl rfl (fun _ => ⟨(), rfl⟩)
    (fun _ _ => rfl) (fun _ _ => rfl) (fun _ _ => rfl)

/-- C4: on a root builder whose counted setup S throws e when called on the fresh fixtures, one
call of the TestCase's function logs S alone, so the counted body B and the counted teardown D
are never run, and it returns failed with the message the root catch ladder derives from e. -/
theorem teardown_not_called_when_setup_fails {G T : Type} (b : suite_builder G T)
    (S B D : String) (s body d : behaviour G T) (e : Thrown) (name : String) (skip : Bool)
    (id_ : Nat) (w : World G) (t0 : T)
    (hsetup : b.base.setup_ = some (run_counter S s))
    (hteardown : b.base.teardown_ = some (run_counter D d))
    (hconstruct : (b.construct w.globals).1 = .ok t0)
    (hs : (s t0 (b.construct w.globals).2).1 = some e) :
    ((b.wrap_test name (run_counter B body) skip id_).1.function w).world.trace
        = w.trace ++ [S] ∧
      ((b.wrap_test name (run_counter B body) skip id_).1.function w).result
        = .ok { passed := false, message := root_message e } := by
  have hd := hteardown
  cases e <;>
    simp [suite_builder.wrap_test, compiled_suite.test_info.create,
      suite_builder.test_function, suite_builder.try_block, hconstruct, run_test, hsetup,
      run_counter_thrown, hs, run_counter_trace, first_match, catch_exception_type,
      catch_std_exception, catch_all, Thrown.is_expectation_error, Thrown.is_std_exception,
      Thrown.what, root_message]

theorem teardown_not_called_when_setup_fails_witness :
    (((counted_builder (throws (.expectation_error "expected: true")) returns).wrap_test
        "inner test" (run_counter "test" returns) false 0).1.function fresh_world).world.trace
        = [] ++ ["setup"] ∧
      (((counted_builder (throws (.expectation_error "expected: true")) returns).wrap_test
        "inner test" (run_counter "test" returns) false 0).1.function fresh_world).result
        = .ok { passed := false,
                message := root_message (.expectation_error "expected: true") } :=
  teardown_not_called_when_setup_fails
    (counted_builder (throws (.expectation_error "expected: true")) returns)
    "setup" "test" "teardown" (throws (.expectation_error "expected: true")) returns returns
    (.expectation_error "expected: true") "inner test" false 0 fresh_world () rfl rfl rfl rfl

/-- C5: on a root builder whose counted setup S and body B never throw and whose counted
teardown D throws e, one call of the TestCase's function logs S, B, D once each and returns
failed with the message the root catch ladder derives from e; the result is never a pass. -/
theorem test_fails_when_teardown_fails {G T : Type} (b : suite_builder G T) (S B D : String)
    (s body d : behaviour G T) (e : Thrown) (name : String) (skip : Bool) (id_ : Nat)
    (w : World G)
    (hsetup : b.base.setup_ = some (run_counter S s))
    (hteardown : b.base.teardown_ = some (run_counter D d))
    (hconstruct : ∀ g, ∃ t, (b.construct g).1 = .ok t)
    (hs : ∀ t g, (s t g).1 = none) (hb : ∀ t g, (body t g).1 = none)
    (hd : ∀ t g, (d t g).1 = some e) :
    ((b.wrap_test name (run_counter B body) skip id_).1.function w).world.trace
        = w.trace ++ [S, B, D] ∧
      ((b.wrap_test name (run_counter B body) skip id_).1.function w).result
        = .ok { passed := false, message := root_message e } := by
  obtain ⟨t, ht⟩ := hconstruct w.globals
  cases e <;>
    simp [suite_builder.wrap_test, compiled_suite.test_info.create,
      suite_builder.test_function, suite_builder.try_block, ht, run_test, hsetup, hteardown,
      run_counter_thrown, hs, hb, hd, run_counter_trace, first_match, catch_exception_type,
      catch_std_exception, catch_all, Thrown.is_expectation_error, Thrown.is_std_exception,
      Thrown.what, root_message]

theorem test_fails_when_teardown_fails_witness :
    (((counted_builder returns (throws (.std_exception "disk full"))).wrap_test "inner test"
        (run_counter "test" returns) false 0).1.function fresh_world).world.trace
        = [] ++ ["setup", "test", "teardown"] ∧
      (((counted_builder returns (throws (.std_exception "disk full"))).wrap_test "inner test"
        (run_counter "test" returns) false 0).1.function fresh_world).result
        = .ok { passed := false, message := root_message (.std_exception "disk full") } :=
  test_fails_when_teardown_fails (counted_builder returns (throws (.std_exception "disk full")))
    "setup" "test" "teardown" returns returns (throws (.std_exception "disk full"))
    (.std_exception "disk full") "inner test" false 0 fresh_world rfl rfl (fun _ => ⟨(), rfl⟩)
    (fun _ _ => rfl) (fun _ _ => rfl) (fun _ _ => rfl)

/-- C6: on a root builder whose setup, if any, returns normally and whose teardown throws e,
a body that throws leaves no mark on the Result: the Result is failed with the message the root
catch ladder derives from e, so for any two throwing bodies the two Results are equal. -/
theorem teardown_failure_replaces_body_failure {G T : Type} (b : suite_builder G T)
    (d f1 f2 : function_type G T) (e : Thrown) (name1 name2 : String) (skip1 skip2 : Bool)
    (id1 id2 : Nat) (w : World G)
    (hteardown : b.base.teardown_ = some d)
    (hconstruct : ∀ g, ∃ t, (b.construct g).1 = .ok t)
    (hs : ∀ s, b.base.setup_ = some s → ∀ t v, (s t v).thrown = none)
    (h1 : ∀ t v, (f1 t v).thrown ≠ none) (h2 : ∀ t v, (f2 t v).thrown ≠ none)
    (hd : ∀ t v, (d t v).thrown = some e) :
    ((b.wrap_test name1 f1 skip1 id1).1.function w).result
        = .ok { passed := false, message := root_message e } ∧
      ((b.wrap_test name2 f2 skip2 id2).1.function w).result
        = .ok { passed := false, message := root_message e } ∧
      ((b.wrap_test name1 f1 skip1 id1).1.function w).result
        = ((b.wrap_test name2 f2 skip2 id2).1.function w).result := by
  obtain ⟨t, ht⟩ := hconstruct w.globals
  have key : ∀ f : function_type G T, (∀ t v, (f t v).thrown ≠ none) →
      (b.test_function f w).result = .ok { passed := false, message := root_message e } := by
    intro f hf
    have hrun : (b.try_block f w).1 = some e := by
      simp only [suite_builder.try_block, ht, hteardown, run_test]
      cases hsetup : b.base.setup_ with
      | none =>
        simp only []
        cases hb : (f t { w with globals := (b.construct w.globals).2 }).thrown with
        | none => exact absurd hb (hf _ _)
        | some x => simp [hd]
      | some s =>
        simp only [hs s hsetup]
        cases hb : (f (s t { w with globals := (b.construct w.globals).2 }).fixtures
            (s t { w with globals := (b.construct w.globals).2 }).world).thrown with
        | none => exact absurd hb (hf _ _)
        | some x => simp [hd]
    simp only [suite_builder.test_function, hrun, root_message]
    cases e <;> simp [first_match, catch_exception_type, catch_std_exception, catch_all,
      Thrown.is_expectation_error, Thrown.is_std_exception, Thrown.what]
  have r1 := key f1 h1
  have r2 := key f2 h2
  refine ⟨r1, r2, ?_⟩
  exact r1.trans r2.symm

theorem teardown_failure_replaces_body_failure_witness :
    (((counted_builder returns (throws (.std_exception "disk full"))).wrap_test "a"
        (run_counter "test" (throws (.expectation_error "expected: 1"))) false
          0).1.function fresh_world).result
        = .ok { passed := false, message := root_message (.std_exception "disk full") } ∧
      (((counted_builder returns (throws (.std_exception "disk full"))).wrap_test "b"
        (run_counter "test" (throws (.other 42))) false 1).1.function fresh_world).result
        = .ok { passed := false, message := root_message (.std_exception "disk full") } ∧
      (((counted_builder returns (throws (.std_exception "disk full"))).wrap_test "a"
        (run_counter "test" (throws (.expectation_error "expected: 1"))) false
          0).1.function fresh_world).result
        = (((counted_builder returns (throws (.std_exception "disk full"))).wrap_test "b"
        (run_counter "test" (throws (.other 42))) false 1).1.function fresh_world).result :=
  teardown_failure_replaces_body_failure
    (counted_builder returns (throws (.std_exception "disk full")))
    (run_counter "teardown" (throws (.std_exception "disk full")))
    (run_counter "test" (throws (.expectation_error "expected: 1")))
    (run_counter "test" (throws (.other 42))) (.std_exception "disk full") "a" "b" false false
    0 1 fresh_world rfl (fun _ => ⟨(), rfl⟩)
    (fun s hs t v => by
      have h : s = run_counter "setup" returns := (Option.some.inj hs).symm
      subst h
      rfl)
    (fun _ _ => by simp [run_counter, throws]) (fun _ _ => by simp [run_counter, throws])
    (fun _ _ => rfl)

theorem compile_tests_forall {A F : Type} (P : compiled_suite.test_info F → Prop)
    (f : A → Nat → compiled_suite.test_info F × Nat) (hf : ∀ a c, P (f a c).1) :
    ∀ (l : List A) (c : Nat), ∀ t ∈ (compile_tests f l c).1, P t := by
  intro l
  induction l with
  | nil => intro c t ht; simp [compile_tests] at ht
  | cons a l ih =>
    intro c t ht
    simp only [compile_tests, List.mem_cons] at ht
    rcases ht with h | h
    · exact h ▸ hf a c
    · exact ih _ t h

mutual
theorem convert_forall {F F2 : Type} (P : compiled_suite.test_info F2 → Prop)
    (f : compiled_suite.test_info F → Nat → compiled_suite.test_info F2 × Nat)
    (hf : ∀ a c, P (f a c).1) :
    ∀ (s : compiled_suite F) (c : Nat), ∀ t ∈ (compiled_suite.convert f s c).1.all_tests, P t
  | .mk name tests subs, c, t, ht => by
    simp only [compiled_suite.convert, compiled_suite.all_tests, List.mem_append] at ht
    rcases ht with h | h
    · exact compile_tests_forall P f hf tests c t h
    · exact convert_all_forall P f hf subs _ t h
theorem convert_all_forall {F F2 : Type} (P : compiled_suite.test_info F2 → Prop)
    (f : compiled_suite.test_info F → Nat → compiled_suite.test_info F2 × Nat)
    (hf : ∀ a c, P (f a c).1) :
    ∀ (l : List (compiled_suite F)) (c : Nat),
      ∀ t ∈ compiled_suite.all_tests_of (compiled_suite.convert_all f l c).1, P t
  | [], c, t, ht => by simp [compiled_suite.convert_all, compiled_suite.all_tests_of] at ht
  | s :: ss, c, t, ht => by
    simp only [compiled_suite.convert_all, compiled_suite.all_tests_of, List.mem_append] at ht
    rcases ht with h | h
    · exact convert_forall P f hf s c t h
    · exact convert_all_forall P f hf ss _ t h
end

theorem construct_forall {A F F2 : Type} (P : compiled_suite.test_info F2 → Prop)
    (name : String) (tests : List A) (subsuites : List (compiled_suite F))
    (fa : A → Nat → compiled_suite.test_info F2 × Nat)
    (fs : compiled_suite.test_info F → Nat → compiled_suite.test_info F2 × Nat)
    (hfa : ∀ a c, P (fa a c).1) (hfs : ∀ a c, P (fs a c).1) (c : Nat) :
    ∀ t ∈ (compiled_suite.construct name tests subsuites fa fs c).1.all_tests, P t := by
  intro t ht
  simp only [compiled_suite.construct, compiled_suite.all_tests, List.mem_append] at ht
  rcases ht with h | h
  · exact compile_tests_forall P fa hfa tests c t h
  · exact convert_all_forall P fs hfs subsuites _ t h

/-- Every test of a finalized root suite, at any depth, carries the root lambda around some
callable. -/
theorem finalize_all_tests_function {G T : Type} (b : suite_builder G T) (id_ : Nat) :
    ∀ tc ∈ (b.finalize id_).1.all_tests, ∃ f, tc.function = b.test_function f :=
  construct_forall (fun tc => ∃ f, tc.function = b.test_function f) _ _ _ _ _
    (fun a _ => ⟨a.function, rfl⟩) (fun a _ => ⟨a.function, rfl⟩) id_

theorem uncaught_message_ne_empty (m : String) : "Uncaught exception: " ++ m ≠ "" := by
  intro h
  have hl := congrArg String.length h
  rw [String.length_append] at hl
  have h20 : "Uncaught exception: ".length = 20 := by decide
  have h0 : "".length = 0 := by decide
  omega

theorem unknown_message_ne_empty : "Unknown exception" ≠ "" := by decide

/-- The catch ladder of the root lambda takes every thrown value. -/
theorem first_match_root_ladder (e : Thrown) :
    first_match [catch_exception_type, catch_std_exception, catch_all] e
      = some (match e with
        | .expectation_error m => m
        | .std_exception m => "Uncaught exception: " ++ m
        | .other _ => "Unknown exception") := by
  cases e <;> simp [first_match, catch_exception_type, catch_std_exception, catch_all,
    Thrown.is_expectation_error, Thrown.is_std_exception, Thrown.what]

/-- The root lambda returns a result for every callable and every world. -/
theorem test_function_result {G T : Type} (b : suite_builder G T) (f : function_type G T)
    (w : World G) :
    (b.test_function f w).result
      = .ok (match (b.try_block f w).1 with
        | none => { passed := true, message := "" }
        | some e => { passed := false, message := root_message e }) := by
  simp only [suite_builder.test_function, root_message]
  cases h : (b.try_block f w).1 with
  | none => rfl
  | some e => simp [first_match_root_ladder]

/-- The own tests of a finalized root suite carry, in declaration order, the root lambda
around the declared functions. -/
theorem finalize_tests_function {G T : Type} (b : suite_builder G T) (id_ : Nat) :
    (b.finalize id_).1.tests.map (fun t => t.function)
      = b.base.tests_.map (fun a => b.test_function a.function) := by
  simp only [suite_builder.finalize, compiled_suite.construct, compiled_suite.tests]
  induction b.base.tests_ generalizing id_ with
  | nil => rfl
  | cons a l ih => simp only [compile_tests, List.map_cons, ih]; rfl

/-- C7, as stated, fails: a test whose body throws an expectation failure with empty text
fails with an empty message. -/
theorem message_empty_iff_passed_counterexample :
    ∃ tc ∈ (empty_message_builder.finalize 0).1.all_tests, ∃ r,
      (tc.function fresh_world).result = .ok r ∧ ¬ (r.message = "" ↔ r.passed = true) :=
  ⟨(empty_message_builder.wrap_test "inner test"
      (run_counter "test" (throws (.expectation_error ""))) false 0).1,
    List.mem_cons_self _ _, { passed := false, message := "" }, rfl, by decide⟩

/-- C7, amended: every TestCase of a finalized root suite, at any depth, wraps some callable
f in the root lambda, and each call returns a result in which passed = true implies the empty
message, the message is empty only if passed = true or what escaped the try block is an
expectation failure whose text is empty, and in that last case the result is failed with the
empty message. -/
theorem message_empty_of_passed {G T : Type} (b : suite_builder G T) (id_ : Nat)
    (tc : compiled_suite.test_info (runnable_function G))
    (htc : tc ∈ (b.finalize id_).1.all_tests) :
    ∃ f, tc.function = b.test_function f ∧ ∀ w, ∃ r,
      (tc.function w).result = .ok r ∧ (r.passed = true → r.message = "") ∧
      (r.message = "" →
        r.passed = true ∨ (b.try_block f w).1 = some (.expectation_error "")) ∧
      ((b.try_block f w).1 = some (.expectation_error "") →
        r = { passed := false, message := "" }) := by
  obtain ⟨f, hf⟩ := finalize_all_tests_function b id_ tc htc
  refine ⟨f, hf, fun w => ?_⟩
  rw [hf, test_function_result]
  cases h : (b.try_block f w).1 with
  | none => exact ⟨_, rfl, fun _ => rfl, fun _ => Or.inl rfl, fun hx => by simp at hx⟩
  | some e =>
    refine ⟨_, rfl, fun hp => by simp at hp, fun hm => Or.inr ?_, fun hx => ?_⟩
    · cases e with
      | expectation_error m =>
        simp [root_message, first_match_root_ladder] at hm
        rw [hm]
      | std_exception m =>
        simp only [root_message, first_match_root_ladder, Option.getD_some] at hm
        exact absurd hm (uncaught_message_ne_empty m)
      | other n =>
        simp only [root_message, first_match_root_ladder, Option.getD_some] at hm
        exact absurd hm unknown_message_ne_empty
    · rw [Option.some.inj hx]
      simp [root_message, first_match_root_ladder]

theorem message_empty_of_passed_witness :
    ∃ f, (empty_message_builder.wrap_test "inner test"
        (run_counter "test" (throws (.expectation_error ""))) false 0).1.function
          = empty_message_builder.test_function f ∧ ∀ w, ∃ r,
      ((empty_message_builder.wrap_test "inner test"
        (run_counter "test" (throws (.expectation_error ""))) false 0).1.function w).result
          = .ok r ∧ (r.passed = true → r.message = "") ∧
      (r.message = "" →
        r.passed = true ∨
          (empty_message_builder.try_block f w).1 = some (.expectation_error "")) ∧
      ((empty_message_builder.try_block f w).1 = some (.expectation_error "") →
        r = { passed := false, message := "" }) :=
  message_empty_of_passed empty_message_builder 0 _ (List.mem_cons_self _ _)

/-- C8: every TestCase of a finalized root suite, at any depth and whatever the fixture
constructors, setups, bodies and teardowns do, returns a Result when called: no thrown value
escapes it. -/
theorem invoke_total {G T : Type} (b : suite_builder G T) (id_ : Nat)
    (tc : compiled_suite.test_info (runnable_function G))
    (htc : tc ∈ (b.finalize id_).1.all_tests) (w : World G) :
    ∃ r, (tc.function w).result = .ok r := by
  obtain ⟨f, hf⟩ := finalize_all_tests_function b id_ tc htc
  rw [hf, test_function_result]
  exact ⟨_, rfl⟩

theorem invoke_total_witness :
    ∃ r, ((empty_message_builder.wrap_test "inner test"
        (run_counter "test" (throws (.expectation_error ""))) false 0).1.function
          fresh_world).result = .ok r :=
  invoke_total empty_message_builder 0 _ (List.mem_cons_self _ _) fresh_world

theorem compile_tests_map {A F B : Type} (f : A → Nat → compiled_suite.test_info F × Nat)
    (g : compiled_suite.test_info F → B) (h : A → B) (hf : ∀ a c, g (f a c).1 = h a) :
    ∀ (l : List A) (c : Nat), (compile_tests f l c).1.map g = l.map h := by
  intro l
  induction l with
  | nil => intro c; rfl
  | cons a l ih =>
    intro c
    simp only [compile_tests, List.map_cons, hf, ih]

theorem calls_name {G T : Type} (cs : List (builder_call G T)) :
    ∀ b : suite_builder_base G T, (b.calls cs).name_ = b.name_ := by
  induction cs with
  | nil => intro b; rfl
  | cons c cs ih =>
    intro b
    have step : (b.calls (c :: cs)) = (b.call c).calls cs := rfl
    rw [step, ih]
    cases c <;> rfl

theorem calls_tests {G T : Type} (cs : List (builder_call G T)) :
    ∀ b : suite_builder_base G T,
      (b.calls cs).tests_.map (fun a => (a.name, a.skip))
        = b.tests_.map (fun a => (a.name, a.skip)) ++ cs.filterMap builder_call.declared := by
  induction cs with
  | nil => intro b; simp [suite_builder_base.calls]
  | cons c cs ih =>
    intro b
    have step : (b.calls (c :: cs)) = (b.call c).calls cs := rfl
    rw [step, ih]
    cases c <;>
      simp [suite_builder_base.call, suite_builder_base.setup, suite_builder_base.teardown,
        suite_builder_base.test, suite_builder_base.skip_test, suite_builder_base.subsuite,
        builder_call.declared, List.filterMap_cons]

/-- C9: after any sequence of calls on a fresh builder, a root builder or a nested one alike, of
which n are `test` or `skip_test` calls (n = 0 included), finalize yields a suite of size n whose
tests carry, in declaration order, the declared names with skip = false for `test` and
skip = true for `skip_test`, and whose name is the builder's name. -/
theorem finalize_tests_in_declaration_order {G T P U : Type} (name : String)
    (construct : default_constructor G T) (cs : List (builder_call G T))
    (nested_construct : default_constructor G U) (ncs : List (builder_call G (P × U)))
    (id_ : Nat) :
    ((suite_builder.finalize
          { base := (suite_builder_base.create name).calls cs, construct := construct }
          id_).1.size = (cs.filterMap builder_call.declared).length ∧
        (suite_builder.finalize
          { base := (suite_builder_base.create name).calls cs, construct := construct }
          id_).1.tests.map (fun t => (t.name, t.skip)) = cs.filterMap builder_call.declared ∧
        (suite_builder.finalize
          { base := (suite_builder_base.create name).calls cs, construct := construct }
          id_).1.name = name) ∧
      ((subsuite_builder.finalize
          { base := (suite_builder_base.create name).calls ncs, construct := nested_construct }
          id_).1.size = (ncs.filterMap builder_call.declared).length ∧
        (subsuite_builder.finalize
          { base := (suite_builder_base.create name).calls ncs, construct := nested_construct }
          id_).1.tests.map (fun t => (t.name, t.skip)) = ncs.filterMap builder_call.declared ∧
        (subsuite_builder.finalize
          { base := (suite_builder_base.create name).calls ncs, construct := nested_construct }
          id_).1.name = name) := by
  have htests : (suite_builder.finalize
        { base := (suite_builder_base.create name).calls cs, construct := construct }
        id_).1.tests.map (fun t => (t.name, t.skip)) = cs.filterMap builder_call.declared := by
    simp only [suite_builder.finalize, compiled_suite.construct, compiled_suite.tests]
    rw [compile_tests_map _ (fun t => (t.name, t.skip)) (fun a => (a.name, a.skip))
      (fun _ _ => rfl), calls_tests]
    simp [suite_builder_base.create]
  have hnested : (subsuite_builder.finalize
        { base := (suite_builder_base.create name).calls ncs, construct := nested_construct }
        id_).1.tests.map (fun t => (t.name, t.skip)) = ncs.filterMap builder_call.declared := by
    simp only [subsuite_builder.finalize, compiled_suite.construct, compiled_suite.tests]
    rw [compile_tests_map _ (fun t => (t.name, t.skip)) (fun a => (a.name, a.skip))
      (fun _ _ => rfl), calls_tests]
    simp [suite_builder_base.create]
  refine ⟨⟨?_, htests, ?_⟩, ⟨?_, hnested, ?_⟩⟩
  · rw [← htests, List.length_map]
    rfl
  · simp only [suite_builder.finalize, compiled_suite.construct, compiled_suite.name]
    rw [calls_name]
    rfl
  · rw [← hnested, List.length_map]
    rfl
  · simp only [subsuite_builder.finalize, compiled_suite.construct, compiled_suite.name]
    rw [calls_name]
    rfl

theorem compile_tests_ids {A F : Type} (f : A → Nat → compiled_suite.test_info F × Nat)
    (hid : ∀ a c, (f a c).1.id = c) (hnext : ∀ a c, (f a c).2 = (c + 1) % size_t_modulus) :
    ∀ (l : List A) (c : Nat), c + l.length < size_t_modulus →
      (compile_tests f l c).1.map (fun t => t.id) = List.range' c l.length ∧
        (compile_tests f l c).2 = c + l.length := by
  intro l
  induction l with
  | nil => intro c _; exact ⟨rfl, rfl⟩
  | cons a l ih =>
    intro c hc
    simp only [List.length_cons] at hc
    have hstep : (f a c).2 = c + 1 := by
      rw [hnext, Nat.mod_eq_of_lt (by omega)]
    have h := ih (c + 1) (by omega)
    simp only [compile_tests, List.map_cons, hid, hstep, List.length_cons, List.range'_succ]
    exact ⟨by rw [h.1], by rw [h.2]; omega⟩

mutual
theorem convert_ids {F F2 : Type}
    (f : compiled_suite.test_info F → Nat → compiled_suite.test_info F2 × Nat)
    (hid : ∀ a c, (f a c).1.id = c) (hnext : ∀ a c, (f a c).2 = (c + 1) % size_t_modulus) :
    ∀ (s : compiled_suite F) (c : Nat), c + s.all_tests.length < size_t_modulus →
      (compiled_suite.convert f s c).1.all_tests.map (fun t => t.id)
          = List.range' c s.all_tests.length ∧
        (compiled_suite.convert f s c).2 = c + s.all_tests.length
  | .mk name tests subs, c, hc => by
    simp only [compiled_suite.all_tests, List.length_append] at hc
    have h1 := compile_tests_ids f hid hnext tests c (by omega)
    have h2 := convert_all_ids f hid hnext subs (c + tests.length) (by omega)
    simp only [compiled_suite.convert, compiled_suite.all_tests, List.map_append,
      List.length_append, h1.1, h1.2, h2.1, h2.2]
    exact ⟨by rw [List.range'_append_1, Nat.add_comm], by omega⟩
theorem convert_all_ids {F F2 : Type}
    (f : compiled_suite.test_info F → Nat → compiled_suite.test_info F2 × Nat)
    (hid : ∀ a c, (f a c).1.id = c) (hnext : ∀ a c, (f a c).2 = (c + 1) % size_t_modulus) :
    ∀ (l : List (compiled_suite F)) (c : Nat),
      c + (compiled_suite.all_tests_of l).length < size_t_modulus →
      (compiled_suite.all_tests_of (compiled_suite.convert_all f l c).1).map (fun t => t.id)
          = List.range' c (compiled_suite.all_tests_of l).length ∧
        (compiled_suite.convert_all f l c).2 = c + (compiled_suite.all_tests_of l).length
  | [], c, _ => ⟨rfl, rfl⟩
  | s :: ss, c, hc => by
    simp only [compiled_suite.all_tests_of, List.length_append] at hc
    have h1 := convert_ids f hid hnext s c (by omega)
    have h2 := convert_all_ids f hid hnext ss (c + s.all_tests.length) (by omega)
    simp only [compiled_suite.convert_all, compiled_suite.all_tests_of, List.map_append,
      List.length_append, h1.1, h1.2, h2.1, h2.2]
    exact ⟨by rw [List.range'_append_1, Nat.add_comm], by omega⟩
end

theorem generate_many_range (n : Nat) :
    ∀ c, c + n ≤ size_t_modulus →
      (id_generator.generate_many n c).1 = List.range' c n := by
  induction n with
  | zero => intro c _; rfl
  | succ n ih =>
    intro c hc
    simp only [id_generator.generate_many, id_generator.generate, List.range'_succ]
    cases n with
    | zero => rfl
    | succ m =>
      have hstep : (c + 1) % size_t_modulus = c + 1 := Nat.mod_eq_of_lt (by omega)
      rw [hstep, ih (c + 1) (by omega)]

/-- C11: from the initial counter state, the values returned by the first n calls of generate,
for 1 <= n < 2 ^ 64, are 0, 1, ..., n - 1 in call order: the first call returns 0, the n-th
returns n - 1, each call returns one more than the call before it, and the values are strictly
increasing. -/
theorem generate_counts_from_zero (n : Nat) (h1 : 1 ≤ n) (hn : n < 2 ^ 64) :
    (id_generator.generate_many n id_generator.initial).1.head? = some 0 ∧
      (id_generator.generate_many n id_generator.initial).1[n - 1]? = some (n - 1) ∧
      (∀ k, k + 1 < n →
        (id_generator.generate_many n id_generator.initial).1[k + 1]?
          = ((id_generator.generate_many n id_generator.initial).1[k]?).map (fun v => v + 1)) ∧
      (id_generator.generate_many n id_generator.initial).1.Pairwise (fun a b => a < b) ∧
      (id_generator.generate_many n id_generator.initial).1 = List.range n := by
  have hr : (id_generator.generate_many n id_generator.initial).1 = List.range n := by
    rw [generate_many_range n id_generator.initial
      (by simp only [id_generator.initial, size_t_modulus]; omega), List.range_eq_range']
    rfl
  rw [hr]
  refine ⟨?_, ?_, ?_, List.pairwise_lt_range n, rfl⟩
  · cases n with
    | zero => omega
    | succ m => simp [List.range_succ_eq_map]
  · rw [List.getElem?_range (by omega)]
  · intro k hk
    rw [List.getElem?_range hk, List.getElem?_range (by omega)]
    rfl

theorem generate_counts_from_zero_witness :
    (id_generator.generate_many 3 id_generator.initial).1.head? = some 0 ∧
      (id_generator.generate_many 3 id_generator.initial).1[3 - 1]? = some (3 - 1) ∧
      (∀ k, k + 1 < 3 →
        (id_generator.generate_many 3 id_generator.initial).1[k + 1]?
          = ((id_generator.generate_many 3 id_generator.initial).1[k]?).map (fun v => v + 1)) ∧
      (id_generator.generate_many 3 id_generator.initial).1.Pairwise (fun a b => a < b) ∧
      (id_generator.generate_many 3 id_generator.initial).1 = List.range 3 :=
  generate_counts_from_zero 3 (by decide) (by decide)

/-- A callable that always ends the same way (returning, or throwing the same value) and adds
the same entries to the log keeps doing so inside a nesting of counted levels: the setups run
before it, outermost first, and the teardowns after it, innermost first. -/
theorem nesting_wrap_trace {G : Type} {P Q : Type} (chain : nesting G P Q) :
    ∀ (setups teardowns : List String) (f : function_type G Q) (r : Option Thrown)
      (log : List String), chain.counted setups teardowns →
      (∀ t w, (f t w).thrown = r ∧ (f t w).world.trace = w.trace ++ log) →
      ∀ t w, (chain.wrap f t w).thrown = r ∧
        (chain.wrap f t w).world.trace = w.trace ++ setups ++ log ++ teardowns.reverse := by
  induction chain with
  | here =>
    intro setups teardowns f r log hc hf t w
    obtain ⟨hs, hd⟩ := hc
    subst hs hd
    simpa [nesting.wrap] using hf t w
  | level b inner ih =>
    intro setups teardowns f r log hc hf t w
    obtain ⟨S, D, ss, ds, s, d, hS, hD, hsetup, hteardown, hs, hd, hcons, hinner⟩ := hc
    subst hS hD
    have hin := ih ss ds f r log hinner hf
    obtain ⟨u, hu⟩ := hcons w.globals
    simp only [nesting.wrap, subsuite_builder.test_function, hu, run_test, hsetup, hteardown,
      run_counter_thrown, hs]
    cases r with
    | none =>
      simp [(hin _ _).1, (hin _ _).2, run_counter_thrown, run_counter_trace, hd]
    | some e =>
      simp [(hin _ _).1, (hin _ _).2, run_counter_thrown, run_counter_trace, hd]

/-- A root builder with counted hooks around a nesting of counted levels: when nothing throws,
the root lambda logs the setups outermost first, then the body, then the teardowns innermost
first, and returns passed = true with the empty message. -/
theorem root_lambda_around_nesting {G T Q : Type} (root : suite_builder G T)
    (chain : nesting G T Q) (S B D : String) (setups teardowns : List String)
    (s d : behaviour G T) (body : behaviour G Q) (w : World G)
    (hsetup : root.base.setup_ = some (run_counter S s))
    (hteardown : root.base.teardown_ = some (run_counter D d))
    (hconstruct : ∀ g, ∃ t, (root.construct g).1 = .ok t)
    (hs : ∀ t g, (s t g).1 = none) (hd : ∀ t g, (d t g).1 = none)
    (hchain : chain.counted setups teardowns)
    (hb : ∀ t g, (body t g).1 = none) :
    (root.test_function (chain.wrap (run_counter B body)) w).world.trace
        = w.trace ++ (S :: setups) ++ [B] ++ (D :: teardowns).reverse ∧
      (root.test_function (chain.wrap (run_counter B body)) w).result
        = .ok { passed := true, message := "" } := by
  have hin := nesting_wrap_trace chain setups teardowns (run_counter B body) none [B] hchain
    (fun t v => ⟨by rw [run_counter_thrown, hb], run_counter_trace B body t v⟩)
  obtain ⟨t, ht⟩ := hconstruct w.globals
  simp [suite_builder.test_function, suite_builder.try_block, ht, run_test, hsetup, hteardown,
    run_counter_thrown, hs, hd, (hin _ _).1, (hin _ _).2, run_counter_trace]

theorem compile_tests_getLast {A F B : Type} (f : A → Nat → compiled_suite.test_info F × Nat)
    (g : compiled_suite.test_info F → B) (h : A → B) (hf : ∀ a c, g (f a c).1 = h a)
    (l : List A) (c : Nat) :
    (compile_tests f l c).1.getLast?.map g = l.getLast?.map h := by
  rw [← List.getLast?_map, ← List.getLast?_map, compile_tests_map f g h hf]

/-- The last suite of a converted list is the conversion of the last suite of the list. -/
theorem convert_all_getLast {F F2 : Type}
    (f : compiled_suite.test_info F → Nat → compiled_suite.test_info F2 × Nat) :
    ∀ (l : List (compiled_suite F)) (c : Nat),
      ∃ c2, (compiled_suite.convert_all f l c).1.getLast?
        = l.getLast?.map (fun s => (compiled_suite.convert f s c2).1) := by
  intro l
  induction l with
  | nil => intro c; exact ⟨c, rfl⟩
  | cons s ss ih =>
    intro c
    cases ss with
    | nil => exact ⟨c, rfl⟩
    | cons s2 ss2 =>
      obtain ⟨c2, h2⟩ := ih (compiled_suite.convert f s c).2
      refine ⟨c2, ?_⟩
      rw [List.getLast?_cons_cons, ← h2]
      simp only [compiled_suite.convert_all, List.getLast?_cons_cons]

/-- Converting a suite tree keeps the place of every test: the test at the end of the last
subsuites is the converted test that was there. -/
theorem convert_last_declared {F F2 B : Type}
    (f : compiled_suite.test_info F → Nat → compiled_suite.test_info F2 × Nat)
    (k : compiled_suite.test_info F2 → B) (h : compiled_suite.test_info F → B)
    (hf : ∀ a c, k (f a c).1 = h a) :
    ∀ (d : Nat) (s : compiled_suite F) (c : Nat),
      ((compiled_suite.convert f s c).1.last_declared d).map k = (s.last_declared d).map h := by
  intro d
  induction d with
  | zero =>
    intro s c
    cases s with
    | mk n ts ss =>
      simp only [compiled_suite.convert, compiled_suite.last_declared, compiled_suite.tests]
      exact compile_tests_getLast f k h hf ts c
  | succ d ih =>
    intro s c
    cases s with
    | mk n ts ss =>
      simp only [compiled_suite.convert, compiled_suite.last_declared, compiled_suite.subsuites]
      obtain ⟨c2, h2⟩ := convert_all_getLast f ss (compile_tests f ts c).2
      rw [h2]
      cases ss.getLast? with
      | none => rfl
      | some s2 => exact ih s2 c2

/-- The constructor of `compiled_suite` keeps the place of the test declared last. -/
theorem construct_last_declared {A F F2 B : Type} (name : String) (tests : List A)
    (subsuites : List (compiled_suite F))
    (fa : A → Nat → compiled_suite.test_info F2 × Nat)
    (fs : compiled_suite.test_info F → Nat → compiled_suite.test_info F2 × Nat)
    (k : compiled_suite.test_info F2 → B) (ha : A → B) (hs : compiled_suite.test_info F → B)
    (hfa : ∀ a c, k (fa a c).1 = ha a) (hfs : ∀ a c, k (fs a c).1 = hs a) (c : Nat) :
    ((compiled_suite.construct name tests subsuites fa fs c).1.last_declared 0).map k
        = tests.getLast?.map ha ∧
      ∀ d, ((compiled_suite.construct name tests subsuites fa fs c).1.last_declared
          (d + 1)).map k
        = (subsuites.getLast?.bind (compiled_suite.last_declared d)).map hs := by
  refine ⟨compile_tests_getLast fa k ha hfa tests c, fun d => ?_⟩
  simp only [compiled_suite.construct, compiled_suite.last_declared, compiled_suite.subsuites]
  obtain ⟨c2, h2⟩ := convert_all_getLast fs subsuites (compile_tests fa tests c).2
  rw [h2]
  cases subsuites.getLast? with
  | none => rfl
  | some s2 => exact convert_last_declared fs k hs hfs d s2 c2

/-- A nested finalize keeps the test declared last in its place and puts the level's lambda
around its function. -/
theorem subsuite_finalize_last_declared {G P U : Type} (b : subsuite_builder G P U)
    (d c : Nat) :
    ((b.finalize c).1.last_declared d).map (fun t => (t.name, t.function))
      = (b.base.last_declared d).map (fun p => (p.1, b.test_function p.2)) := by
  have h := construct_last_declared b.base.name_ b.base.tests_ b.base.subsuites_
    (fun a => b.wrap_test a.name a.function a.skip)
    (fun a => b.wrap_test a.name a.function a.skip)
    (fun t => (t.name, t.function)) (fun a => (a.name, b.test_function a.function))
    (fun t => (t.name, b.test_function t.function)) (fun _ _ => rfl) (fun _ _ => rfl) c
  cases d with
  | zero =>
    simp only [suite_builder_base.last_declared, Option.map_map]
    exact h.1
  | succ d =>
    simp only [suite_builder_base.last_declared, Option.map_map]
    exact h.2 d

/-- A root finalize keeps the test declared last in its place and puts the root lambda around
its function. -/
theorem finalize_last_declared {G T : Type} (b : suite_builder G T) (d c : Nat) :
    ((b.finalize c).1.last_declared d).map (fun t => (t.name, t.function))
      = (b.base.last_declared d).map (fun p => (p.1, b.test_function p.2)) := by
  have h := construct_last_declared b.base.name_ b.base.tests_ b.base.subsuites_
    (fun a => b.wrap_test a.name a.function a.skip)
    (fun a => b.wrap_test a.name a.function a.skip)
    (fun t => (t.name, t.function)) (fun a => (a.name, b.test_function a.function))
    (fun t => (t.name, b.test_function t.function)) (fun _ _ => rfl) (fun _ _ => rfl) c
  cases d with
  | zero =>
    simp only [suite_builder_base.last_declared, Option.map_map]
    exact h.1
  | succ d =>
    simp only [suite_builder_base.last_declared, Option.map_map]
    exact h.2 d

/-- Declaring a test below a nesting leaves the hooks of the builder it is attached to. -/
theorem declare_hooks {G : Type} {P Q : Type} (chain : nesting G P Q) (name : String)
    (f : function_type G Q) (b : suite_builder_base G P) (c : Nat) :
    (chain.declare name f b c).1.setup_ = b.setup_ ∧
      (chain.declare name f b c).1.teardown_ = b.teardown_ := by
  cases chain with
  | here => exact ⟨rfl, rfl⟩
  | level sb inner => exact ⟨rfl, rfl⟩

/-- The re-wrapping: a test declared below a nesting of builders sits, in the builder the
nesting is attached to, at the end of the last subsuites, and every finalize on the way has put
its level's lambda around the function. -/
theorem declare_last_declared {G : Type} {P Q : Type} (chain : nesting G P Q) :
    ∀ (name : String) (f : function_type G Q) (b : suite_builder_base G P) (c : Nat),
      (chain.declare name f b c).1.last_declared chain.depth = some (name, chain.wrap f) := by
  induction chain with
  | here =>
    intro name f b c
    simp [nesting.declare, nesting.depth, suite_builder_base.last_declared,
      suite_builder_base.test, nesting.wrap]
  | level sb inner ih =>
    intro name f b c
    have hh := declare_hooks inner name f sb.base c
    have hf : subsuite_builder.test_function
        { base := (inner.declare name f sb.base c).1, construct := sb.construct }
        = sb.test_function := by
      funext g args w
      simp only [subsuite_builder.test_function, hh.1, hh.2]
    have h := subsuite_finalize_last_declared
      { base := (inner.declare name f sb.base c).1, construct := sb.construct } inner.depth
      (inner.declare name f sb.base c).2
    rw [ih name f sb.base c, hf] at h
    simp only [nesting.declare, nesting.depth, suite_builder_base.last_declared,
      suite_builder_base.subsuite, List.getLast?_concat, Option.some_bind, nesting.wrap]
    exact h

/-- C12: a test declared below a root builder and a nesting of builders, all with counted
setup and teardown, where nothing throws.  The tree is built as the source builds it: the
nested builders are finalized innermost first and attached, then the root builder is
finalized, each finalize re-wrapping the tests of the subsuites it holds.  The test found in
the finalized root suite at the declared place has the declared name, and one call of it logs
the setups outermost first, then the body, then the teardowns innermost first, each once, and
returns passed = true with the empty message. -/
theorem nested_setups_body_teardowns {G T Q : Type} (root : suite_builder G T)
    (chain : nesting G T Q) (S B D : String) (setups teardowns : List String)
    (s d : behaviour G T) (body : behaviour G Q) (name : String) (id_ : Nat) (w : World G)
    (hsetup : root.base.setup_ = some (run_counter S s))
    (hteardown : root.base.teardown_ = some (run_counter D d))
    (hconstruct : ∀ g, ∃ t, (root.construct g).1 = .ok t)
    (hs : ∀ t g, (s t g).1 = none) (hd : ∀ t g, (d t g).1 = none)
    (hchain : chain.counted setups teardowns)
    (hb : ∀ t g, (body t g).1 = none) :
    ((suite_builder.finalize
          { base := (chain.declare name (run_counter B body) root.base id_).1,
            construct := root.construct }
          (chain.declare name (run_counter B body) root.base id_).2).1.last_declared
        chain.depth).map
        (fun t => (t.name, (t.function w).world.trace, (t.function w).result))
      = some (name, w.trace ++ (S :: setups) ++ [B] ++ (D :: teardowns).reverse,
          .ok { passed := true, message := "" }) := by
  have hh := declare_hooks chain name (run_counter B body) root.base id_
  have hf : suite_builder.test_function
      { base := (chain.declare name (run_counter B body) root.base id_).1,
        construct := root.construct }
      = root.test_function := by
    funext g v
    simp only [suite_builder.test_function, suite_builder.try_block, hh.1, hh.2]
  have h := finalize_last_declared
    { base := (chain.declare name (run_counter B body) root.base id_).1,
      construct := root.construct } chain.depth
    (chain.declare name (run_counter B body) root.base id_).2
  rw [declare_last_declared chain name (run_counter B body) root.base id_, hf] at h
  have hrun := root_lambda_around_nesting root chain S B D setups teardowns s d body w hsetup
    hteardown hconstruct hs hd hchain hb
  cases hl : (suite_builder.finalize
      { base := (chain.declare name (run_counter B body) root.base id_).1,
        construct := root.construct }
      (chain.declare name (run_counter B body) root.base id_).2).1.last_declared
      chain.depth with
  | none => rw [hl] at h; simp at h
  | some t =>
    rw [hl] at h
    simp only [Option.map_some', Option.some.injEq, Prod.mk.injEq] at h
    simp only [Option.map_some', h.1, h.2, hrun.1, hrun.2]

theorem nested_setups_body_teardowns_witness :
    ((suite_builder.finalize
          { base := ((nesting.level (counted_subsuite_builder Unit "setup 2" "teardown 2")
                (nesting.level (counted_subsuite_builder (Unit × Unit) "setup 3" "teardown 3")
                  nesting.here)).declare "test" (run_counter "test" returns)
                (counted_builder returns returns).base 0).1,
            construct := (counted_builder returns returns).construct }
          ((nesting.level (counted_subsuite_builder Unit "setup 2" "teardown 2")
                (nesting.level (counted_subsuite_builder (Unit × Unit) "setup 3" "teardown 3")
                  nesting.here)).declare "test" (run_counter "test" returns)
                (counted_builder returns returns).base 0).2).1.last_declared
        (nesting.level (counted_subsuite_builder Unit "setup 2" "teardown 2")
          (nesting.level (counted_subsuite_builder (Unit × Unit) "setup 3" "teardown 3")
            nesting.here)).depth).map
        (fun t => (t.name, (t.function fresh_world).world.trace,
          (t.function fresh_world).result))
      = some ("test", fresh_world.trace ++ ("setup" :: ["setup 2", "setup 3"]) ++ ["test"]
            ++ ("teardown" :: ["teardown 2", "teardown 3"]).reverse,
          .ok { passed := true, message := "" }) :=
  nested_setups_body_teardowns (counted_builder returns returns)
    (nesting.level (counted_subsuite_builder Unit "setup 2" "teardown 2")
      (nesting.level (counted_subsuite_builder (Unit × Unit) "setup 3" "teardown 3")
        nesting.here))
    "setup" "test" "teardown" ["setup 2", "setup 3"] ["teardown 2", "teardown 3"]
    returns returns returns "test" 0 fresh_world rfl rfl (fun _ => ⟨(), rfl⟩) (fun _ _ => rfl)
    (fun _ _ => rfl)
    ⟨"setup 2", "teardown 2", ["setup 3"], ["teardown 3"], returns, returns, rfl, rfl, rfl, rfl,
      fun _ _ => rfl, fun _ _ => rfl, fun _ => ⟨(), rfl⟩,
      ⟨"setup 3", "teardown 3", [], [], returns, returns, rfl, rfl, rfl, rfl,
        fun _ _ => rfl, fun _ _ => rfl, fun _ => ⟨(), rfl⟩, ⟨rfl, rfl⟩⟩⟩
    (fun _ _ => rfl)

mutual
theorem convert_functions {F F2 : Type}
    (f : compiled_suite.test_info F → Nat → compiled_suite.test_info F2 × Nat)
    (g : F → F2) (hf : ∀ a c, (f a c).1.function = g a.function) :
    ∀ (s : compiled_suite F) (c : Nat),
      (compiled_suite.convert f s c).1.all_tests.map (fun t => t.function)
        = s.all_tests.map (fun t => g t.function)
  | .mk name tests subs, c => by
    simp only [compiled_suite.convert, compiled_suite.all_tests, List.map_append]
    rw [compile_tests_map f (fun t => t.function) (fun t => g t.function) hf,
      convert_all_functions f g hf subs]
theorem convert_all_functions {F F2 : Type}
    (f : compiled_suite.test_info F → Nat → compiled_suite.test_info F2 × Nat)
    (g : F → F2) (hf : ∀ a c, (f a c).1.function = g a.function) :
    ∀ (l : List (compiled_suite F)) (c : Nat),
      (compiled_suite.all_tests_of (compiled_suite.convert_all f l c).1).map
          (fun t => t.function)
        = (compiled_suite.all_tests_of l).map (fun t => g t.function)
  | [], _ => rfl
  | s :: ss, c => by
    simp only [compiled_suite.convert_all, compiled_suite.all_tests_of, List.map_append]
    rw [convert_functions f g hf s, convert_all_functions f g hf ss]
end

/-- A root finalize puts the root lambda around the function of each test the builder holds,
its own and those of the subsuites attached to it, keeping their order. -/
theorem finalize_functions {G T : Type} (b : suite_builder G T) (c : Nat) :
    (b.finalize c).1.all_tests.map (fun t => t.function)
      = (b.base.tests_.map (fun a => a.function)
          ++ (compiled_suite.all_tests_of b.base.subsuites_).map (fun t => t.function)).map
        b.test_function := by
  simp only [suite_builder.finalize, compiled_suite.construct, compiled_suite.all_tests,
    List.map_append, List.map_map]
  rw [compile_tests_map _ (fun t => t.function) (fun a => b.test_function a.function)
      (fun _ _ => rfl),
    convert_all_functions _ b.test_function (fun _ _ => rfl)]
  rfl

/-- When a registered setup throws, `run_test` ends as that setup did. -/
theorem run_test_of_setup_throws {G T : Type} (s : function_type G T)
    (teardown : Option (function_type G T)) (test : function_type G T) (t : T) (w : World G)
    (hs : (s t w).thrown ≠ none) : run_test (some s) teardown test t w = s t w := by
  unfold run_test
  cases h : (s t w).thrown with
  | none => exact absurd h hs
  | some e => simp only [h]

/-- When the setup that runs throws, `run_test` ends as that setup did. -/
theorem run_test_of_hook_throws {G T : Type} (setup teardown : Option (function_type G T))
    (test : function_type G T) (t : T) (w : World G)
    (hs : (call_hook setup t w).thrown ≠ none) :
    run_test setup teardown test t w = call_hook setup t w := by
  cases setup with
  | none => exact absurd rfl hs
  | some s => exact run_test_of_setup_throws s teardown test t w hs

/-- When the setup that runs returns normally, `run_test` calls the test and then the teardown
on what the test left, whether the test returned or threw; it throws what the teardown throws,
or else what the test threw. -/
theorem run_test_of_setup_returns {G T : Type} (setup teardown : Option (function_type G T))
    (test : function_type G T) (t : T) (w : World G)
    (hs : (call_hook setup t w).thrown = none) :
    run_test setup teardown test t w
      = { thrown := (call_hook teardown
              (test (call_hook setup t w).fixtures (call_hook setup t w).world).fixtures
              (test (call_hook setup t w).fixtures (call_hook setup t w).world).world).thrown.or
            (test (call_hook setup t w).fixtures (call_hook setup t w).world).thrown,
          fixtures := (call_hook teardown
              (test (call_hook setup t w).fixtures (call_hook setup t w).world).fixtures
              (test (call_hook setup t w).fixtures (call_hook setup t w).world).world).fixtures,
          world := (call_hook teardown
              (test (call_hook setup t w).fixtures (call_hook setup t w).world).fixtures
              (test (call_hook setup t w).fixtures (call_hook setup t w).world).world).world } := by
  have key : ∀ (r0 : Ran G T), r0.thrown = none →
      (match r0.thrown with
        | some _ => r0
        | none =>
          match (test r0.fixtures r0.world).thrown with
          | some e =>
            match teardown with
            | some d =>
              match (d (test r0.fixtures r0.world).fixtures
                  (test r0.fixtures r0.world).world).thrown with
              | some _ => d (test r0.fixtures r0.world).fixtures (test r0.fixtures r0.world).world
              | none =>
                { thrown := some e,
                  fixtures := (d (test r0.fixtures r0.world).fixtures
                    (test r0.fixtures r0.world).world).fixtures,
                  world := (d (test r0.fixtures r0.world).fixtures
                    (test r0.fixtures r0.world).world).world }
            | none => test r0.fixtures r0.world
          | none =>
            match teardown with
            | some d => d (test r0.fixtures r0.world).fixtures (test r0.fixtures r0.world).world
            | none => test r0.fixtures r0.world)
        = { thrown := (call_hook teardown (test r0.fixtures r0.world).fixtures
                (test r0.fixtures r0.world).world).thrown.or (test r0.fixtures r0.world).thrown,
            fixtures := (call_hook teardown (test r0.fixtures r0.world).fixtures
                (test r0.fixtures r0.world).world).fixtures,
            world := (call_hook teardown (test r0.fixtures r0.world).fixtures
                (test r0.fixtures r0.world).world).world } := by
    intro r0 h0
    simp only [h0]
    cases hm : (test r0.fixtures r0.world).thrown with
    | some e =>
      cases teardown with
      | none =>
        simp only [call_hook, Option.none_or]
        rw [← hm]
      | some d =>
        simp only [call_hook]
        cases hd : (d (test r0.fixtures r0.world).fixtures
            (test r0.fixtures r0.world).world).thrown with
        | some e2 =>
          simp only [Option.or_some]
          rw [← hd]
        | none => simp only [Option.none_or]
    | none =>
      cases teardown with
      | none =>
        simp only [call_hook, Option.none_or]
        rw [← hm]
      | some d =>
        simp only [call_hook, Option.or_none]
  cases setup with
  | none => exact key { thrown := none, fixtures := t, world := w } rfl
  | some s => exact key (s t w) hs

/-- C13: within one call, the fixture of an outer level is one object handed on from hook to
hook.  When the outer setup returns: if the inner setup returns too, the inner setup receives
what the outer setup left, the body what the inner setup left, the inner teardown what the
body left and the outer teardown what the inner teardown left, whether the body or the inner
teardown returned or threw; the outer level's `run_test` around the inner level's lambda leaves
what the outer teardown left and throws the value thrown last.  If the inner setup throws, the
outer teardown receives what the inner setup left. -/
theorem outer_fixture_handed_on {G P U : Type} (inner : subsuite_builder G P U)
    (outer_setup outer_teardown : Option (function_type G P)) (u : U)
    (body : function_type G (P × U)) (t0 : P) (w : World G)
    (hconstruct : ∀ g, inner.construct g = (.ok u, g))
    (hos : (handed_on outer_setup outer_teardown u inner.base.setup_ inner.base.teardown_ body
      t0 w).after_outer_setup.thrown = none) :
    ((handed_on outer_setup outer_teardown u inner.base.setup_ inner.base.teardown_ body
          t0 w).after_inner_setup.thrown = none →
        run_test outer_setup outer_teardown (inner.test_function body) t0 w
          = { thrown := (handed_on outer_setup outer_teardown u inner.base.setup_
                  inner.base.teardown_ body t0 w).after_outer_teardown.thrown.or
                ((handed_on outer_setup outer_teardown u inner.base.setup_
                    inner.base.teardown_ body t0 w).after_inner_teardown.thrown.or
                  (handed_on outer_setup outer_teardown u inner.base.setup_
                    inner.base.teardown_ body t0 w).after_body.thrown),
              fixtures := (handed_on outer_setup outer_teardown u inner.base.setup_
                inner.base.teardown_ body t0 w).after_outer_teardown.fixtures,
              world := (handed_on outer_setup outer_teardown u inner.base.setup_
                inner.base.teardown_ body t0 w).after_outer_teardown.world }) ∧
      ((handed_on outer_setup outer_teardown u inner.base.setup_ inner.base.teardown_ body
          t0 w).after_inner_setup.thrown ≠ none →
        run_test outer_setup outer_teardown (inner.test_function body) t0 w
          = { thrown := (call_hook outer_teardown
                  (handed_on outer_setup outer_teardown u inner.base.setup_
                    inner.base.teardown_ body t0 w).after_inner_setup.fixtures.1
                  (handed_on outer_setup outer_teardown u inner.base.setup_
                    inner.base.teardown_ body t0 w).after_inner_setup.world).thrown.or
                (handed_on outer_setup outer_teardown u inner.base.setup_
                  inner.base.teardown_ body t0 w).after_inner_setup.thrown,
              fixtures := (call_hook outer_teardown
                  (handed_on outer_setup outer_teardown u inner.base.setup_
                    inner.base.teardown_ body t0 w).after_inner_setup.fixtures.1
                  (handed_on outer_setup outer_teardown u inner.base.setup_
                    inner.base.teardown_ body t0 w).after_inner_setup.world).fixtures,
              world := (call_hook outer_teardown
                  (handed_on outer_setup outer_teardown u inner.base.setup_
                    inner.base.teardown_ body t0 w).after_inner_setup.fixtures.1
                  (handed_on outer_setup outer_teardown u inner.base.setup_
                    inner.base.teardown_ body t0 w).after_inner_setup.world).world }) := by
  simp only [handed_on] at hos ⊢
  have hlambda : ∀ (args : P) (v : World G), inner.test_function body args v
      = { thrown := (run_test inner.base.setup_ inner.base.teardown_ body (args, u) v).thrown,
          fixtures := (run_test inner.base.setup_ inner.base.teardown_ body (args, u)
            v).fixtures.1,
          world := (run_test inner.base.setup_ inner.base.teardown_ body (args, u) v).world } := by
    intro args v
    simp only [subsuite_builder.test_function, hconstruct]
  constructor
  · intro his
    rw [run_test_of_setup_returns _ _ _ _ _ hos, hlambda,
      run_test_of_setup_returns _ _ _ _ _ his]
  · intro his
    rw [run_test_of_setup_returns _ _ _ _ _ hos, hlambda]
    rw [run_test_of_hook_throws _ _ _ _ _ his]

theorem outer_fixture_handed_on_witness :
    run_test noting_builder.base.setup_ noting_builder.base.teardown_
        (noting_subsuite.test_function failing_body) { data := 0 } nothing_noted
      = { thrown := some (.expectation_error "failed"),
          fixtures := { data := 8 },
          world := { trace := [], globals := [0, 1, 7, 8] } } ∧
      (handed_on suite_fixtures.base.setup_ suite_fixtures.base.teardown_ ()
          suite_fixtures_subsuite.base.setup_ suite_fixtures_subsuite.base.teardown_
          (plain (fun t g => (expect_equal_to t.1.data 2, t, g))) { data := 0 }
          fresh_world).after_body.fixtures.1.data = 2 ∧
      (suite_fixtures.finalize 3).1.all_tests.map (fun t => (t.function fresh_world).result)
        = [.ok { passed := true, message := "" }, .ok { passed := true, message := "" }] :=
  ⟨(outer_fixture_handed_on noting_subsuite noting_builder.base.setup_
      noting_builder.base.teardown_ () failing_body { data := 0 } nothing_noted
      (fun _ => rfl) rfl).1 rfl, rfl, rfl⟩

/-- A nested level whose counted setup throws on the fresh fixtures logs the setup alone and
lets the thrown value through, whatever it wraps. -/
theorem setup_failure_trace {G P U : Type} (b : subsuite_builder G P U) (S : String)
    (s : behaviour G (P × U)) (f : function_type G (P × U)) (e : Thrown) (args : P)
    (w : World G) (u : U)
    (hsetup : b.base.setup_ = some (run_counter S s))
    (hconstruct : (b.construct w.globals).1 = .ok u)
    (hs : (s (args, u) (b.construct w.globals).2).1 = some e) :
    (b.test_function f args w).thrown = some e ∧
      (b.test_function f args w).world.trace = w.trace ++ [S] := by
  simp [subsuite_builder.test_function, hconstruct, run_test, hsetup, run_counter_thrown, hs,
    run_counter_trace]

/-- C14: when the counted setup of a nested level throws e on the fresh fixtures, the call of
that level logs the setup alone, so neither the level's counted teardown nor anything of what
the level wraps (the body, or the inner levels with their setups, bodies and teardowns) is
called, the outcome does not depend on what is wrapped, and e leaves the level unchanged. -/
theorem nested_setup_failure_skips_level {G P U : Type} (b : subsuite_builder G P U)
    (S D : String) (s d : behaviour G (P × U)) (f f2 : function_type G (P × U)) (e : Thrown)
    (args : P) (w : World G) (u : U)
    (hsetup : b.base.setup_ = some (run_counter S s))
    (hteardown : b.base.teardown_ = some (run_counter D d))
    (hconstruct : (b.construct w.globals).1 = .ok u)
    (hs : (s (args, u) (b.construct w.globals).2).1 = some e) :
    (b.test_function f args w).thrown = some e ∧
      (b.test_function f args w).world.trace = w.trace ++ [S] ∧
      b.test_function f args w = b.test_function f2 args w := by
  have hd := hteardown
  refine ⟨(setup_failure_trace b S s f e args w u hsetup hconstruct hs).1,
    (setup_failure_trace b S s f e args w u hsetup hconstruct hs).2, ?_⟩
  simp [subsuite_builder.test_function, hconstruct, run_test, hsetup, run_counter_thrown, hs]

theorem nested_setup_failure_skips_level_witness :
    ((failing_setup_builder Unit "inner setup" "inner teardown"
        (.expectation_error "expected: true")).test_function (run_counter "test" returns) ()
          fresh_world).thrown = some (.expectation_error "expected: true") ∧
      ((failing_setup_builder Unit "inner setup" "inner teardown"
        (.expectation_error "expected: true")).test_function (run_counter "test" returns) ()
          fresh_world).world.trace = [] ++ ["inner setup"] ∧
      (failing_setup_builder Unit "inner setup" "inner teardown"
        (.expectation_error "expected: true")).test_function (run_counter "test" returns) ()
          fresh_world
        = (failing_setup_builder Unit "inner setup" "inner teardown"
        (.expectation_error "expected: true")).test_function
          (run_counter "other test" (throws (.other 1))) () fresh_world :=
  nested_setup_failure_skips_level
    (failing_setup_builder Unit "inner setup" "inner teardown"
      (.expectation_error "expected: true"))
    "inner setup" "inner teardown" (throws (.expectation_error "expected: true")) returns
    (run_counter "test" returns) (run_counter "other test" (throws (.other 1)))
    (.expectation_error "expected: true") () fresh_world () rfl rfl rfl rfl

/-- C15, as stated, fails: with a counted setup and teardown at the root and a nested level
whose setup throws, the root teardown is called after the failing setup. -/
theorem ancestor_teardown_counterexample :
    ((counted_builder returns returns).test_function
        ((failing_setup_builder Unit "inner setup" "inner teardown"
          (.expectation_error "expected: true")).test_function (run_counter "test" returns))
        fresh_world).world.trace = ["setup", "inner setup", "teardown"] ∧
      "teardown" ∈ ((counted_builder returns returns).test_function
        ((failing_setup_builder Unit "inner setup" "inner teardown"
          (.expectation_error "expected: true")).test_function (run_counter "test" returns))
        fresh_world).world.trace :=
  ⟨rfl, by decide⟩

/-- C15, amended: when the counted setup of a nested level throws e, below a root builder and a
nesting of ancestors whose counted setups and teardowns do not throw, the failing level's
teardown and what it wraps are not called, while the teardown of every ancestor is still
called once, innermost ancestor first, and the root lambda returns failed with the message
the catch ladder derives from e. -/
theorem ancestor_teardowns_run_after_setup_failure {G T Q U : Type} (root : suite_builder G T)
    (chain : nesting G T Q) (failing : subsuite_builder G Q U) (S D Sk Dk : String)
    (setups teardowns : List String) (s d : behaviour G T) (sk dk : behaviour G (Q × U))
    (f : function_type G (Q × U)) (e : Thrown) (w : World G)
    (hsetup : root.base.setup_ = some (run_counter S s))
    (hteardown : root.base.teardown_ = some (run_counter D d))
    (hconstruct : ∀ g, ∃ t, (root.construct g).1 = .ok t)
    (hs : ∀ t g, (s t g).1 = none) (hd : ∀ t g, (d t g).1 = none)
    (hchain : chain.counted setups teardowns)
    (hksetup : failing.base.setup_ = some (run_counter Sk sk))
    (hkteardown : failing.base.teardown_ = some (run_counter Dk dk))
    (hkconstruct : ∀ g, ∃ u, (failing.construct g).1 = .ok u)
    (hsk : ∀ t g, (sk t g).1 = some e) :
    (root.test_function (chain.wrap (failing.test_function f)) w).world.trace
        = w.trace ++ (S :: setups) ++ [Sk] ++ (D :: teardowns).reverse ∧
      (root.test_function (chain.wrap (failing.test_function f)) w).result
        = .ok { passed := false, message := root_message e } := by
  have hkd := hkteardown
  have hin := nesting_wrap_trace chain setups teardowns (failing.test_function f) (some e) [Sk]
    hchain (fun t v => by
      obtain ⟨u, hu⟩ := hkconstruct v.globals
      exact setup_failure_trace failing Sk sk f e t v u hksetup hu (hsk _ _))
  obtain ⟨t, ht⟩ := hconstruct w.globals
  have hres := test_function_result root (chain.wrap (failing.test_function f)) w
  have hblock : root.try_block (chain.wrap (failing.test_function f)) w
      = (some e, (root.test_function (chain.wrap (failing.test_function f)) w).world) := by
    simp [suite_builder.test_function, suite_builder.try_block, ht, run_test, hsetup,
      hteardown, run_counter_thrown, hs, hd, (hin _ _).1, first_match_root_ladder]
  refine ⟨?_, ?_⟩
  · simp [suite_builder.test_function, suite_builder.try_block, ht, run_test, hsetup,
      hteardown, run_counter_thrown, hs, hd, (hin _ _).1, (hin _ _).2, run_counter_trace,
      first_match_root_ladder]
  · rw [hres, hblock]

theorem ancestor_teardowns_run_after_setup_failure_witness :
    ((counted_builder returns returns).test_function
        ((nesting.level (counted_subsuite_builder Unit "setup 2" "teardown 2")
            nesting.here).wrap
          ((failing_setup_builder (Unit × Unit) "setup 3" "teardown 3"
            (.std_exception "no database")).test_function (run_counter "test" returns)))
        fresh_world).world.trace
        = [] ++ ("setup" :: ["setup 2"]) ++ ["setup 3"] ++ ("teardown" :: ["teardown 2"]).reverse ∧
      ((counted_builder returns returns).test_function
        ((nesting.level (counted_subsuite_builder Unit "setup 2" "teardown 2")
            nesting.here).wrap
          ((failing_setup_builder (Unit × Unit) "setup 3" "teardown 3"
            (.std_exception "no database")).test_function (run_counter "test" returns)))
        fresh_world).result
        = .ok { passed := false, message := root_message (.std_exception "no database") } :=
  ancestor_teardowns_run_after_setup_failure (counted_builder returns returns)
    (nesting.level (counted_subsuite_builder Unit "setup 2" "teardown 2") nesting.here)
    (failing_setup_builder (Unit × Unit) "setup 3" "teardown 3" (.std_exception "no database"))
    "setup" "teardown" "setup 3" "teardown 3" ["setup 2"] ["teardown 2"] returns returns
    (throws (.std_exception "no database")) returns (run_counter "test" returns)
    (.std_exception "no database") fresh_world rfl rfl (fun _ => ⟨(), rfl⟩) (fun _ _ => rfl)
    (fun _ _ => rfl)
    ⟨"setup 2", "teardown 2", [], [], returns, returns, rfl, rfl, rfl, rfl,
      fun _ _ => rfl, fun _ _ => rfl, fun _ => ⟨(), rfl⟩, ⟨rfl, rfl⟩⟩
    rfl rfl (fun _ => ⟨(), rfl⟩) (fun _ _ => rfl)

theorem subsuite_all_frame {G T : Type} (ss : List (compiled_suite (function_type G T))) :
    ∀ b : suite_builder_base G T,
      (b.subsuite_all ss).name_ = b.name_ ∧ (b.subsuite_all ss).setup_ = b.setup_ ∧
        (b.subsuite_all ss).teardown_ = b.teardown_ ∧ (b.subsuite_all ss).tests_ = b.tests_ ∧
        (b.subsuite_all ss).subsuites_ = b.subsuites_ ++ ss := by
  induction ss with
  | nil => intro b; simp [suite_builder_base.subsuite_all]
  | cons s ss ih =>
    intro b
    have step : b.subsuite_all (s :: ss) = (b.subsuite s).subsuite_all ss := rfl
    rw [step]
    obtain ⟨h1, h2, h3, h4, h5⟩ := ih (b.subsuite s)
    refine ⟨h1, h2, h3, h4, ?_⟩
    rw [h5]
    simp [suite_builder_base.subsuite]

theorem capturing_ok {G P T : Type} (f : builder_action G T) (outer : List (builder_call G P))
    (b : suite_builder_base G T) (enclosing : suite_builder_base G P) (c : Nat)
    (p : suite_builder_base G T × suite_builder_base G P)
    (h : (f.capturing outer b enclosing c).1 = .ok p) :
    (f b c).1 = .ok p.1 ∧ p.2 = enclosing.calls outer ∧
      (f.capturing outer b enclosing c).2 = (f b c).2 := by
  simp only [builder_action.capturing] at h ⊢
  cases hr : (f b c).1 with
  | error e => simp [hr] at h
  | ok b1 =>
    simp only [hr, Except.ok.injEq] at h
    rw [← h]
    exact ⟨rfl, rfl, rfl⟩

/-- What `make_subsuite` returns when the callback returns: the finalized builder the callback
populated, and the enclosing builder with the callback's calls made on it. -/
theorem make_subsuite_ok {G P U : Type} (construct : default_constructor G U)
    (name : String) (g : builder_action G (P × U)) (outer : List (builder_call G P))
    (enclosing : suite_builder_base G P) (c : Nat)
    (p : compiled_suite (function_type G P) × suite_builder_base G P)
    (h : (make_subsuite construct name (g.capturing outer) enclosing c).1 = .ok p) :
    ∃ base, (g (suite_builder_base.create name) c).1 = .ok base ∧
      p.1.name = base.name_ ∧ p.2 = enclosing.calls outer := by
  simp only [make_subsuite] at h
  cases hr : (g.capturing outer (suite_builder_base.create name) enclosing c).1 with
  | error e => simp [hr] at h
  | ok q =>
    simp only [hr, Except.ok.injEq] at h
    obtain ⟨h1, h2, _⟩ := capturing_ok g outer _ enclosing c q hr
    refine ⟨q.1, h1, ?_, ?_⟩
    · rw [← h]
      rfl
    · rw [← h]
      exact h2

theorem make_subsuites_annotated_enclosing {G P : Type} (name : String)
    (g : (ft : fixture_type G) → builder_action G (P × ft.U))
    (outer : (ft : fixture_type G) → List (builder_call G P))
    (fixtures : List (fixture_type G)) :
    ∀ (enclosing : suite_builder_base G P) (c : Nat)
      (p : List (compiled_suite (function_type G P)) × suite_builder_base G P),
      (make_subsuites_annotated name (fun ft => (g ft).capturing (outer ft)) fixtures
        enclosing c).1 = .ok p →
      p.2 = fixtures.foldl (fun e t => e.calls (outer t)) enclosing := by
  induction fixtures with
  | nil =>
    intro enclosing c p h
    simp only [make_subsuites_annotated, Except.ok.injEq] at h
    rw [← h]
    rfl
  | cons ft rest ih =>
    intro enclosing c p h
    simp only [make_subsuites_annotated] at h
    cases h1 : (make_subsuite ft.construct (annotate_type name ft.type_name)
        ((g ft).capturing (outer ft)) enclosing c).1 with
    | error e => simp [h1] at h
    | ok q =>
      simp only [h1] at h
      cases h2 : (make_subsuites_annotated name (fun ft => (g ft).capturing (outer ft)) rest
          q.2 (make_subsuite ft.construct (annotate_type name ft.type_name)
            ((g ft).capturing (outer ft)) enclosing c).2).1 with
      | error e => simp [h2] at h
      | ok qs =>
        simp only [h2, Except.ok.injEq] at h
        obtain ⟨_, _, _, hq⟩ := make_subsuite_ok _ _ _ _ _ _ _ h1
        have hrest := ih _ _ qs h2
        rw [← h, List.foldl_cons, ← hq]
        exact hrest

/-- After `make_subsuites` the enclosing builder is as the callbacks left it. -/
theorem make_subsuites_enclosing {G P : Type} (name : String)
    (g : (ft : fixture_type G) → builder_action G (P × ft.U))
    (outer : (ft : fixture_type G) → List (builder_call G P))
    (fixtures : List (fixture_type G)) (enclosing : suite_builder_base G P) (c : Nat)
    (p : List (compiled_suite (function_type G P)) × suite_builder_base G P)
    (h : (make_subsuites name (fun ft => (g ft).capturing (outer ft)) fixtures
      enclosing c).1 = .ok p) :
    p.2 = enclosing.after_callbacks outer fixtures := by
  match fixtures, h with
  | [], h =>
    simp only [make_subsuites] at h
    cases h1 : (make_subsuite no_fixture_type.construct name
        ((g no_fixture_type).capturing (outer no_fixture_type)) enclosing c).1 with
    | error e => simp [h1] at h
    | ok q =>
      simp only [h1, Except.ok.injEq] at h
      obtain ⟨_, _, _, hq⟩ := make_subsuite_ok _ _ _ _ _ _ _ h1
      rw [← h]
      exact hq
  | [ft], h =>
    simp only [make_subsuites] at h
    cases h1 : (make_subsuite ft.construct name ((g ft).capturing (outer ft)) enclosing c).1 with
    | error e => simp [h1] at h
    | ok q =>
      simp only [h1, Except.ok.injEq] at h
      obtain ⟨_, _, _, hq⟩ := make_subsuite_ok _ _ _ _ _ _ _ h1
      rw [← h]
      exact hq
  | first :: second :: rest, h =>
    simp only [make_subsuites] at h
    exact make_subsuites_annotated_enclosing name g outer _ enclosing c p h

/-- A callback that makes no call on the enclosing builder leaves it as it was. -/
theorem after_callbacks_untouched {G T : Type} (b : suite_builder_base G T)
    (outer : (ft : fixture_type G) → List (builder_call G T)) (h : ∀ ft, outer ft = [])
    (fixtures : List (fixture_type G)) : b.after_callbacks outer fixtures = b := by
  have hfold : ∀ (l : List (fixture_type G)) (e : suite_builder_base G T),
      l.foldl (fun e t => e.calls (outer t)) e = e := by
    intro l
    induction l with
    | nil => intro e; rfl
    | cons t l ih =>
      intro e
      rw [List.foldl_cons, h t]
      exact ih e
  cases fixtures with
  | nil =>
    simp only [suite_builder_base.after_callbacks, h]
    rfl
  | cons ft rest => exact hfold _ b

theorem after_callbacks_name {G T : Type} (b : suite_builder_base G T)
    (outer : (ft : fixture_type G) → List (builder_call G T))
    (fixtures : List (fixture_type G)) : (b.after_callbacks outer fixtures).name_ = b.name_ := by
  have hfold : ∀ (l : List (fixture_type G)) (e : suite_builder_base G T),
      (l.foldl (fun e t => e.calls (outer t)) e).name_ = e.name_ := by
    intro l
    induction l with
    | nil => intro e; rfl
    | cons t l ih =>
      intro e
      rw [List.foldl_cons, ih, calls_name]
  cases fixtures with
  | nil => exact calls_name _ b
  | cons ft rest => exact hfold _ b

theorem subsuite_named_ok {G T : Type} (b b2 : suite_builder_base G T) (name : String)
    (f : (ft : fixture_type G) → capturing_action G T (T × ft.U))
    (fixtures : List (fixture_type G)) (c : Nat)
    (h : (b.subsuite_named name f fixtures c).1 = .ok b2) :
    ∃ p, (make_subsuites name f fixtures b c).1 = .ok p ∧ b2 = p.2.subsuite_all p.1 := by
  simp only [suite_builder_base.subsuite_named] at h
  cases hm : (make_subsuites name f fixtures b c).1 with
  | error e => simp [hm] at h
  | ok p =>
    simp only [hm, Except.ok.injEq] at h
    exact ⟨p, rfl, h.symm⟩

/-- A callback body cannot rename the builder it populates. -/
theorem script_run_name {G T : Type} (s : script G T) :
    ∀ (b b2 : suite_builder_base G T) (c : Nat), (s.run b c).1 = .ok b2 → b2.name_ = b.name_ := by
  induction s with
  | done =>
    intro b b2 c h
    simp only [script.run, Except.ok.injEq] at h
    rw [← h]
  | throw e =>
    intro b b2 c h
    simp [script.run] at h
  | call k rest ih =>
    intro b b2 c h
    simp only [script.run] at h
    rw [ih _ _ _ h]
    cases k <;> rfl
  | subsuite name fixtures f rest _ ih =>
    intro b b2 c h
    simp only [script.run] at h
    cases hs : (b.subsuite_named name (fun ft => (script.run (f ft)).capturing []) fixtures
        c).1 with
    | error e => simp [hs] at h
    | ok b1 =>
      simp only [hs] at h
      obtain ⟨p, hp, hb1⟩ := subsuite_named_ok b b1 name _ fixtures c hs
      have hp2 := make_subsuites_enclosing name (fun ft => script.run (f ft)) (fun _ => [])
        fixtures b c p hp
      rw [ih _ _ _ h, hb1, (subsuite_all_frame p.1 p.2).1, hp2, after_callbacks_name]

theorem finalize_name {G T : Type} (b : suite_builder G T) (c : Nat) :
    (b.finalize c).1.name = b.base.name_ := rfl

theorem subsuite_finalize_name {G P U : Type} (b : subsuite_builder G P U) (c : Nat) :
    (b.finalize c).1.name = b.base.name_ := rfl

/-- A suite made by `make_basic_suite` from a callback body carries the name it was given. -/
theorem make_basic_suite_name {G T : Type} (construct : default_constructor G T)
    (name : String) (s : script G T) (c : Nat) (suite : runnable_suite G)
    (h : (make_basic_suite construct name s.run c).1 = .ok suite) : suite.name = name := by
  simp only [make_basic_suite] at h
  cases hr : (s.run (suite_builder_base.create name) c).1 with
  | error e => simp [hr] at h
  | ok base =>
    simp only [hr, Except.ok.injEq] at h
    rw [← h, finalize_name]
    exact script_run_name s _ _ _ hr

theorem make_basic_suites_annotated_names {G : Type} (name : String)
    (f : (ft : fixture_type G) → script G ft.U) (fixtures : List (fixture_type G)) :
    ∀ (c : Nat) (suites : List (runnable_suite G)),
      (make_basic_suites_annotated name (fun ft => (f ft).run) fixtures c).1 = .ok suites →
      suites.map (fun s => s.name)
        = fixtures.map (fun ft => annotate_type name ft.type_name) := by
  induction fixtures with
  | nil =>
    intro c suites h
    simp only [make_basic_suites_annotated, Except.ok.injEq] at h
    rw [← h]
    rfl
  | cons ft rest ih =>
    intro c suites h
    simp only [make_basic_suites_annotated] at h
    cases h1 : (make_basic_suite ft.construct (annotate_type name ft.type_name) (f ft).run
        c).1 with
    | error e => simp [h1] at h
    | ok s =>
      simp only [h1] at h
      cases h2 : (make_basic_suites_annotated name (fun ft => (f ft).run) rest
          (make_basic_suite ft.construct (annotate_type name ft.type_name) (f ft).run
            c).2).1 with
      | error e => simp [h2] at h
      | ok ss =>
        simp only [h2, Except.ok.injEq] at h
        rw [← h, List.map_cons, List.map_cons, ih _ _ h2,
          make_basic_suite_name _ _ _ _ _ h1]

/-- C16, as stated, fails for N = 0: `make_suites<>` with no fixture type produces one suite,
not none. -/
theorem make_suites_count_counterexample :
    (produced (make_suites "inner test suite" (fun ft => (inner_callback ft).run) [] 0).1).length
        = 1 ∧
      (produced (make_suites "inner test suite" (fun ft => (inner_callback ft).run) [] 0).1).length
        ≠ ([] : List (fixture_type Unit)).length :=
  ⟨rfl, by decide⟩

/-- C16, amended: when the callback does not throw, `make_suites` with N >= 1 fixture types
produces exactly N suites in the order of the type list, and with no fixture type exactly one;
for N = 0 or N = 1 the single suite has the base name verbatim; for N >= 2 the i-th suite is
named base name, " (", the name of the i-th type, ")". -/
theorem make_suites_names {G : Type} (name : String) (f : (ft : fixture_type G) → script G ft.U)
    (fixtures : List (fixture_type G)) (c : Nat) (suites : List (runnable_suite G))
    (h : (make_suites name (fun ft => (f ft).run) fixtures c).1 = .ok suites) :
    suites.length = max fixtures.length 1 ∧
      (fixtures.length ≤ 1 → suites.map (fun s => s.name) = [name]) ∧
      (2 ≤ fixtures.length →
        suites.map (fun s => s.name)
          = fixtures.map (fun ft => name ++ " (" ++ ft.type_name ++ ")")) := by
  have hnames : (fixtures.length ≤ 1 → suites.map (fun s => s.name) = [name]) ∧
      (2 ≤ fixtures.length →
        suites.map (fun s => s.name)
          = fixtures.map (fun ft => name ++ " (" ++ ft.type_name ++ ")")) := by
    match fixtures, h with
    | [], h =>
      refine ⟨fun _ => ?_, fun h2 => by simp at h2⟩
      simp only [make_suites, make_basic_suites] at h
      cases h1 : (make_basic_suite no_fixture_type.construct name (f no_fixture_type).run
          c).1 with
      | error e => simp [h1] at h
      | ok s =>
        simp only [h1, Except.ok.injEq] at h
        rw [← h, List.map_cons, make_basic_suite_name _ _ _ _ _ h1]
        rfl
    | [ft], h =>
      refine ⟨fun _ => ?_, fun h2 => by simp at h2⟩
      simp only [make_suites, make_basic_suites] at h
      cases h1 : (make_basic_suite ft.construct name (f ft).run c).1 with
      | error e => simp [h1] at h
      | ok s =>
        simp only [h1, Except.ok.injEq] at h
        rw [← h, List.map_cons, make_basic_suite_name _ _ _ _ _ h1]
        rfl
    | first :: second :: rest, h =>
      refine ⟨fun h1 => by simp at h1, fun _ => ?_⟩
      simp only [make_suites, make_basic_suites] at h
      exact make_basic_suites_annotated_names name f _ c suites h
  refine ⟨?_, hnames⟩
  rcases Nat.lt_or_ge fixtures.length 2 with hlt | hge
  · have h1 := congrArg List.length (hnames.1 (by omega))
    simp only [List.length_map, List.length_singleton] at h1
    omega
  · have h2 := congrArg List.length (hnames.2 hge)
    simp only [List.length_map] at h2
    omega

theorem make_suites_names_witness :
    (produced (make_suites "inner test suite" (fun ft => (inner_callback ft).run)
        [int_type, float_type] 0).1).length = max [int_type, float_type].length 1 ∧
      ([int_type, float_type].length ≤ 1 →
        (produced (make_suites "inner test suite" (fun ft => (inner_callback ft).run)
          [int_type, float_type] 0).1).map (fun s => s.name) = ["inner test suite"]) ∧
      (2 ≤ [int_type, float_type].length →
        (produced (make_suites "inner test suite" (fun ft => (inner_callback ft).run)
          [int_type, float_type] 0).1).map (fun s => s.name)
          = [int_type, float_type].map
              (fun ft => "inner test suite" ++ " (" ++ ft.type_name ++ ")")) :=
  make_suites_names "inner test suite" inner_callback [int_type, float_type] 0
    (produced (make_suites "inner test suite" (fun ft => (inner_callback ft).run)
      [int_type, float_type] 0).1) rfl

mutual
theorem convert_shape {F F2 : Type}
    (f : compiled_suite.test_info F → Nat → compiled_suite.test_info F2 × Nat)
    (hf : ∀ a c, ((f a c).1.name, (f a c).1.skip) = (a.name, a.skip)) :
    ∀ (s : compiled_suite F) (c : Nat), (compiled_suite.convert f s c).1.shape = s.shape
  | .mk name tests subs, c => by
    simp only [compiled_suite.convert, compiled_suite.shape]
    rw [compile_tests_map f (fun t => (t.name, t.skip)) (fun a => (a.name, a.skip)) hf,
      convert_all_shape f hf subs]
theorem convert_all_shape {F F2 : Type}
    (f : compiled_suite.test_info F → Nat → compiled_suite.test_info F2 × Nat)
    (hf : ∀ a c, ((f a c).1.name, (f a c).1.skip) = (a.name, a.skip)) :
    ∀ (l : List (compiled_suite F)) (c : Nat),
      compiled_suite.shape_all (compiled_suite.convert_all f l c).1
        = compiled_suite.shape_all l
  | [], _ => rfl
  | s :: ss, c => by
    simp only [compiled_suite.convert_all, compiled_suite.shape_all]
    rw [convert_shape f hf s, convert_all_shape f hf ss]
end

/-- A root finalize keeps what the builder declares. -/
theorem finalize_content {G T : Type} (b : suite_builder G T) (c : Nat) :
    (b.finalize c).1.content = b.base.declared := by
  simp only [suite_builder.finalize, compiled_suite.construct, compiled_suite.content,
    compiled_suite.tests, compiled_suite.subsuites, suite_builder_base.declared]
  rw [compile_tests_map _ (fun t => (t.name, t.skip)) (fun a => (a.name, a.skip))
      (fun _ _ => rfl),
    convert_all_shape _ (fun _ _ => rfl)]

/-- A nested finalize keeps what the builder declares. -/
theorem subsuite_finalize_content {G P U : Type} (b : subsuite_builder G P U) (c : Nat) :
    (b.finalize c).1.content = b.base.declared := by
  simp only [subsuite_builder.finalize, compiled_suite.construct, compiled_suite.content,
    compiled_suite.tests, compiled_suite.subsuites, suite_builder_base.declared]
  rw [compile_tests_map _ (fun t => (t.name, t.skip)) (fun a => (a.name, a.skip))
      (fun _ _ => rfl),
    convert_all_shape _ (fun _ _ => rfl)]

/-- A suite made by `make_basic_suite` has the content the callback left in its builder. -/
theorem make_basic_suite_content {G T : Type} (construct : default_constructor G T)
    (name : String) (f : builder_action G T) (c : Nat) (suite : runnable_suite G)
    (h : (make_basic_suite construct name f c).1 = .ok suite) :
    ∃ b, (f (suite_builder_base.create name) c).1 = .ok b ∧ suite.content = b.declared := by
  simp only [make_basic_suite] at h
  cases hr : (f (suite_builder_base.create name) c).1 with
  | error e => simp [hr] at h
  | ok base =>
    simp only [hr, Except.ok.injEq] at h
    exact ⟨base, rfl, by rw [← h, finalize_content]⟩

theorem make_basic_suites_annotated_content {G : Type} (name : String)
    (f : (ft : fixture_type G) → builder_action G ft.U) (fixtures : List (fixture_type G)) :
    ∀ (c : Nat) (suites : List (runnable_suite G)),
      (make_basic_suites_annotated name f fixtures c).1 = .ok suites →
      ∀ s ∈ suites, ∃ ft ∈ fixtures, ∃ n k b,
        (f ft (suite_builder_base.create n) k).1 = .ok b ∧ s.content = b.declared := by
  induction fixtures with
  | nil =>
    intro c suites h s hs
    simp only [make_basic_suites_annotated, Except.ok.injEq] at h
    rw [← h] at hs
    simp at hs
  | cons ft rest ih =>
    intro c suites h s hs
    simp only [make_basic_suites_annotated] at h
    cases h1 : (make_basic_suite ft.construct (annotate_type name ft.type_name) (f ft) c).1 with
    | error e => simp [h1] at h
    | ok s1 =>
      simp only [h1] at h
      cases h2 : (make_basic_suites_annotated name f rest
          (make_basic_suite ft.construct (annotate_type name ft.type_name) (f ft) c).2).1 with
      | error e => simp [h2] at h
      | ok ss =>
        simp only [h2, Except.ok.injEq] at h
        rw [← h, List.mem_cons] at hs
        rcases hs with hs | hs
        · obtain ⟨b, hb, hc⟩ := make_basic_suite_content _ _ _ _ _ h1
          exact ⟨ft, List.mem_cons_self _ _, _, _, b, hb, by rw [hs, hc]⟩
        · obtain ⟨ft2, hft2, n, k, b, hb, hc⟩ := ih _ _ h2 s hs
          exact ⟨ft2, List.mem_cons_of_mem _ hft2, n, k, b, hb, hc⟩

/-- C17, as stated, fails: a callback whose instantiations differ by fixture type gives suites
of different structure, here one test for `int` and none for `float`. -/
theorem parameterized_suites_counterexample :
    (produced (make_suites "inner test suite" (fun ft => (per_type_callback ft).run)
        [int_type, float_type] 0).1).map (fun s => s.size) = [1, 0] ∧
      (produced (make_suites "inner test suite" (fun ft => (per_type_callback ft).run)
        [int_type, float_type] 0).1).map (fun s => s.tests.map (fun t => (t.name, t.skip)))
        = [[("only for int", false)], []] :=
  ⟨by decide, by decide⟩

/-- C17, amended: when the callback does not throw and leaves the same declarations (tests with
their skip flags, subsuite structures) in the builder whatever fixture type of the list it is
used at, any two suites of one parameterized instantiation have the same number of tests, the
same (test name, skip flag) pairs in the same order and the same subsuite structure. -/
theorem parameterized_suites_same_structure {G : Type} (name : String)
    (f : (ft : fixture_type G) → script G ft.U) (fixtures : List (fixture_type G)) (c : Nat)
    (suites : List (runnable_suite G))
    (h : (make_suites name (fun ft => (f ft).run) fixtures c).1 = .ok suites)
    (huniform : ∀ ft1 ∈ fixtures, ∀ ft2 ∈ fixtures, ∀ n1 n2 c1 c2 b1 b2,
      ((f ft1).run (suite_builder_base.create n1) c1).1 = .ok b1 →
      ((f ft2).run (suite_builder_base.create n2) c2).1 = .ok b2 →
      b1.declared = b2.declared) :
    ∀ s1 ∈ suites, ∀ s2 ∈ suites,
      s1.size = s2.size ∧
        s1.tests.map (fun t => (t.name, t.skip)) = s2.tests.map (fun t => (t.name, t.skip)) ∧
        compiled_suite.shape_all s1.subsuites = compiled_suite.shape_all s2.subsuites := by
  have hcontent : ∀ s1 ∈ suites, ∀ s2 ∈ suites, s1.content = s2.content := by
    match fixtures, h, huniform with
    | [], h, _ =>
      intro s1 h1 s2 h2
      simp only [make_suites, make_basic_suites] at h
      cases hm : (make_basic_suite no_fixture_type.construct name (f no_fixture_type).run
          c).1 with
      | error e => simp [hm] at h
      | ok s =>
        simp only [hm, Except.ok.injEq] at h
        rw [← h, List.mem_singleton] at h1 h2
        rw [h1, h2]
    | [ft], h, _ =>
      intro s1 h1 s2 h2
      simp only [make_suites, make_basic_suites] at h
      cases hm : (make_basic_suite ft.construct name (f ft).run c).1 with
      | error e => simp [hm] at h
      | ok s =>
        simp only [hm, Except.ok.injEq] at h
        rw [← h, List.mem_singleton] at h1 h2
        rw [h1, h2]
    | first :: second :: rest, h, huniform =>
      intro s1 h1 s2 h2
      simp only [make_suites, make_basic_suites] at h
      obtain ⟨ft1, hft1, n1, k1, b1, hb1, hc1⟩ :=
        make_basic_suites_annotated_content name _ _ c suites h s1 h1
      obtain ⟨ft2, hft2, n2, k2, b2, hb2, hc2⟩ :=
        make_basic_suites_annotated_content name _ _ c suites h s2 h2
      rw [hc1, hc2]
      exact huniform ft1 hft1 ft2 hft2 n1 n2 k1 k2 b1 b2 hb1 hb2
  intro s1 h1 s2 h2
  have hc := hcontent s1 h1 s2 h2
  simp only [compiled_suite.content, Prod.mk.injEq] at hc
  refine ⟨?_, hc.1, hc.2⟩
  have hl := congrArg List.length hc.1
  simpa [compiled_suite.size] using hl

theorem parameterized_suites_same_structure_witness :
    (inner_suite_for int_type 0).size = (inner_suite_for float_type 2).size ∧
      (inner_suite_for int_type 0).tests.map (fun t => (t.name, t.skip))
        = (inner_suite_for float_type 2).tests.map (fun t => (t.name, t.skip)) ∧
      compiled_suite.shape_all (inner_suite_for int_type 0).subsuites
        = compiled_suite.shape_all (inner_suite_for float_type 2).subsuites :=
  parameterized_suites_same_structure "inner test suite" inner_callback [int_type, float_type] 0
    (produced (make_suites "inner test suite" (fun ft => (inner_callback ft).run)
      [int_type, float_type] 0).1) rfl
    (fun ft1 _ ft2 _ n1 n2 c1 c2 b1 b2 h1 h2 => by
      have e1 : _ = b1 := Except.ok.inj h1
      have e2 : _ = b2 := Except.ok.inj h2
      rw [← e1, ← e2]
      rfl)
    (inner_suite_for int_type 0) (List.mem_cons_self _ _)
    (inner_suite_for float_type 2) (List.mem_cons_of_mem _ (List.mem_cons_self _ _))

/-- A suite made by `make_subsuite` from a callback body carries the name it was given. -/
theorem make_subsuite_name {G P U : Type} (construct : default_constructor G U)
    (name : String) (s : script G (P × U)) (outer : List (builder_call G P))
    (enclosing : suite_builder_base G P) (c : Nat)
    (p : compiled_suite (function_type G P) × suite_builder_base G P)
    (h : (make_subsuite construct name (s.run.capturing outer) enclosing c).1 = .ok p) :
    p.1.name = name := by
  obtain ⟨base, hb, hn, _⟩ := make_subsuite_ok construct name s.run outer enclosing c p h
  rw [hn]
  exact script_run_name s _ _ _ hb

theorem make_subsuites_annotated_names {G P : Type} (name : String)
    (f : (ft : fixture_type G) → script G (P × ft.U))
    (outer : (ft : fixture_type G) → List (builder_call G P))
    (fixtures : List (fixture_type G)) :
    ∀ (enclosing : suite_builder_base G P) (c : Nat)
      (p : List (compiled_suite (function_type G P)) × suite_builder_base G P),
      (make_subsuites_annotated name (fun ft => (f ft).run.capturing (outer ft)) fixtures
        enclosing c).1 = .ok p →
      p.1.map (fun s => s.name)
        = fixtures.map (fun ft => annotate_type name ft.type_name) := by
  induction fixtures with
  | nil =>
    intro enclosing c p h
    simp only [make_subsuites_annotated, Except.ok.injEq] at h
    rw [← h]
    rfl
  | cons ft rest ih =>
    intro enclosing c p h
    simp only [make_subsuites_annotated] at h
    cases h1 : (make_subsuite ft.construct (annotate_type name ft.type_name)
        ((f ft).run.capturing (outer ft)) enclosing c).1 with
    | error e => simp [h1] at h
    | ok q =>
      simp only [h1] at h
      cases h2 : (make_subsuites_annotated name (fun ft => (f ft).run.capturing (outer ft))
          rest q.2 (make_subsuite ft.construct (annotate_type name ft.type_name)
            ((f ft).run.capturing (outer ft)) enclosing c).2).1 with
      | error e => simp [h2] at h
      | ok qs =>
        simp only [h2, Except.ok.injEq] at h
        rw [← h, List.map_cons, List.map_cons, ih _ _ _ h2,
          make_subsuite_name _ _ _ _ _ _ _ h1]

theorem make_subsuites_names {G P : Type} (name : String)
    (f : (ft : fixture_type G) → script G (P × ft.U))
    (outer : (ft : fixture_type G) → List (builder_call G P))
    (fixtures : List (fixture_type G)) (enclosing : suite_builder_base G P)
    (c : Nat) (p : List (compiled_suite (function_type G P)) × suite_builder_base G P)
    (h : (make_subsuites name (fun ft => (f ft).run.capturing (outer ft)) fixtures
      enclosing c).1 = .ok p) :
    (fixtures.length ≤ 1 → p.1.map (fun s => s.name) = [name]) ∧
      (2 ≤ fixtures.length →
        p.1.map (fun s => s.name)
          = fixtures.map (fun ft => name ++ " (" ++ ft.type_name ++ ")")) := by
  match fixtures, h with
  | [], h =>
    refine ⟨fun _ => ?_, fun h2 => by simp at h2⟩
    simp only [make_subsuites] at h
    cases h1 : (make_subsuite no_fixture_type.construct name
        ((f no_fixture_type).run.capturing (outer no_fixture_type)) enclosing c).1 with
    | error e => simp [h1] at h
    | ok s =>
      simp only [h1, Except.ok.injEq] at h
      rw [← h, List.map_cons, make_subsuite_name _ _ _ _ _ _ _ h1]
      rfl
  | [ft], h =>
    refine ⟨fun _ => ?_, fun h2 => by simp at h2⟩
    simp only [make_subsuites] at h
    cases h1 : (make_subsuite ft.construct name ((f ft).run.capturing (outer ft))
        enclosing c).1 with
    | error e => simp [h1] at h
    | ok s =>
      simp only [h1, Except.ok.injEq] at h
      rw [← h, List.map_cons, make_subsuite_name _ _ _ _ _ _ _ h1]
      rfl
  | first :: second :: rest, h =>
    refine ⟨fun h1 => by simp at h1, fun _ => ?_⟩
    simp only [make_subsuites] at h
    exact make_subsuites_annotated_names name f outer _ enclosing c p h

/-- C18, as stated, fails: the callback of `subsuite(name, f)` is an arbitrary callable and can
hold a reference to the parent builder.  Here it declares a test on the parent while it
populates the child, and after the `subsuite` call the parent's own tests are not the ones it
had before. -/
theorem subsuite_frame_counterexample :
    (built example_builder.base
        (example_builder.base.subsuite_named "subsuite"
          (fun ft => (subsuite_callback Unit ft).run.capturing late_test)
          [int_type] 3).1).tests_.map (fun a => a.name) = ["inner test", "late test"] ∧
      example_builder.base.tests_.map (fun a => a.name) = ["inner test"] ∧
      (example_builder.base.subsuite_named "subsuite"
          (fun ft => (subsuite_callback Unit ft).run.capturing late_test)
          [int_type] 3).1.toOption.isSome = true := by
  decide

/-- C18, amended: when the callback does not throw, `subsuite<Fixture...>(name, callback)`
appends children to the parent builder as the runs of the callback left it, after every
subsuite it then holds: with N >= 2 fixture types exactly N, in the order of the type list, the
i-th named name, " (", the name of the i-th type, ")"; with no or one fixture type exactly one,
named name verbatim.  The call itself changes nothing else: the parent's tests, setup and
teardown are as the callback left them, and its name is unchanged.  When the callback makes no
call on the parent, the children follow the subsuites attached earlier and the parent's tests,
name, setup and teardown are unchanged. -/
theorem subsuite_appends_after_callback {G T : Type} (b b2 : suite_builder_base G T)
    (name : String) (f : (ft : fixture_type G) → script G (T × ft.U))
    (outer : (ft : fixture_type G) → List (builder_call G T))
    (fixtures : List (fixture_type G)) (c : Nat)
    (h : (b.subsuite_named name (fun ft => (f ft).run.capturing (outer ft)) fixtures c).1
      = .ok b2) :
    ∃ children,
      b2.subsuites_ = (b.after_callbacks outer fixtures).subsuites_ ++ children ∧
      children.length = max fixtures.length 1 ∧
      (fixtures.length ≤ 1 → children.map (fun s => s.name) = [name]) ∧
      (2 ≤ fixtures.length →
        children.map (fun s => s.name)
          = fixtures.map (fun ft => name ++ " (" ++ ft.type_name ++ ")")) ∧
      b2.tests_ = (b.after_callbacks outer fixtures).tests_ ∧ b2.name_ = b.name_ ∧
      b2.setup_ = (b.after_callbacks outer fixtures).setup_ ∧
      b2.teardown_ = (b.after_callbacks outer fixtures).teardown_ ∧
      ((∀ ft, outer ft = []) →
        b2.subsuites_ = b.subsuites_ ++ children ∧ b2.tests_ = b.tests_ ∧
          b2.setup_ = b.setup_ ∧ b2.teardown_ = b.teardown_) := by
  obtain ⟨p, hp, hb2⟩ := subsuite_named_ok b b2 name _ fixtures c h
  have hp2 := make_subsuites_enclosing name (fun ft => (f ft).run) outer fixtures b c p hp
  obtain ⟨h1, h2, h3, h4, h5⟩ := subsuite_all_frame p.1 p.2
  have hnames := make_subsuites_names name f outer fixtures b c p hp
  rw [hb2, ← hp2]
  refine ⟨p.1, h5, ?_, hnames.1, hnames.2, h4, ?_, h2, h3, ?_⟩
  · rcases Nat.lt_or_ge fixtures.length 2 with hlt | hge
    · have hl := congrArg List.length (hnames.1 (by omega))
      simp only [List.length_map, List.length_singleton] at hl
      omega
    · have hl := congrArg List.length (hnames.2 hge)
      simp only [List.length_map] at hl
      omega
  · rw [h1, hp2, after_callbacks_name]
  · intro hnone
    have hpb : p.2 = b := by rw [hp2, after_callbacks_untouched b outer hnone fixtures]
    rw [hpb] at h2 h3 h4 h5 ⊢
    exact ⟨h5, h4, h2, h3⟩

theorem subsuite_appends_after_callback_witness :
    ∃ children,
      (built example_builder.base
          (example_builder.base.subsuite_named "subsuite"
            (fun ft => (subsuite_callback Unit ft).run.capturing late_test)
            [int_type, float_type] 3).1).subsuites_
        = (example_builder.base.after_callbacks (fun _ => late_test)
            [int_type, float_type]).subsuites_ ++ children ∧
      children.length = max [int_type, float_type].length 1 ∧
      ([int_type, float_type].length ≤ 1 → children.map (fun s => s.name) = ["subsuite"]) ∧
      (2 ≤ [int_type, float_type].length →
        children.map (fun s => s.name)
          = [int_type, float_type].map (fun ft => "subsuite" ++ " (" ++ ft.type_name ++ ")")) ∧
      (built example_builder.base
          (example_builder.base.subsuite_named "subsuite"
            (fun ft => (subsuite_callback Unit ft).run.capturing late_test)
            [int_type, float_type] 3).1).tests_
        = (example_builder.base.after_callbacks (fun _ => late_test)
            [int_type, float_type]).tests_ ∧
      (built example_builder.base
          (example_builder.base.subsuite_named "subsuite"
            (fun ft => (subsuite_callback Unit ft).run.capturing late_test)
            [int_type, float_type] 3).1).name_ = example_builder.base.name_ ∧
      (built example_builder.base
          (example_builder.base.subsuite_named "subsuite"
            (fun ft => (subsuite_callback Unit ft).run.capturing late_test)
            [int_type, float_type] 3).1).setup_
        = (example_builder.base.after_callbacks (fun _ => late_test)
            [int_type, float_type]).setup_ ∧
      (built example_builder.base
          (example_builder.base.subsuite_named "subsuite"
            (fun ft => (subsuite_callback Unit ft).run.capturing late_test)
            [int_type, float_type] 3).1).teardown_
        = (example_builder.base.after_callbacks (fun _ => late_test)
            [int_type, float_type]).teardown_ ∧
      ((∀ ft : fixture_type Unit, (fun _ => late_test) ft = []) →
        (built example_builder.base
            (example_builder.base.subsuite_named "subsuite"
              (fun ft => (subsuite_callback Unit ft).run.capturing late_test)
              [int_type, float_type] 3).1).subsuites_
          = example_builder.base.subsuites_ ++ children ∧
        (built example_builder.base
            (example_builder.base.subsuite_named "subsuite"
              (fun ft => (subsuite_callback Unit ft).run.capturing late_test)
              [int_type, float_type] 3).1).tests_ = example_builder.base.tests_ ∧
        (built example_builder.base
            (example_builder.base.subsuite_named "subsuite"
              (fun ft => (subsuite_callback Unit ft).run.capturing late_test)
              [int_type, float_type] 3).1).setup_ = example_builder.base.setup_ ∧
        (built example_builder.base
            (example_builder.base.subsuite_named "subsuite"
              (fun ft => (subsuite_callback Unit ft).run.capturing late_test)
              [int_type, float_type] 3).1).teardown_ = example_builder.base.teardown_) :=
  subsuite_appends_after_callback example_builder.base
    (built example_builder.base
      (example_builder.base.subsuite_named "subsuite"
        (fun ft => (subsuite_callback Unit ft).run.capturing late_test)
        [int_type, float_type] 3).1)
    "subsuite" (subsuite_callback Unit) (fun _ => late_test) [int_type, float_type] 3 rfl

/-- C19: finalize keeps the subsuite tree, for a root builder and for a nested one alike: the
finalized suite has as many subsuites as were attached to the builder, in attachment order,
each with the name, the (test name, skip flag) pairs and, recursively, the subsuites of the
attached one; `size()` is the number of the builder's own tests, whatever the subsuites hold. -/
theorem finalize_preserves_subsuites {G T P U : Type} (b : suite_builder G T)
    (n : subsuite_builder G P U) (c : Nat) :
    ((b.finalize c).1.subsuites.length = b.base.subsuites_.length ∧
        compiled_suite.shape_all (b.finalize c).1.subsuites
          = compiled_suite.shape_all b.base.subsuites_ ∧
        (b.finalize c).1.size = b.base.tests_.length) ∧
      ((n.finalize c).1.subsuites.length = n.base.subsuites_.length ∧
        compiled_suite.shape_all (n.finalize c).1.subsuites
          = compiled_suite.shape_all n.base.subsuites_ ∧
        (n.finalize c).1.size = n.base.tests_.length) := by
  have hc := finalize_content b c
  have hn := subsuite_finalize_content n c
  simp only [compiled_suite.content, suite_builder_base.declared, Prod.mk.injEq] at hc hn
  have hlen : ∀ (F : Type) (l : List (compiled_suite F)),
      (compiled_suite.shape_all l).length = l.length := by
    intro F l
    induction l with
    | nil => rfl
    | cons s l ih => simp [compiled_suite.shape_all, ih]
  refine ⟨⟨?_, hc.2, ?_⟩, ⟨?_, hn.2, ?_⟩⟩
  · rw [← hlen, hc.2, hlen]
  · have hl := congrArg List.length hc.1
    simpa [compiled_suite.size] using hl
  · rw [← hlen, hn.2, hlen]
  · have hl := congrArg List.length hn.1
    simpa [compiled_suite.size] using hl

/-- C20: when the construction callback throws e while populating the builder, `make_suite`
throws the same e and returns no suite; and a callback that makes a nested `subsuite` call,
whose own callback throws e (for the only fixture type or, of several, for the first) throws
that e itself, so the failure of a nested callback reaches `make_suite` the same way. -/
theorem construction_failure_propagates {G T : Type} (construct : default_constructor G T)
    (name : String) (s : script G T) (c : Nat) (e : Thrown)
    (h : (s.run (suite_builder_base.create name) c).1 = .error e) :
    (make_suite construct name s.run c).1 = .error e ∧
      (∀ (b : suite_builder_base G T) (n : String) (ft : fixture_type G)
          (g : (ft : fixture_type G) → script G (T × ft.U)) (rest : script G T) (k : Nat),
        ((g ft).run (suite_builder_base.create n) k).1 = .error e →
          ((script.subsuite n [ft] g rest).run b k).1 = .error e) ∧
      (∀ (b : suite_builder_base G T) (n : String)
          (g : (ft : fixture_type G) → script G (T × ft.U)) (rest : script G T) (k : Nat),
        ((g no_fixture_type).run (suite_builder_base.create n) k).1 = .error e →
          ((script.subsuite n [] g rest).run b k).1 = .error e) ∧
      (∀ (b : suite_builder_base G T) (n : String) (first second : fixture_type G)
          (more : List (fixture_type G)) (g : (ft : fixture_type G) → script G (T × ft.U))
          (rest : script G T) (k : Nat),
        ((g first).run (suite_builder_base.create (annotate_type n first.type_name)) k).1
            = .error e →
          ((script.subsuite n (first :: second :: more) g rest).run b k).1 = .error e) := by
  refine ⟨?_, ?_, ?_, ?_⟩
  · simp [make_suite, make_basic_suite, h]
  · intro b n ft g rest k hg
    simp [script.run, suite_builder_base.subsuite_named, make_subsuites, make_subsuite,
      builder_action.capturing, hg]
  · intro b n g rest k hg
    simp [script.run, suite_builder_base.subsuite_named, make_subsuites, make_subsuite,
      builder_action.capturing, hg]
  · intro b n first second more g rest k hg
    simp [script.run, suite_builder_base.subsuite_named, make_subsuites,
      make_subsuites_annotated, make_subsuite, builder_action.capturing, hg]

theorem construction_failure_propagates_witness :
    (make_suite (no_fixture : default_constructor Unit Unit) "broken test suite"
        (script.throw (.std_exception "bad")).run 0).1 = .error (.std_exception "bad") ∧
      (∀ (b : suite_builder_base Unit Unit) (n : String) (ft : fixture_type Unit)
          (g : (ft : fixture_type Unit) → script Unit (Unit × ft.U)) (rest : script Unit Unit)
          (k : Nat),
        ((g ft).run (suite_builder_base.create n) k).1 = .error (.std_exception "bad") →
          ((script.subsuite n [ft] g rest).run b k).1 = .error (.std_exception "bad")) ∧
      (∀ (b : suite_builder_base Unit Unit) (n : String)
          (g : (ft : fixture_type Unit) → script Unit (Unit × ft.U)) (rest : script Unit Unit)
          (k : Nat),
        ((g no_fixture_type).run (suite_builder_base.create n) k).1
            = .error (.std_exception "bad") →
          ((script.subsuite n [] g rest).run b k).1 = .error (.std_exception "bad")) ∧
      (∀ (b : suite_builder_base Unit Unit) (n : String) (first second : fixture_type Unit)
          (more : List (fixture_type Unit))
          (g : (ft : fixture_type Unit) → script Unit (Unit × ft.U)) (rest : script Unit Unit)
          (k : Nat),
        ((g first).run (suite_builder_base.create (annotate_type n first.type_name)) k).1
            = .error (.std_exception "bad") →
          ((script.subsuite n (first :: second :: more) g rest).run b k).1
            = .error (.std_exception "bad")) :=
  construction_failure_propagates no_fixture "broken test suite"
    (script.throw (.std_exception "bad")) 0 (.std_exception "bad") rfl

/-- When the setup that runs returns normally, `run_test` leaves the world the teardown leaves
when called once on what the test left, whether the test returned or threw. -/
theorem run_test_world {G T : Type} (setup teardown : Option (function_type G T))
    (test : function_type G T) (t : T) (w : World G)
    (hs : (call_hook setup t w).thrown = none) :
    (run_test setup teardown test t w).world
      = (call_hook teardown
          (test (call_hook setup t w).fixtures (call_hook setup t w).world).fixtures
          (test (call_hook setup t w).fixtures (call_hook setup t w).world).world).world := by
  unfold run_test
  cases setup with
  | none =>
    simp only [call_hook] at hs ⊢
    cases hb : (test t w).thrown with
    | none => cases teardown <;> rfl
    | some e =>
      cases teardown with
      | none => rfl
      | some d =>
        simp only []
        cases (d (test t w).fixtures (test t w).world).thrown <;> rfl
  | some s =>
    simp only [call_hook] at hs ⊢
    simp only [hs]
    cases hb : (test (s t w).fixtures (s t w).world).thrown with
    | none => cases teardown <;> rfl
    | some e =>
      cases teardown with
      | none => rfl
      | some d =>
        simp only []
        cases (d (test (s t w).fixtures (s t w).world).fixtures
          (test (s t w).fixtures (s t w).world).world).thrown <;> rfl

/-- The world the root lambda leaves is the world its try block leaves. -/
theorem test_function_world {G T : Type} (b : suite_builder G T) (f : function_type G T)
    (w : World G) : (b.test_function f w).world = (b.try_block f w).2 := by
  simp only [suite_builder.test_function]
  cases (b.try_block f w).1 with
  | none => rfl
  | some e => simp only [first_match_root_ladder]

/-- With the root fixtures constructed, the try block is the `run_test` call on them. -/
theorem try_block_of_constructed {G T : Type} (b : suite_builder G T) (f : function_type G T)
    (w : World G) (t0 : T) (h : (b.construct w.globals).1 = .ok t0) :
    b.try_block f w
      = ((run_test b.base.setup_ b.base.teardown_ f t0
            { w with globals := (b.construct w.globals).2 }).thrown,
          (run_test b.base.setup_ b.base.teardown_ f t0
            { w with globals := (b.construct w.globals).2 }).world) := by
  simp only [suite_builder.try_block, h]

/-- C21: setup and teardown replace.  After `setup(old)` then `setup(g)` the builder is the one
`setup(g)` alone gives, and every TestCase of the finalized suite, at any depth, wraps some
callable fn so that a call runs the counted g once on the fresh fixtures, then, if g returned,
fn and the builder's teardown, and never `old`; likewise after `teardown(old)` then
`teardown(g)` a call runs the builder's setup, then fn, then the counted g once. -/
theorem setup_and_teardown_replace {G T : Type} (b0 : suite_builder_base G T)
    (construct : default_constructor G T) (old : Option (function_type G T)) (tag : String)
    (g : behaviour G T) (c : Nat) (w : World G) (t0 : T)
    (hconstruct : (construct w.globals).1 = .ok t0)
    (hsetup0 : ∀ t v, (call_hook b0.setup_ t v).thrown = none) :
    ((b0.setup old).setup (some (run_counter tag g)) = b0.setup (some (run_counter tag g)) ∧
        ∀ tc ∈ (suite_builder.finalize
            { base := (b0.setup old).setup (some (run_counter tag g)), construct := construct }
            c).1.all_tests,
          ∃ fn, tc.function
              = suite_builder.test_function
                  { base := b0.setup (some (run_counter tag g)), construct := construct } fn ∧
            (run_counter tag g t0 { w with globals := (construct w.globals).2 }).world.trace
              = w.trace ++ [tag] ∧
            ((run_counter tag g t0 { w with globals := (construct w.globals).2 }).thrown ≠ none →
              (tc.function w).world
                = (run_counter tag g t0 { w with globals := (construct w.globals).2 }).world) ∧
            ((run_counter tag g t0 { w with globals := (construct w.globals).2 }).thrown = none →
              (tc.function w).world
                = (call_hook b0.teardown_
                    (fn (run_counter tag g t0
                        { w with globals := (construct w.globals).2 }).fixtures
                      (run_counter tag g t0
                        { w with globals := (construct w.globals).2 }).world).fixtures
                    (fn (run_counter tag g t0
                        { w with globals := (construct w.globals).2 }).fixtures
                      (run_counter tag g t0
                        { w with globals := (construct w.globals).2 }).world).world).world)) ∧
      ((b0.teardown old).teardown (some (run_counter tag g))
          = b0.teardown (some (run_counter tag g)) ∧
        ∀ tc ∈ (suite_builder.finalize
            { base := (b0.teardown old).teardown (some (run_counter tag g)),
              construct := construct } c).1.all_tests,
          ∃ fn, tc.function
              = suite_builder.test_function
                  { base := b0.teardown (some (run_counter tag g)), construct := construct }
                  fn ∧
            (tc.function w).world.trace
              = (fn (call_hook b0.setup_ t0 { w with globals := (construct w.globals).2 }).fixtures
                  (call_hook b0.setup_ t0
                    { w with globals := (construct w.globals).2 }).world).world.trace
                ++ [tag]) := by
  refine ⟨⟨rfl, ?_⟩, ⟨rfl, ?_⟩⟩
  · intro tc htc
    obtain ⟨fn, hfn⟩ := finalize_all_tests_function _ c tc htc
    refine ⟨fn, hfn, rfl, fun hthrows => ?_, fun hreturns => ?_⟩
    · rw [hfn, test_function_world, try_block_of_constructed _ fn w t0 hconstruct]
      have h := run_test_of_setup_throws (run_counter tag g) b0.teardown_ fn t0
        { w with globals := (construct w.globals).2 } hthrows
      simp only [suite_builder_base.setup]
      rw [h]
    · rw [hfn, test_function_world, try_block_of_constructed _ fn w t0 hconstruct]
      exact run_test_world _ _ fn t0 _ hreturns
  · intro tc htc
    obtain ⟨fn, hfn⟩ := finalize_all_tests_function _ c tc htc
    refine ⟨fn, hfn, ?_⟩
    rw [hfn, test_function_world, try_block_of_constructed _ fn w t0 hconstruct]
    have h := run_test_world b0.setup_ (some (run_counter tag g)) fn t0
      { w with globals := (construct w.globals).2 } (hsetup0 _ _)
    simp only [suite_builder_base.teardown]
    rw [h]
    rfl

theorem setup_and_teardown_replace_witness :
    (suite_builder.finalize
          { base := (counted_base.setup (some (run_counter "old" (throws (.other 1))))).setup
              (some (run_counter "new" returns)),
            construct := no_fixture } 0).1.all_tests.map
          (fun tc => (tc.function fresh_world).world.trace) = [["new", "test", "teardown"]] ∧
      (suite_builder.finalize
          { base := (counted_base.teardown
              (some (run_counter "old" (throws (.other 1))))).teardown
              (some (run_counter "new" returns)),
            construct := no_fixture } 0).1.all_tests.map
          (fun tc => (tc.function fresh_world).world.trace) = [["setup", "test", "new"]] ∧
      (counted_base.setup (some (run_counter "old" (throws (.other 1))))).setup
          (some (run_counter "new" returns))
        = counted_base.setup (some (run_counter "new" returns)) ∧
      (counted_base.teardown (some (run_counter "old" (throws (.other 1))))).teardown
          (some (run_counter "new" returns))
        = counted_base.teardown (some (run_counter "new" returns)) :=
  ⟨rfl, rfl,
    (setup_and_teardown_replace counted_base no_fixture
      (some (run_counter "old" (throws (.other 1)))) "new" returns 0 fresh_world () rfl
      (fun _ _ => rfl)).1.1,
    (setup_and_teardown_replace counted_base no_fixture
      (some (run_counter "old" (throws (.other 1)))) "new" returns 0 fresh_world () rfl
      (fun _ _ => rfl)).2.1⟩

theorem calls_cons {G T : Type} (b : suite_builder_base G T) (c : builder_call G T)
    (cs : List (builder_call G T)) : b.calls (c :: cs) = (b.call c).calls cs := rfl

theorem calls_declarations {G T : Type} (cs : List (builder_call G T)) :
    ∀ b : suite_builder_base G T,
      (b.calls cs).tests_ = b.tests_ ++ cs.filterMap builder_call.declared_test ∧
        (b.calls cs).subsuites_ = b.subsuites_ ++ cs.filterMap builder_call.attached := by
  induction cs with
  | nil => intro b; simp [suite_builder_base.calls]
  | cons c cs ih =>
    intro b
    rw [calls_cons, (ih _).1, (ih _).2]
    cases c <;>
      simp [suite_builder_base.call, suite_builder_base.setup, suite_builder_base.teardown,
        suite_builder_base.test, suite_builder_base.skip_test, suite_builder_base.subsuite,
        builder_call.declared_test, builder_call.attached, List.filterMap_cons]

theorem filterMap_declarations {G T B : Type} (f : builder_call G T → Option B)
    (hf : ∀ c, c.is_declaration = false → f c = none) (cs : List (builder_call G T)) :
    (cs.filter builder_call.is_declaration).filterMap f = cs.filterMap f := by
  induction cs with
  | nil => rfl
  | cons c cs ih =>
    cases hc : c.is_declaration with
    | true => simp [List.filter_cons, hc, List.filterMap_cons, ih]
    | false => simp [List.filter_cons, hc, List.filterMap_cons, ih, hf c hc]

/-- The structure of a finalized root suite is read off the builder; the id counter plays no
part in it. -/
theorem finalize_shape {G T : Type} (b : suite_builder G T) (c : Nat) :
    (b.finalize c).1.shape
      = .mk b.base.name_ (b.base.tests_.map (fun a => (a.name, a.skip)))
          (compiled_suite.shape_all b.base.subsuites_) := by
  simp only [suite_builder.finalize, compiled_suite.construct, compiled_suite.shape]
  rw [compile_tests_map _ (fun t => (t.name, t.skip)) (fun a => (a.name, a.skip))
      (fun _ _ => rfl),
    convert_all_shape _ (fun _ _ => rfl)]

/-- The structure of a finalized nested suite is read off the builder. -/
theorem subsuite_finalize_shape {G P U : Type} (b : subsuite_builder G P U) (c : Nat) :
    (b.finalize c).1.shape
      = .mk b.base.name_ (b.base.tests_.map (fun a => (a.name, a.skip)))
          (compiled_suite.shape_all b.base.subsuites_) := by
  simp only [subsuite_builder.finalize, compiled_suite.construct, compiled_suite.shape]
  rw [compile_tests_map _ (fun t => (t.name, t.skip)) (fun a => (a.name, a.skip))
      (fun _ _ => rfl),
    convert_all_shape _ (fun _ _ => rfl)]

/-- C22: two call sequences on the same builder that make the same `test`, `skip_test` and
`subsuite` calls in the same relative order and leave the same setup and teardown finalize,
at whatever id counters, to suites of the same structure whose TestCases, taken in order over
the whole tree, have the same functions: where the hook calls stand does not matter. -/
theorem hook_position_irrelevant {G T : Type} (b : suite_builder_base G T)
    (construct : default_constructor G T) (cs1 cs2 : List (builder_call G T)) (c1 c2 : Nat)
    (hdecl : cs1.filter builder_call.is_declaration = cs2.filter builder_call.is_declaration)
    (hsetup : (b.calls cs1).setup_ = (b.calls cs2).setup_)
    (hteardown : (b.calls cs1).teardown_ = (b.calls cs2).teardown_) :
    (suite_builder.finalize { base := b.calls cs1, construct := construct } c1).1.shape
        = (suite_builder.finalize { base := b.calls cs2, construct := construct } c2).1.shape ∧
      (suite_builder.finalize { base := b.calls cs1, construct := construct }
          c1).1.all_tests.map (fun t => t.function)
        = (suite_builder.finalize { base := b.calls cs2, construct := construct }
          c2).1.all_tests.map (fun t => t.function) := by
  have htests : (b.calls cs1).tests_ = (b.calls cs2).tests_ := by
    rw [(calls_declarations cs1 b).1, (calls_declarations cs2 b).1,
      ← filterMap_declarations builder_call.declared_test
        (fun c hc => by cases c <;> simp_all [builder_call.is_declaration,
          builder_call.declared_test]) cs1,
      ← filterMap_declarations builder_call.declared_test
        (fun c hc => by cases c <;> simp_all [builder_call.is_declaration,
          builder_call.declared_test]) cs2, hdecl]
  have hsubs : (b.calls cs1).subsuites_ = (b.calls cs2).subsuites_ := by
    rw [(calls_declarations cs1 b).2, (calls_declarations cs2 b).2,
      ← filterMap_declarations builder_call.attached
        (fun c hc => by cases c <;> simp_all [builder_call.is_declaration,
          builder_call.attached]) cs1,
      ← filterMap_declarations builder_call.attached
        (fun c hc => by cases c <;> simp_all [builder_call.is_declaration,
          builder_call.attached]) cs2, hdecl]
  have hname : (b.calls cs1).name_ = (b.calls cs2).name_ := by
    rw [calls_name, calls_name]
  have hb : b.calls cs1 = b.calls cs2 := by
    cases h1 : b.calls cs1
    cases h2 : b.calls cs2
    simp only [h1, h2] at htests hsubs hname hsetup hteardown
    simp only [suite_builder_base.mk.injEq]
    exact ⟨hname, hsetup, hteardown, htests, hsubs⟩
  rw [hb]
  exact ⟨by rw [finalize_shape, finalize_shape], by rw [finalize_functions, finalize_functions]⟩

theorem hook_position_irrelevant_witness :
    (suite_builder.finalize
          { base := (suite_builder_base.create "suite fixtures").calls suite_fixtures_calls,
            construct := basic_fixture.construct } 3).1.shape
        = (suite_builder.finalize
          { base := (suite_builder_base.create "suite fixtures").calls
              suite_fixtures_calls_setup_first,
            construct := basic_fixture.construct } 6).1.shape ∧
      (suite_builder.finalize
          { base := (suite_builder_base.create "suite fixtures").calls suite_fixtures_calls,
            construct := basic_fixture.construct } 3).1.all_tests.map (fun t => t.function)
        = (suite_builder.finalize
          { base := (suite_builder_base.create "suite fixtures").calls
              suite_fixtures_calls_setup_first,
            construct := basic_fixture.construct } 6).1.all_tests.map (fun t => t.function) :=
  hook_position_irrelevant (suite_builder_base.create "suite fixtures")
    basic_fixture.construct suite_fixtures_calls suite_fixtures_calls_setup_first 3 6 rfl rfl rfl

mutual
theorem convert_all_tests_map {F F2 B : Type}
    (f : compiled_suite.test_info F → Nat → compiled_suite.test_info F2 × Nat)
    (g : compiled_suite.test_info F2 → B) (h : compiled_suite.test_info F → B)
    (hf : ∀ a c, g (f a c).1 = h a) :
    ∀ (s : compiled_suite F) (c : Nat),
      (compiled_suite.convert f s c).1.all_tests.map g = s.all_tests.map h
  | .mk name tests subs, c => by
    simp only [compiled_suite.convert, compiled_suite.all_tests, List.map_append]
    rw [compile_tests_map f g h hf, convert_list_tests_map f g h hf subs]
theorem convert_list_tests_map {F F2 B : Type}
    (f : compiled_suite.test_info F → Nat → compiled_suite.test_info F2 × Nat)
    (g : compiled_suite.test_info F2 → B) (h : compiled_suite.test_info F → B)
    (hf : ∀ a c, g (f a c).1 = h a) :
    ∀ (l : List (compiled_suite F)) (c : Nat),
      (compiled_suite.all_tests_of (compiled_suite.convert_all f l c).1).map g
        = (compiled_suite.all_tests_of l).map h
  | [], _ => rfl
  | s :: ss, c => by
    simp only [compiled_suite.convert_all, compiled_suite.all_tests_of, List.map_append]
    rw [convert_all_tests_map f g h hf s, convert_list_tests_map f g h hf ss]
end

/-- Over the whole tree and in order, a root finalize gives each test it holds the name, the
skip flag and the wrapped function of its declaration; the id counter plays no part. -/
theorem finalize_all_tests_map {G T : Type} (b : suite_builder G T) (c : Nat) :
    (b.finalize c).1.all_tests.map (fun t => (t.name, t.skip, t.function))
      = b.base.tests_.map (fun a => (a.name, a.skip, b.test_function a.function))
        ++ (compiled_suite.all_tests_of b.base.subsuites_).map
          (fun t => (t.name, t.skip, b.test_function t.function)) := by
  simp only [suite_builder.finalize, compiled_suite.construct, compiled_suite.all_tests,
    List.map_append]
  rw [compile_tests_map _ (fun t => (t.name, t.skip, t.function))
      (fun a => (a.name, a.skip, b.test_function a.function)) (fun _ _ => rfl),
    convert_list_tests_map _ (fun t => (t.name, t.skip, t.function))
      (fun t => (t.name, t.skip, b.test_function t.function)) (fun _ _ => rfl)]

/-- Over the whole tree and in order, a nested finalize gives each test it holds the name, the
skip flag and the wrapped function of its declaration; the id counter plays no part. -/
theorem subsuite_finalize_all_tests_map {G P U : Type} (b : subsuite_builder G P U) (c : Nat) :
    (b.finalize c).1.all_tests.map (fun t => (t.name, t.skip, t.function))
      = b.base.tests_.map (fun a => (a.name, a.skip, b.test_function a.function))
        ++ (compiled_suite.all_tests_of b.base.subsuites_).map
          (fun t => (t.name, t.skip, b.test_function t.function)) := by
  simp only [subsuite_builder.finalize, compiled_suite.construct, compiled_suite.all_tests,
    List.map_append]
  rw [compile_tests_map _ (fun t => (t.name, t.skip, t.function))
      (fun a => (a.name, a.skip, b.test_function a.function)) (fun _ _ => rfl),
    convert_list_tests_map _ (fun t => (t.name, t.skip, t.function))
      (fun t => (t.name, t.skip, b.test_function t.function)) (fun _ _ => rfl)]

/-- C23: the skip flag is no gate.  For the same name, function and builder, declaring with
`skip_test` instead of `test` gives, after finalize at whatever id counters, TestCases with the
same names and the same functions over the whole tree, hence the same hook calls in the same
order and the same Result for every call; the skip flags over the tree differ in the one
declaration alone, false for `test` and true for `skip_test`.  The lambdas that `wrap_test`
builds, at the root and at a nested level, do not read the flag. -/
theorem skip_is_not_a_gate {G T P U : Type} (b0 : suite_builder_base G T)
    (construct : default_constructor G T) (name : String) (f : function_type G T)
    (c1 c2 : Nat) (w : World G) (b : suite_builder G T) (n : subsuite_builder G P U)
    (g : function_type G (P × U)) :
    (suite_builder.finalize { base := b0.test name f, construct := construct }
          c1).1.all_tests.map (fun t => (t.name, t.function))
        = (suite_builder.finalize { base := b0.skip_test name f, construct := construct }
          c2).1.all_tests.map (fun t => (t.name, t.function)) ∧
      (suite_builder.finalize { base := b0.test name f, construct := construct }
          c1).1.all_tests.map (fun t => t.function w)
        = (suite_builder.finalize { base := b0.skip_test name f, construct := construct }
          c2).1.all_tests.map (fun t => t.function w) ∧
      (suite_builder.finalize { base := b0.test name f, construct := construct }
          c1).1.tests.map (fun t => t.skip)
        = b0.tests_.map (fun a => a.skip) ++ [false] ∧
      (suite_builder.finalize { base := b0.skip_test name f, construct := construct }
          c2).1.tests.map (fun t => t.skip)
        = b0.tests_.map (fun a => a.skip) ++ [true] ∧
      (b.wrap_test name f false c1).1.function = (b.wrap_test name f true c2).1.function ∧
      (b.wrap_test name f false c1).1.name = (b.wrap_test name f true c2).1.name ∧
      (n.wrap_test name g false c1).1.function = (n.wrap_test name g true c2).1.function := by
  have h1 := finalize_all_tests_map
    { base := b0.test name f, construct := construct } c1
  have h2 := finalize_all_tests_map
    { base := b0.skip_test name f, construct := construct } c2
  have hnf : (suite_builder.finalize { base := b0.test name f, construct := construct }
          c1).1.all_tests.map (fun t => (t.name, t.function))
        = (suite_builder.finalize { base := b0.skip_test name f, construct := construct }
          c2).1.all_tests.map (fun t => (t.name, t.function)) := by
    have e1 := congrArg (List.map (fun p : String × Bool × runnable_function G => (p.1, p.2.2))) h1
    have e2 := congrArg (List.map (fun p : String × Bool × runnable_function G => (p.1, p.2.2))) h2
    simp only [List.map_map, List.map_append, Function.comp_def] at e1 e2
    rw [e1, e2]
    simp only [suite_builder_base.test, suite_builder_base.skip_test, List.map_append,
      List.map_cons, List.map_nil]
    rfl
  refine ⟨hnf, ?_, ?_, ?_, rfl, rfl, rfl⟩
  · have e := congrArg (List.map (fun p : String × runnable_function G => p.2 w)) hnf
    simpa only [List.map_map, Function.comp_def] using e
  · simp only [suite_builder.finalize, compiled_suite.construct, compiled_suite.tests]
    rw [compile_tests_map _ (fun t => t.skip) (fun a => a.skip) (fun _ _ => rfl)]
    simp [suite_builder_base.test]
  · simp only [suite_builder.finalize, compiled_suite.construct, compiled_suite.tests]
    rw [compile_tests_map _ (fun t => t.skip) (fun a => a.skip) (fun _ _ => rfl)]
    simp [suite_builder_base.skip_test]

/-- C25: finalize reads the builder and can be repeated.  Two finalize calls on the same
builder, root or nested, at whatever id counters give trees with the same suite names, the same
subsuite structure and the same (test name, skip flag) pairs at every node, and, over the whole
tree in order, TestCases with the same names, skip flags and functions: nothing but the ids can
differ. -/
theorem finalize_repeatable {G T P U : Type} (b : suite_builder G T)
    (n : subsuite_builder G P U) (c1 c2 : Nat) :
    ((b.finalize c1).1.shape = (b.finalize c2).1.shape ∧
        (b.finalize c1).1.all_tests.map (fun t => (t.name, t.skip, t.function))
          = (b.finalize c2).1.all_tests.map (fun t => (t.name, t.skip, t.function))) ∧
      ((n.finalize c1).1.shape = (n.finalize c2).1.shape ∧
        (n.finalize c1).1.all_tests.map (fun t => (t.name, t.skip, t.function))
          = (n.finalize c2).1.all_tests.map (fun t => (t.name, t.skip, t.function))) := by
  refine ⟨⟨?_, ?_⟩, ⟨?_, ?_⟩⟩
  · rw [finalize_shape, finalize_shape]
  · rw [finalize_all_tests_map, finalize_all_tests_map]
  · rw [subsuite_finalize_shape, subsuite_finalize_shape]
  · rw [subsuite_finalize_all_tests_map, subsuite_finalize_all_tests_map]

/-- When the setup that runs returns normally, `run_test` throws what the teardown throws, or
else what the test threw, and leaves the fixtures the teardown leaves. -/
theorem run_test_outcome {G T : Type} (setup teardown : Option (function_type G T))
    (test : function_type G T) (t : T) (w : World G)
    (hs : (call_hook setup t w).thrown = none) :
    (run_test setup teardown test t w).thrown
        = (match (call_hook teardown
            (test (call_hook setup t w).fixtures (call_hook setup t w).world).fixtures
            (test (call_hook setup t w).fixtures (call_hook setup t w).world).world).thrown with
          | some e2 => some e2
          | none => (test (call_hook setup t w).fixtures (call_hook setup t w).world).thrown) ∧
      (run_test setup teardown test t w).fixtures
        = (call_hook teardown
            (test (call_hook setup t w).fixtures (call_hook setup t w).world).fixtures
            (test (call_hook setup t w).fixtures (call_hook setup t w).world).world).fixtures := by
  unfold run_test
  cases setup with
  | none =>
    simp only [call_hook] at hs ⊢
    cases hb : (test t w).thrown with
    | none =>
      cases teardown with
      | none => simp [hb]
      | some d => cases hd : (d (test t w).fixtures (test t w).world).thrown <;> simp [hd]
    | some e =>
      cases teardown with
      | none => simp [hb]
      | some d => cases hd : (d (test t w).fixtures (test t w).world).thrown <;> simp [hd]
  | some s =>
    simp only [call_hook] at hs ⊢
    simp only [hs]
    cases hb : (test (s t w).fixtures (s t w).world).thrown with
    | none =>
      cases teardown with
      | none => simp [hb]
      | some d =>
        cases hd : (d (test (s t w).fixtures (s t w).world).fixtures
          (test (s t w).fixtures (s t w).world).world).thrown <;> simp [hd]
    | some e =>
      cases teardown with
      | none => simp [hb]
      | some d =>
        cases hd : (d (test (s t w).fixtures (s t w).world).fixtures
          (test (s t w).fixtures (s t w).world).world).thrown <;> simp [hd]

/-- `run_test` over callables that depend only on the fixtures depends only on the fixtures. -/
theorem run_test_fixture_only {G T : Type} (setup teardown : Option (function_type G T))
    (test : function_type G T) (hs : fixture_only (call_hook setup))
    (hd : fixture_only (call_hook teardown)) (hb : fixture_only test) :
    fixture_only (run_test setup teardown test) := by
  intro t w1 w2
  have hs12 := hs t w1 w2
  cases h1 : (call_hook setup t w1).thrown with
  | some e =>
    have h2 : (call_hook setup t w2).thrown = some e := by rw [← hs12.1, h1]
    rw [run_test_of_hook_throws _ _ _ _ _ (by rw [h1]; exact Option.some_ne_none e),
      run_test_of_hook_throws _ _ _ _ _ (by rw [h2]; exact Option.some_ne_none e)]
    exact hs12
  | none =>
    have h2 : (call_hook setup t w2).thrown = none := by rw [← hs12.1, h1]
    have o1 := run_test_outcome setup teardown test t w1 h1
    have o2 := run_test_outcome setup teardown test t w2 h2
    rw [hs12.2] at o1
    have hb12 := hb (call_hook setup t w2).fixtures (call_hook setup t w1).world
      (call_hook setup t w2).world
    rw [hb12.2] at o1
    have hd12 := hd (test (call_hook setup t w2).fixtures (call_hook setup t w2).world).fixtures
      (test (call_hook setup t w2).fixtures (call_hook setup t w1).world).world
      (test (call_hook setup t w2).fixtures (call_hook setup t w2).world).world
    rw [hd12.1, hd12.2, hb12.1] at o1
    rw [o1.1, o1.2, o2.1, o2.2]
    exact ⟨rfl, rfl⟩

/-- A nested level's lambda over callables that depend only on the fixtures, with a
constructor that yields a default state, depends only on the fixtures. -/
theorem subsuite_test_function_fixture_only {G P U : Type} (b : subsuite_builder G P U)
    (f : function_type G (P × U)) (hs : fixture_only (call_hook b.base.setup_))
    (hd : fixture_only (call_hook b.base.teardown_)) (hc : default_state b.construct)
    (hf : fixture_only f) : fixture_only (b.test_function f) := by
  intro t w1 w2
  have hc12 := hc w1.globals w2.globals
  cases h1 : (b.construct w1.globals).1 with
  | error e =>
    have h2 : (b.construct w2.globals).1 = .error e := by rw [← hc12]; exact h1
    simp only [subsuite_builder.test_function, h1, h2]
    exact ⟨trivial, trivial⟩
  | ok u =>
    have h2 : (b.construct w2.globals).1 = .ok u := by rw [← hc12]; exact h1
    have h := run_test_fixture_only b.base.setup_ b.base.teardown_ f hs hd hf (t, u)
      { w1 with globals := (b.construct w1.globals).2 }
      { w2 with globals := (b.construct w2.globals).2 }
    simp only [subsuite_builder.test_function, h1, h2]
    exact ⟨h.1, congrArg Prod.fst h.2⟩

theorem nesting_wrap_fixture_only {G : Type} {P Q : Type} (chain : nesting G P Q) :
    ∀ f : function_type G Q, chain.fixture_only → fixture_only f →
      fixture_only (chain.wrap f) := by
  induction chain with
  | here => intro f _ hf; exact hf
  | level b inner ih =>
    intro f hc hf
    obtain ⟨hs, hd, hcons, hinner⟩ := hc
    exact subsuite_test_function_fixture_only b _ hs hd hcons (ih f hinner hf)

/-- C24: invocations are isolated.  Every TestCase of a finalized root suite, at any depth, is
the root lambda around some callable, and every call constructs its fixtures: in every world,
also the one an earlier call left, the root lambda runs its hooks on the tuple the constructor
yields at this call, and a nested level runs its hooks on the fixture its constructor yields at
this call, next to the references it was passed.  Nothing but the Result and the world leaves a
call.  So when the constructors yield a default state and the hooks and the body of every
level depend only on the fixtures they are passed, the Result of a call is the same in every
world, and the same after a call of any TestCase of the builder as without it. -/
theorem invocations_isolated {G T Q P U : Type} (root : suite_builder G T)
    (chain : nesting G T Q) (level : subsuite_builder G P U)
    (body : function_type G Q) (w1 w2 : World G)
    (hc : default_state root.construct)
    (hs : fixture_only (call_hook root.base.setup_))
    (hd : fixture_only (call_hook root.base.teardown_))
    (hchain : chain.fixture_only) (hb : fixture_only body) :
    (∀ (id_ : Nat) (tc : compiled_suite.test_info (runnable_function G)),
        tc ∈ (root.finalize id_).1.all_tests → ∃ f, tc.function = root.test_function f) ∧
      (∀ (f : function_type G T) (w : World G) (t0 : T),
        (root.construct w.globals).1 = .ok t0 →
        (root.test_function f w).world
            = (run_test root.base.setup_ root.base.teardown_ f t0
                { w with globals := (root.construct w.globals).2 }).world ∧
          (root.test_function f w).result
            = .ok (match (run_test root.base.setup_ root.base.teardown_ f t0
                { w with globals := (root.construct w.globals).2 }).thrown with
              | none => { passed := true, message := "" }
              | some e => { passed := false, message := root_message e })) ∧
      (∀ (f : function_type G (P × U)) (args : P) (w : World G) (u0 : U),
        (level.construct w.globals).1 = .ok u0 →
        level.test_function f args w
          = { thrown := (run_test level.base.setup_ level.base.teardown_ f (args, u0)
                { w with globals := (level.construct w.globals).2 }).thrown,
              fixtures := (run_test level.base.setup_ level.base.teardown_ f (args, u0)
                { w with globals := (level.construct w.globals).2 }).fixtures.1,
              world := (run_test level.base.setup_ level.base.teardown_ f (args, u0)
                { w with globals := (level.construct w.globals).2 }).world }) ∧
      (root.test_function (chain.wrap body) w1).result
        = (root.test_function (chain.wrap body) w2).result ∧
      (∀ other : function_type G T,
        (root.test_function (chain.wrap body) (root.test_function other w1).world).result
          = (root.test_function (chain.wrap body) w1).result) := by
  have hf := nesting_wrap_fixture_only chain body hchain hb
  have key : ∀ v1 v2 : World G, (root.try_block (chain.wrap body) v1).1
      = (root.try_block (chain.wrap body) v2).1 := by
    intro v1 v2
    have hc12 := hc v1.globals v2.globals
    cases h1 : (root.construct v1.globals).1 with
    | error e =>
      have h2 : (root.construct v2.globals).1 = .error e := by rw [← hc12]; exact h1
      simp only [suite_builder.try_block, h1, h2]
    | ok t0 =>
      have h2 : (root.construct v2.globals).1 = .ok t0 := by rw [← hc12]; exact h1
      simp only [suite_builder.try_block, h1, h2]
      exact (run_test_fixture_only root.base.setup_ root.base.teardown_ _ hs hd hf t0 _ _).1
  have hres : ∀ v1 v2 : World G, (root.test_function (chain.wrap body) v1).result
      = (root.test_function (chain.wrap body) v2).result := by
    intro v1 v2
    rw [test_function_result, test_function_result, key v1 v2]
  refine ⟨fun id_ tc htc => finalize_all_tests_function root id_ tc htc, ?_, ?_, hres w1 w2,
    fun other => hres _ _⟩
  · intro f w t0 h
    rw [test_function_world, test_function_result]
    simp only [suite_builder.try_block, h]
    exact ⟨trivial, trivial⟩
  · intro f args w u0 h
    simp only [subsuite_builder.test_function, h]

theorem invocations_isolated_witness :
    ((noting_builder.test_function
          ((nesting.level noting_subsuite nesting.here).wrap expecting_body)
          (noting_builder.test_function
            ((nesting.level noting_subsuite nesting.here).wrap expecting_body)
            nothing_noted).world).world
        = { trace := [], globals := [0, 1, 7, 8, 0, 1, 7, 8] } ∧
      (noting_builder.test_function
          ((nesting.level noting_subsuite nesting.here).wrap expecting_body)
          (noting_builder.test_function
            ((nesting.level noting_subsuite nesting.here).wrap expecting_body)
            nothing_noted).world).result = .ok { passed := true, message := "" }) ∧
      noting_subsuite.test_function failing_body { data := 1 }
          { trace := [], globals := [0, 1, 7, 8, 0] }
        = { thrown := some (.expectation_error "failed"), fixtures := { data := 8 },
            world := { trace := [], globals := [0, 1, 7, 8, 0, 1, 7] } } ∧
      (noting_builder.test_function
          ((nesting.level noting_subsuite nesting.here).wrap expecting_body)
          nothing_noted).result
        = (noting_builder.test_function
            ((nesting.level noting_subsuite nesting.here).wrap expecting_body)
            { trace := ["an earlier call"], globals := [0, 1, 7, 8] }).result ∧
      (noting_builder.test_function
          ((nesting.level noting_subsuite nesting.here).wrap expecting_body)
          (noting_builder.test_function (noting_subsuite.test_function failing_body)
            nothing_noted).world).result
        = (noting_builder.test_function
            ((nesting.level noting_subsuite nesting.here).wrap expecting_body)
            nothing_noted).result ∧
      (noting_builder.test_function
          ((nesting.level noting_subsuite nesting.here).wrap expecting_body)
          nothing_noted).result = .ok { passed := true, message := "" } :=
  ⟨(invocations_isolated noting_builder (nesting.level noting_subsuite nesting.here)
        noting_subsuite expecting_body nothing_noted
        { trace := ["an earlier call"], globals := [0, 1, 7, 8] }
        (fun _ _ => rfl) (fun _ _ _ => ⟨rfl, rfl⟩) (fun _ _ _ => ⟨rfl, rfl⟩)
        ⟨fun _ _ _ => ⟨rfl, rfl⟩, fun _ _ _ => ⟨rfl, rfl⟩, fun _ _ => rfl, trivial⟩
        (fun _ _ _ => ⟨rfl, rfl⟩)).2.1 _ _ { data := 0 } rfl,
    (invocations_isolated noting_builder (nesting.level noting_subsuite nesting.here)
        noting_subsuite expecting_body nothing_noted
        { trace := ["an earlier call"], globals := [0, 1, 7, 8] }
        (fun _ _ => rfl) (fun _ _ _ => ⟨rfl, rfl⟩) (fun _ _ _ => ⟨rfl, rfl⟩)
        ⟨fun _ _ _ => ⟨rfl, rfl⟩, fun _ _ _ => ⟨rfl, rfl⟩, fun _ _ => rfl, trivial⟩
        (fun _ _ _ => ⟨rfl, rfl⟩)).2.2.1 failing_body { data := 1 } _ () rfl,
    (invocations_isolated noting_builder (nesting.level noting_subsuite nesting.here)
        noting_subsuite expecting_body nothing_noted
        { trace := ["an earlier call"], globals := [0, 1, 7, 8] }
        (fun _ _ => rfl) (fun _ _ _ => ⟨rfl, rfl⟩) (fun _ _ _ => ⟨rfl, rfl⟩)
        ⟨fun _ _ _ => ⟨rfl, rfl⟩, fun _ _ _ => ⟨rfl, rfl⟩, fun _ _ => rfl, trivial⟩
        (fun _ _ _ => ⟨rfl, rfl⟩)).2.2.2.1,
    (invocations_isolated noting_builder (nesting.level noting_subsuite nesting.here)
        noting_subsuite expecting_body nothing_noted
        { trace := ["an earlier call"], globals := [0, 1, 7, 8] }
        (fun _ _ => rfl) (fun _ _ _ => ⟨rfl, rfl⟩) (fun _ _ _ => ⟨rfl, rfl⟩)
        ⟨fun _ _ _ => ⟨rfl, rfl⟩, fun _ _ _ => ⟨rfl, rfl⟩, fun _ _ => rfl, trivial⟩
        (fun _ _ _ => ⟨rfl, rfl⟩)).2.2.2.2 (noting_subsuite.test_function failing_body),
    rfl⟩

/-- C26, as stated, fails: a nested level with no setup and a counted teardown, below a root
whose setup throws, is never reached, so its teardown is not called although its setup is
absent. -/
theorem teardown_of_unreached_level_counterexample :
    no_setup_builder.base.setup_ = none ∧
      ((counted_builder (throws (.other 7)) returns).test_function
          (no_setup_builder.test_function (run_counter "test" returns))
          fresh_world).world.trace = ["setup"] ∧
      List.count "inner teardown"
        ((counted_builder (throws (.other 7)) returns).test_function
          (no_setup_builder.test_function (run_counter "test" returns))
          fresh_world).world.trace = 0 :=
  ⟨rfl, rfl, by decide⟩

/-- C26, amended: setup and teardown are paired in the run of a level that is reached, for
every behaviour of the setup, of the counted teardown and of what runs inside the level (the
body, or the inner levels with their setups and teardowns).  When the level's setup throws, the
run is the setup's run and nothing more: the teardown is not called and nothing inside is
reached.  When the setup returns normally, or is absent, the log after the run is the log what
runs inside left, followed by the teardown's entry exactly once, whether what runs inside
returned or threw and whatever the teardown does. -/
theorem teardown_paired_with_setup {G T : Type} (setup : Option (function_type G T))
    (D : String) (d : behaviour G T) (inside : function_type G T) (t : T) (w : World G) :
    ((call_hook setup t w).thrown ≠ none →
        run_test setup (some (run_counter D d)) inside t w = call_hook setup t w) ∧
      ((call_hook setup t w).thrown = none →
        (run_test setup (some (run_counter D d)) inside t w).world.trace
          = (inside (call_hook setup t w).fixtures (call_hook setup t w).world).world.trace
            ++ [D]) := by
  refine ⟨fun h => run_test_of_hook_throws _ _ _ _ _ h, fun h => ?_⟩
  rw [run_test_world _ _ _ _ _ h]
  rfl

theorem teardown_paired_with_setup_witness :
    (((call_hook (some (run_counter "setup" returns)) () fresh_world).thrown ≠ none →
        run_test (some (run_counter "setup" returns)) (some (run_counter "teardown" returns))
            ((failing_setup_builder Unit "inner setup" "inner teardown"
              (.other 7)).test_function (run_counter "test" returns)) () fresh_world
          = call_hook (some (run_counter "setup" returns)) () fresh_world) ∧
      ((call_hook (some (run_counter "setup" returns)) () fresh_world).thrown = none →
        (run_test (some (run_counter "setup" returns)) (some (run_counter "teardown" returns))
            ((failing_setup_builder Unit "inner setup" "inner teardown"
              (.other 7)).test_function (run_counter "test" returns)) ()
            fresh_world).world.trace
          = (((failing_setup_builder Unit "inner setup" "inner teardown"
              (.other 7)).test_function (run_counter "test" returns))
              (call_hook (some (run_counter "setup" returns)) () fresh_world).fixtures
              (call_hook (some (run_counter "setup" returns)) ()
                fresh_world).world).world.trace ++ ["teardown"])) ∧
      (run_test (some (run_counter "setup" returns)) (some (run_counter "teardown" returns))
          ((failing_setup_builder Unit "inner setup" "inner teardown"
            (.other 7)).test_function (run_counter "test" returns)) ()
          fresh_world).world.trace = ["setup", "inner setup", "teardown"] ∧
      (run_test (some (run_counter "setup" returns)) (some (run_counter "teardown" returns))
          (run_counter "test" (throws (.other 7))) () fresh_world).world.trace
        = ["setup", "test", "teardown"] ∧
      (run_test (some (run_counter "setup" (throws (.other 7))))
          (some (run_counter "teardown" returns)) (run_counter "test" returns) ()
          fresh_world).world.trace = ["setup"] :=
  ⟨teardown_paired_with_setup (some (run_counter "setup" returns)) "teardown" returns
      ((failing_setup_builder Unit "inner setup" "inner teardown" (.other 7)).test_function
        (run_counter "test" returns)) () fresh_world,
    rfl, rfl, rfl⟩

theorem calls_without_setup {G T : Type} (cs : List (builder_call G T)) :
    ∀ b : suite_builder_base G T, (∀ c ∈ cs, c.is_setup = false) →
      (b.calls cs).setup_ = b.setup_ := by
  induction cs with
  | nil => intro b _; rfl
  | cons c cs ih =>
    intro b h
    rw [calls_cons, ih _ (fun x hx => h x (List.mem_cons_of_mem _ hx))]
    have hc := h c (List.mem_cons_self _ _)
    cases c <;> first | rfl | simp [builder_call.is_setup] at hc

theorem calls_without_teardown {G T : Type} (cs : List (builder_call G T)) :
    ∀ b : suite_builder_base G T, (∀ c ∈ cs, c.is_teardown = false) →
      (b.calls cs).teardown_ = b.teardown_ := by
  induction cs with
  | nil => intro b _; rfl
  | cons c cs ih =>
    intro b h
    rw [calls_cons, ih _ (fun x hx => h x (List.mem_cons_of_mem _ hx))]
    have hc := h c (List.mem_cons_self _ _)
    cases c <;> first | rfl | simp [builder_call.is_teardown] at hc

/-- C27: an absent hook is a no-op.  A fresh builder on which `setup` (or `teardown`) is never
called has no setup (no teardown).  On a root builder whose hooks, where registered, are counted
and do not throw, and whose fixture constructs, one call of a TestCase with a counted body that
does not throw logs the setup if one is registered, then the body exactly once, then the
teardown if one is registered, nothing else, and returns passed = true with the empty
message. -/
theorem absent_hook_is_no_op {G T : Type} (b : suite_builder G T) (B : String)
    (body : behaviour G T) (registered_setup registered_teardown : Option (String × behaviour G T))
    (w : World G)
    (hsetup : b.base.setup_ = registered_setup.map (fun p => run_counter p.1 p.2))
    (hteardown : b.base.teardown_ = registered_teardown.map (fun p => run_counter p.1 p.2))
    (hconstruct : ∀ g, ∃ t, (b.construct g).1 = .ok t)
    (hs : ∀ p, registered_setup = some p → ∀ t g, (p.2 t g).1 = none)
    (hd : ∀ p, registered_teardown = some p → ∀ t g, (p.2 t g).1 = none)
    (hb : ∀ t g, (body t g).1 = none) :
    (b.test_function (run_counter B body) w).world.trace
        = w.trace ++ (registered_setup.map (fun p => p.1)).toList ++ [B]
          ++ (registered_teardown.map (fun p => p.1)).toList ∧
      (b.test_function (run_counter B body) w).result = .ok { passed := true, message := "" } ∧
      (∀ (name : String) (cs : List (builder_call G T)), (∀ c ∈ cs, c.is_setup = false) →
        ((suite_builder_base.create name).calls cs).setup_ = none) ∧
      (∀ (name : String) (cs : List (builder_call G T)), (∀ c ∈ cs, c.is_teardown = false) →
        ((suite_builder_base.create name).calls cs).teardown_ = none) := by
  obtain ⟨t, ht⟩ := hconstruct w.globals
  refine ⟨?_, ?_, fun name cs h => calls_without_setup cs _ h,
    fun name cs h => calls_without_teardown cs _ h⟩
  · cases registered_setup with
    | none =>
      cases registered_teardown with
      | none =>
        simp [suite_builder.test_function, suite_builder.try_block, ht, run_test, hsetup,
          hteardown, run_counter_thrown, hb, run_counter_trace]
      | some q =>
        simp [suite_builder.test_function, suite_builder.try_block, ht, run_test, hsetup,
          hteardown, run_counter_thrown, hb, hd q rfl, run_counter_trace]
    | some p =>
      cases registered_teardown with
      | none =>
        simp [suite_builder.test_function, suite_builder.try_block, ht, run_test, hsetup,
          hteardown, run_counter_thrown, hb, hs p rfl, run_counter_trace]
      | some q =>
        simp [suite_builder.test_function, suite_builder.try_block, ht, run_test, hsetup,
          hteardown, run_counter_thrown, hb, hs p rfl, hd q rfl, run_counter_trace]
  · cases registered_setup with
    | none =>
      cases registered_teardown with
      | none =>
        simp [suite_builder.test_function, suite_builder.try_block, ht, run_test, hsetup,
          hteardown, run_counter_thrown, hb]
      | some q =>
        simp [suite_builder.test_function, suite_builder.try_block, ht, run_test, hsetup,
          hteardown, run_counter_thrown, hb, hd q rfl]
    | some p =>
      cases registered_teardown with
      | none =>
        simp [suite_builder.test_function, suite_builder.try_block, ht, run_test, hsetup,
          hteardown, run_counter_thrown, hb, hs p rfl]
      | some q =>
        simp [suite_builder.test_function, suite_builder.try_block, ht, run_test, hsetup,
          hteardown, run_counter_thrown, hb, hs p rfl, hd q rfl]

theorem absent_hook_is_no_op_witness :
    (passing_test_builder.test_function (run_counter "test" returns) fresh_world).world.trace
        = [] ++ ((none : Option (String × behaviour Unit Unit)).map (fun p => p.1)).toList
          ++ ["test"] ++ ((none : Option (String × behaviour Unit Unit)).map (fun p => p.1)).toList ∧
      (passing_test_builder.test_function (run_counter "test" returns) fresh_world).result
        = .ok { passed := true, message := "" } ∧
      (∀ (name : String) (cs : List (builder_call Unit Unit)), (∀ c ∈ cs, c.is_setup = false) →
        ((suite_builder_base.create name).calls cs).setup_ = none) ∧
      (∀ (name : String) (cs : List (builder_call Unit Unit)),
        (∀ c ∈ cs, c.is_teardown = false) →
        ((suite_builder_base.create name).calls cs).teardown_ = none) :=
  absent_hook_is_no_op passing_test_builder "test" returns none none fresh_world rfl rfl
    (fun _ => ⟨(), rfl⟩) (fun p h => by cases h) (fun p h => by cases h) (fun _ _ => rfl)

end mettle
